import Mathlib

/-!
Loading the encrypted configuration descriptor of libcryfs.

A shallow embedding of `CryConfigLoader` (src/cryfs/impl/config/CryConfigLoader.cpp), of the
key providers, of the configuration part of `Cli` (src/cryfs-cli/Cli.cpp) up to `cryfs_init`
(src/jni/libcryfs-jni.cpp), and of the result mapping of the FUSE adapter
(src/fspp/fuse/Fuse.cpp).

Stateful code is written as explicit state passing over a `World` (descriptor files, local
state, basedir record, and a trace of the I/O the code performed).  A C++ function that may
throw returns `Except Thrown α × World`: the world reached is kept when an exception leaves the
function, because what was written before the throw stays written.

Collaborators whose code is not part of the sources at hand (version comparison, the
descriptor encryption, the local-state store, the descriptor creator) are fields of `Env`, so
every theorem holds for each implementation of them.
-/

namespace cryfs

/-! ## Data model -/

/-- Modelled from the spec: the enum declaration (cryfs/impl/ErrorCodes.h) is absent from the
sources.  The constructors carry the names under which the sources throw the rows of the spec's
error-code table, and `InaccessibleBaseDir`, which `Cli::_sanityChecks` throws. -/
inductive ErrorCode
  | WrongPassword
  | TooNewFilesystemFormat
  | TooOldFilesystemFormat
  | WrongCipher
  | InaccessibleBaseDir
  | InvalidFilesystem
  | FilesystemIdChanged
  | FilesystemHasDifferentIntegritySetup
  | SingleClientFileSystem
  | IntegrityViolation
  deriving DecidableEq, Repr

/-- The exception class `CryfsException(message, errorCode)` with its two observers
`what()` and `errorCode()`. -/
structure CryfsException where
  what : String
  errorCode : ErrorCode
  deriving DecidableEq, Repr

/-- What a C++ function can throw: a `CryfsException`, or any other `std::exception`
(an I/O failure, a `std::logic_error`, a failed `ASSERT`). -/
inductive Thrown
  | cryfs (e : CryfsException)
  | other (what : String)
  deriving DecidableEq, Repr

/-- Modelled from the spec: the class declaration (CryConfig.h) is absent from the sources.  The
fields are the rows of the spec's Descriptor table, under the accessor names the sources call. -/
structure CryConfig where
  RootBlob : String
  EncryptionKey : String
  Cipher : String
  Version : String
  CreatedWithVersion : String
  LastOpenedWithVersion : String
  BlocksizeBytes : Nat
  FilesystemId : List Nat
  ExclusiveClientId : Option Nat
  deriving DecidableEq, Repr

/-- The setter `CryConfig::SetVersion`. -/
def CryConfig.SetVersion (self : CryConfig) (value : String) : CryConfig :=
  { self with Version := value }

/-- The setter `CryConfig::SetLastOpenedWithVersion`. -/
def CryConfig.SetLastOpenedWithVersion (self : CryConfig) (value : String) : CryConfig :=
  { self with LastOpenedWithVersion := value }

/-- The enum `CryConfigFile::LoadError`, with the two values `Cli::_loadOrCreateConfig`
switches over. -/
inductive LoadError
  | ConfigFileNotFound
  | DecryptionFailed
  deriving DecidableEq, Repr

/-- The enum `CryConfigFile::Access`. -/
inductive Access
  | ReadOnly
  | ReadWrite
  deriving DecidableEq, Repr

/-- The struct `SizedData`: a buffer (the bytes `data` points to) and its `size`. -/
structure SizedData where
  data : List Nat
  size : Nat
  deriving DecidableEq, Repr

/-- The interface `cpputils::PasswordBasedKDF` held by the password-based key provider. -/
structure PasswordBasedKDF where
  deriveExistingKey : Nat → String → List Nat → List Nat
  deriveNewKey : Nat → String → List Nat × List Nat

/-- The settings `cpputils::SCryptSettings` a `Cli` is constructed with; only passed on. -/
structure SCryptSettings where
  params : List Nat
  deriving DecidableEq, Repr

/-- The two implementations of `CryKeyProvider` in the sources, with their members.
`_returnedHash` is the nullable `SizedData*` sink (`none` for `nullptr`). -/
inductive CryKeyProvider
  | CryDirectKeyProvider (_encryptionKey : SizedData)
  | CryPresetPasswordBasedKeyProvider (_password : String) (_kdf : PasswordBasedKDF)
      (_returnedHash : Option Nat)

/-- The outer key a descriptor file is encrypted with, and the KDF parameters stored in clear
in the file header (the `CryConfigEncryptor` a `CryConfigFile` owns). -/
structure CryConfigEncryptor where
  key : List Nat
  kdfParameters : List Nat
  deriving DecidableEq, Repr

/-- An open descriptor file: the object `CryConfigFile` (path, configuration in memory,
encryptor, access mode). -/
structure CryConfigFile where
  path : String
  config : CryConfig
  encryptor : CryConfigEncryptor
  access : Access
  deriving DecidableEq, Repr

/-- The struct `CryConfigLoader::ConfigLoadResult`. -/
structure ConfigLoadResult where
  oldConfig : CryConfig
  configFile : CryConfigFile
  myClientId : Nat
  deriving DecidableEq, Repr

/-! ## The world the loader acts on -/

/-- A node of the file system at a descriptor path: a regular readable file with its bytes, or
something that exists but cannot be read as a file (a directory, a file without permission). -/
inductive FileNode
  | regular (bytes : List Nat)
  | unreadable
  deriving DecidableEq, Repr

/-- The I/O operations the modelled code performs, in the order it performs them. -/
inductive Event
  | configFileLoad (path : String)
  | configFileSave (path : String) (bytes : List Nat)
  | localStateLoadOrGenerate (filesystemId : List Nat)
  | basedirMetadataLoad
  | basedirMetadataSave
  deriving DecidableEq, Repr

/-- The per-filesystem-id records of the local state directory:
filesystem id, `myClientId`, key fingerprint. -/
abbrev LocalStateStore := List (List Nat × Nat × List Nat)

/-- The state outside the process: descriptor files by path, whether writing a descriptor
file fails, the local state records, the persisted basedir record, and the trace. -/
structure World where
  files : String → Option FileNode
  writeFails : Bool
  localState : LocalStateStore
  basedirs : List (String × List Nat)
  trace : List Event

/-- The world right after `CryConfigFile::load` read the file at `path`. -/
def World.afterLoad (w : World) (path : String) : World :=
  { w with trace := w.trace ++ [Event.configFileLoad path] }

/-- The collaborators of the loader whose code is not part of the sources at hand. -/
structure Env where
  /-- The comparison `gitversion::VersionCompare::isOlderThan(v1, v2)`. -/
  isOlderThan : String → String → Bool
  /-- The constant `CryConfig::FilesystemFormatVersion`. -/
  FilesystemFormatVersion : String
  /-- The running version `gitversion::VersionString()`. -/
  VersionString : String
  /-- Whether the build defines the preprocessor symbol `CRYFS_NO_COMPATIBILITY`. -/
  CRYFS_NO_COMPATIBILITY : Bool
  /-- Reading a descriptor out of file bytes with the key obtained from a key provider;
  `none` when the decryption fails. -/
  decrypt : List Nat → CryKeyProvider → Option (CryConfig × CryConfigEncryptor)
  /-- The file bytes of a descriptor under an encryptor. -/
  encrypt : CryConfigEncryptor → CryConfig → List Nat
  /-- The call `LocalStateMetadata::loadOrGenerate(statePath, encryptionKey, allowReplaced)`
  on the local state records: the client id or an exception, and the records afterwards. -/
  loadOrGenerate : LocalStateStore → List Nat → String → Bool →
    Except CryfsException Nat × LocalStateStore
  /-- The call `CryConfigCreator::create(cipher, blocksize, missingBlock, allowReplaced)`:
  a fresh configuration and the client id, or an exception, and the records afterwards. -/
  creatorCreate : Option String → Option Nat → Option Bool → Bool → LocalStateStore →
    Except Thrown (CryConfig × Nat) × LocalStateStore
  /-- The call `CryConfigEncryptorFactory::deriveNewKey(keyProvider)`. -/
  deriveNewKey : CryKeyProvider → Except Thrown CryConfigEncryptor
  /-- The key derivation `cpputils::SCrypt` constructed from scrypt settings. -/
  SCrypt : SCryptSettings → PasswordBasedKDF

/-! ## CryConfigFile -/

/-- Modelled from the spec: `CryConfigFile::load` (CryConfigFile.cpp) is absent from the
sources.  Per the Descriptor Envelope contract it reads the file, fails with
`ConfigFileNotFound` when there is no readable file and with `DecryptionFailed` when the
decryption fails, and writes nothing. -/
def CryConfigFile.load (env : Env) (path : String) (keyProvider : CryKeyProvider)
    (access : Access) (w : World) : (LoadError ⊕ CryConfigFile) × World :=
  let w1 : World := w.afterLoad path
  match w.files path with
  | some (FileNode.regular bytes) =>
    match env.decrypt bytes keyProvider with
    | some (config, encryptor) => (Sum.inr ⟨path, config, encryptor, access⟩, w1)
    | none => (Sum.inl LoadError.DecryptionFailed, w1)
  | _ => (Sum.inl LoadError.ConfigFileNotFound, w1)

/-- Modelled from the spec: `CryConfigFile::save` (CryConfigFile.cpp) is absent from the
sources.  Per the Descriptor Envelope contract it encodes and encrypts the configuration in
memory and replaces the file at its path, or fails with an I/O error and leaves the file. -/
def CryConfigFile.save (env : Env) (self : CryConfigFile) (w : World) :
    Except Thrown Unit × World :=
  if w.writeFails then (Except.error (Thrown.other "IoError"), w)
  else
    let bytes := env.encrypt self.encryptor self.config
    (Except.ok (),
      { w with
        files := fun p => if p = self.path then some (FileNode.regular bytes) else w.files p
        trace := w.trace ++ [Event.configFileSave self.path bytes] })

/-- Modelled from the spec: `CryConfigFile::create` (CryConfigFile.cpp) is absent from the
sources.  Per the create path of the Config Loader it derives the outer key and the KDF
parameters from the key provider and saves the descriptor under them. -/
def CryConfigFile.create (env : Env) (path : String) (config : CryConfig)
    (keyProvider : CryKeyProvider) (w : World) : Except Thrown CryConfigFile × World :=
  match env.deriveNewKey keyProvider with
  | Except.error e => (Except.error e, w)
  | Except.ok encryptor =>
    let result : CryConfigFile := ⟨path, config, encryptor, Access.ReadWrite⟩
    match result.save env w with
    | (Except.error e, w1) => (Except.error e, w1)
    | (Except.ok (), w1) => (Except.ok result, w1)

/-! ## CryConfigLoader -/

/-- The members of `CryConfigLoader` that the load path reads.  (`_creator` and
`_localStateDir` act on the local state records of the world.) -/
structure CryConfigLoader where
  _keyProvider : CryKeyProvider
  _cipherFromCommandLine : Option String
  _blocksizeBytesFromCommandLine : Option Nat
  _missingBlockIsIntegrityViolationFromCommandLine : Option Bool

/-- The function `CryConfigLoader::_checkVersion` (CryConfigLoader.cpp, lines 65-75). -/
def CryConfigLoader._checkVersion (env : Env) (config : CryConfig)
    (allowFilesystemUpgrade : Bool) : Except CryfsException Unit :=
  if env.isOlderThan config.Version "0.9.4" then
    Except.error ⟨"This filesystem is for CryFS " ++ config.Version ++ ". This format is not supported anymore. Please migrate the file system to a supported version first by opening it with CryFS 0.9.x (x>=4).", ErrorCode.TooOldFilesystemFormat⟩
  else if env.isOlderThan env.FilesystemFormatVersion config.Version then
    Except.error ⟨"This filesystem is for CryFS " ++ config.Version ++ " or later. Please update your CryFS version.", ErrorCode.TooNewFilesystemFormat⟩
  else if !allowFilesystemUpgrade && env.isOlderThan config.Version env.FilesystemFormatVersion then
    Except.error ⟨"This filesystem is for CryFS " ++ config.Version ++ " (or a later version with the same storage format). It has to be migrated.", ErrorCode.TooOldFilesystemFormat⟩
  else Except.ok ()

/-- The function `CryConfigLoader::_checkCipher` (lines 77-81): throws when
`_cipherFromCommandLine != none && config.Cipher() != *_cipherFromCommandLine`. -/
def CryConfigLoader._checkCipher (self : CryConfigLoader) (config : CryConfig) :
    Except CryfsException Unit :=
  match self._cipherFromCommandLine with
  | some cipher =>
    if config.Cipher ≠ cipher then
      Except.error ⟨"Filesystem uses " ++ config.Cipher ++ " cipher and not " ++ cipher ++ " as specified.", ErrorCode.WrongCipher⟩
    else Except.ok ()
  | none => Except.ok ()

/-- The function `CryConfigLoader::_checkMissingBlocksAreIntegrityViolations`
(lines 83-96). -/
def CryConfigLoader._checkMissingBlocksAreIntegrityViolations (self : CryConfigLoader)
    (configFile : CryConfigFile) (myClientId : Nat) : Except CryfsException Unit :=
  if self._missingBlockIsIntegrityViolationFromCommandLine = some true
      ∧ configFile.config.ExclusiveClientId = none then
    Except.error ⟨"You specified on the command line to treat missing blocks as integrity violations, but the file system is not setup to do that.", ErrorCode.FilesystemHasDifferentIntegritySetup⟩
  else if self._missingBlockIsIntegrityViolationFromCommandLine = some false
      ∧ configFile.config.ExclusiveClientId ≠ none then
    Except.error ⟨"You specified on the command line to not treat missing blocks as integrity violations, but the file system is setup to do that.", ErrorCode.FilesystemHasDifferentIntegritySetup⟩
  else
    match configFile.config.ExclusiveClientId with
    | some exclusiveClientId =>
      if exclusiveClientId ≠ myClientId then
        Except.error ⟨"File system is in single-client mode and can only be used from the client that created it.", ErrorCode.SingleClientFileSystem⟩
      else Except.ok ()
    | none => Except.ok ()

/-- The compatibility block of `CryConfigLoader::_loadConfig` (lines 39-44), compiled unless
`CRYFS_NO_COMPATIBILITY` is defined: releases 0.9.7 and 0.9.8 wrote their own version where
the format version 0.9.6 belonged, so the version is overwritten in memory. -/
def CryConfigLoader._loadConfig_compatibility (env : Env) (config : CryConfig) : CryConfig :=
  if ¬ env.CRYFS_NO_COMPATIBILITY = true
      ∧ (config.Version = "0.9.7" ∨ config.Version = "0.9.8") then
    config.SetVersion "0.9.6"
  else config

/-- The function `CryConfigLoader::_loadConfig` (lines 33-63). -/
def CryConfigLoader._loadConfig (env : Env) (self : CryConfigLoader) (filename : String)
    (allowFilesystemUpgrade allowReplacedFilesystem : Bool) (access : Access) (w : World) :
    Except Thrown (LoadError ⊕ ConfigLoadResult) × World :=
  match CryConfigFile.load env filename self._keyProvider access w with
  | (Sum.inl err, w) => (Except.ok (Sum.inl err), w)
  | (Sum.inr config, w) =>
    let oldConfig := config.config
    let config : CryConfigFile :=
      { config with config := CryConfigLoader._loadConfig_compatibility env config.config }
    match CryConfigLoader._checkVersion env config.config allowFilesystemUpgrade with
    | Except.error e => (Except.error (Thrown.cryfs e), w)
    | Except.ok () =>
      -- if (Version() != FilesystemFormatVersion) { SetVersion(..); if (ReadWrite) save(); }
      let versionStep : Except Thrown CryConfigFile × World :=
        if config.config.Version ≠ env.FilesystemFormatVersion then
          let config : CryConfigFile :=
            { config with config := config.config.SetVersion env.FilesystemFormatVersion }
          if access = Access.ReadWrite then
            match config.save env w with
            | (Except.error e, w) => (Except.error e, w)
            | (Except.ok (), w) => (Except.ok config, w)
          else (Except.ok config, w)
        else (Except.ok config, w)
      match versionStep with
      | (Except.error e, w) => (Except.error e, w)
      | (Except.ok config, w) =>
        -- if (LastOpenedWithVersion() != VersionString()) { Set..(..); if (ReadWrite) save(); }
        let lastOpenedStep : Except Thrown CryConfigFile × World :=
          if config.config.LastOpenedWithVersion ≠ env.VersionString then
            let config : CryConfigFile :=
              { config with config := config.config.SetLastOpenedWithVersion env.VersionString }
            if access = Access.ReadWrite then
              match config.save env w with
              | (Except.error e, w) => (Except.error e, w)
              | (Except.ok (), w) => (Except.ok config, w)
            else (Except.ok config, w)
          else (Except.ok config, w)
        match lastOpenedStep with
        | (Except.error e, w) => (Except.error e, w)
        | (Except.ok config, w) =>
          match self._checkCipher config.config with
          | Except.error e => (Except.error (Thrown.cryfs e), w)
          | Except.ok () =>
            let w : World :=
              { w with trace :=
                  w.trace ++ [Event.localStateLoadOrGenerate config.config.FilesystemId] }
            match env.loadOrGenerate w.localState config.config.FilesystemId
                config.config.EncryptionKey allowReplacedFilesystem with
            | (Except.error e, localState) =>
              (Except.error (Thrown.cryfs e), { w with localState := localState })
            | (Except.ok myClientId, localState) =>
              let w : World := { w with localState := localState }
              match self._checkMissingBlocksAreIntegrityViolations config myClientId with
              | Except.error e => (Except.error (Thrown.cryfs e), w)
              | Except.ok () => (Except.ok (Sum.inr ⟨oldConfig, config, myClientId⟩), w)

/-- The function `CryConfigLoader::load` (lines 98-100). -/
def CryConfigLoader.load (env : Env) (self : CryConfigLoader) (filename : String)
    (allowFilesystemUpgrade allowReplacedFilesystem : Bool) (access : Access) (w : World) :
    Except Thrown (LoadError ⊕ ConfigLoadResult) × World :=
  self._loadConfig env filename allowFilesystemUpgrade allowReplacedFilesystem access w

/-- The function `CryConfigLoader::_createConfig` (lines 119-123). -/
def CryConfigLoader._createConfig (env : Env) (self : CryConfigLoader) (filename : String)
    (allowReplacedFilesystem : Bool) (w : World) : Except Thrown ConfigLoadResult × World :=
  match env.creatorCreate self._cipherFromCommandLine self._blocksizeBytesFromCommandLine
      self._missingBlockIsIntegrityViolationFromCommandLine allowReplacedFilesystem
      w.localState with
  | (Except.error e, localState) => (Except.error e, { w with localState := localState })
  | (Except.ok (config, myClientId), localState) =>
    match CryConfigFile.create env filename config self._keyProvider
        { w with localState := localState } with
    | (Except.error e, w) => (Except.error e, w)
    | (Except.ok result, w) => (Except.ok ⟨config, result, myClientId⟩, w)

/-- The function `CryConfigLoader::loadOrCreate` (lines 102-108); `bf::exists(filename)` is
whether the world has a node at the path. -/
def CryConfigLoader.loadOrCreate (env : Env) (self : CryConfigLoader) (filename : String)
    (allowFilesystemUpgrade allowReplacedFilesystem : Bool) (w : World) :
    Except Thrown (LoadError ⊕ ConfigLoadResult) × World :=
  if (w.files filename).isSome then
    self._loadConfig env filename allowFilesystemUpgrade allowReplacedFilesystem
      Access.ReadWrite w
  else
    match self._createConfig env filename allowReplacedFilesystem w with
    | (Except.error e, w) => (Except.error e, w)
    | (Except.ok result, w) => (Except.ok (Sum.inr result), w)

/-! ## Basedir record -/

/-- Modelled from the spec: the class `BasedirMetadata` (cryfs/impl/localstate) is absent from
the sources.  Per the Local-State Store it is the mapping from basedir path to filesystem id,
read from and written to the local state directory. -/
structure BasedirMetadata where
  _data : List (String × List Nat)
  deriving DecidableEq, Repr

/-- Modelled from the spec: `BasedirMetadata::load` is absent from the sources; it reads the
persisted mapping. -/
def BasedirMetadata.load (w : World) : BasedirMetadata × World :=
  (⟨w.basedirs⟩, { w with trace := w.trace ++ [Event.basedirMetadataLoad] })

/-- Modelled from the spec: `basedir_fs_id(basedir)`, the filesystem id recorded for a
basedir, if any. -/
def BasedirMetadata.basedir_fs_id (self : BasedirMetadata) (basedir : String) :
    Option (List Nat) :=
  self._data.lookup basedir

/-- Modelled from the spec: `BasedirMetadata::filesystemIdForBasedirIsCorrect` is absent from
the sources.  Per step 8 of the loader the id is wrong exactly when a record is present and
differs from the id of the descriptor. -/
def BasedirMetadata.filesystemIdForBasedirIsCorrect (self : BasedirMetadata) (basedir : String)
    (filesystemId : List Nat) : Bool :=
  match self.basedir_fs_id basedir with
  | none => true
  | some recorded => decide (recorded = filesystemId)

/-- Modelled from the spec: `BasedirMetadata::updateFilesystemIdForBasedir` is absent from the
sources; it is `set_basedir_fs_id(basedir, filesystem_id)`. -/
def BasedirMetadata.updateFilesystemIdForBasedir (self : BasedirMetadata) (basedir : String)
    (filesystemId : List Nat) : BasedirMetadata :=
  ⟨(basedir, filesystemId) :: self._data.filter (fun entry => entry.1 ≠ basedir)⟩

/-- Modelled from the spec: `BasedirMetadata::save` is absent from the sources; it persists the
mapping. -/
def BasedirMetadata.save (self : BasedirMetadata) (w : World) : World :=
  { w with basedirs := self._data, trace := w.trace ++ [Event.basedirMetadataSave] }

/-! ## Cli -/

/-- The members of `cryfs_cli::program_options::ProgramOptions` (ProgramOptions.h), read
through accessors of the same names; `baseDir` is stored absolute. -/
structure ProgramOptions where
  baseDir : String
  configFile : Option String
  localStateDir : String
  allowFilesystemUpgrade : Bool
  allowReplacedFilesystem : Bool
  createMissingBasedir : Bool
  cipher : Option String
  blocksizeBytes : Option Nat
  allowIntegrityViolations : Bool
  missingBlockIsIntegrityViolation : Option Bool
  deriving DecidableEq, Repr

/-- The struct `Cli::Credentials` as `Cli::_createKeyProvider` and `cryfs_init` use it. -/
structure Credentials where
  password : Option String
  givenHash : SizedData
  returnedHash : Option Nat
  deriving DecidableEq, Repr

/-- The members of `Cli` the configuration path reads. -/
structure Cli where
  _scryptSettings : SCryptSettings

/-- The function `Cli::_determineConfigFile` (Cli.cpp, lines 74-80). -/
def Cli._determineConfigFile (options : ProgramOptions) : String :=
  match options.configFile with
  | none => options.baseDir ++ "/cryfs.config"
  | some configFile => configFile

/-- The function `Cli::_checkConfigIntegrity` (lines 82-91); its `localStateDir` is the local
state directory of the world. -/
def Cli._checkConfigIntegrity (basedir : String) (config : CryConfigFile)
    (allowReplacedFilesystem : Bool) (w : World) : Except Thrown Unit × World :=
  match BasedirMetadata.load w with
  | (basedirMetadata, w) =>
    if !allowReplacedFilesystem
        && !basedirMetadata.filesystemIdForBasedirIsCorrect basedir config.config.FilesystemId then
      (Except.error (Thrown.cryfs ⟨"The filesystem id in the config file is different to the last time we loaded a filesystem from this basedir.", ErrorCode.FilesystemIdChanged⟩), w)
    else
      -- Update local state (or create it if it didn't exist yet)
      let basedirMetadata :=
        basedirMetadata.updateFilesystemIdForBasedir basedir config.config.FilesystemId
      (Except.ok (), basedirMetadata.save w)

/-- The function `Cli::_createKeyProvider` (lines 108-118). -/
def Cli._createKeyProvider (env : Env) (self : Cli) (credentials : Credentials) :
    CryKeyProvider :=
  match credentials.password with
  | none => CryKeyProvider.CryDirectKeyProvider credentials.givenHash
  | some password =>
    CryKeyProvider.CryPresetPasswordBasedKeyProvider password (env.SCrypt self._scryptSettings)
      credentials.returnedHash

/-- The function `Cli::_loadOrCreateConfigFile` (lines 120-122). -/
def Cli._loadOrCreateConfigFile (env : Env) (self : Cli) (configFilePath : String)
    (credentials : Credentials) (cipher : Option String) (blocksizeBytes : Option Nat)
    (allowFilesystemUpgrade : Bool) (missingBlockIsIntegrityViolation : Option Bool)
    (allowReplacedFilesystem : Bool) (w : World) :
    Except Thrown (LoadError ⊕ ConfigLoadResult) × World :=
  CryConfigLoader.loadOrCreate env
    ⟨self._createKeyProvider env credentials, cipher, blocksizeBytes,
      missingBlockIsIntegrityViolation⟩
    configFilePath allowFilesystemUpgrade allowReplacedFilesystem w

/-- The function `Cli::_loadOrCreateConfig` (lines 93-106). -/
def Cli._loadOrCreateConfig (env : Env) (self : Cli) (options : ProgramOptions)
    (credentials : Credentials) (w : World) : Except Thrown ConfigLoadResult × World :=
  let configFile := Cli._determineConfigFile options
  match self._loadOrCreateConfigFile env configFile credentials options.cipher
      options.blocksizeBytes options.allowFilesystemUpgrade
      options.missingBlockIsIntegrityViolation options.allowReplacedFilesystem w with
  | (Except.error e, w) => (Except.error e, w)
  | (Except.ok (Sum.inl LoadError.DecryptionFailed), w) =>
    (Except.error (Thrown.cryfs ⟨"Failed to decrypt the config file. Did you enter the correct password?", ErrorCode.WrongPassword⟩), w)
  | (Except.ok (Sum.inl LoadError.ConfigFileNotFound), w) =>
    (Except.error (Thrown.cryfs ⟨"Could not find the cryfs.config file. Are you sure this is a valid CryFS file system?", ErrorCode.InvalidFilesystem⟩), w)
  | (Except.ok (Sum.inr config), w) =>
    match Cli._checkConfigIntegrity options.baseDir config.configFile
        options.allowReplacedFilesystem w with
    | (Except.error e, w) => (Except.error e, w)
    | (Except.ok (), w) => (Except.ok config, w)

/-! ## Key providers -/

/-- Modelled from the spec: the macro `ASSERT(condition, message)` (cpp-utils/assert) is absent
from the sources.  An assertion violation is a panic: it leaves the function with an exception
that carries the message. -/
def ASSERT (condition : Bool) (message : String) : Except Thrown Unit :=
  if condition then Except.ok () else Except.error (Thrown.other message)

/-- The library call `memcpy(dest, src, n)` on buffers that hold at least `n` bytes: the first
`n` bytes of `dest` become the first `n` bytes of `src`. -/
def memcpy (dest src : List Nat) (n : Nat) : List Nat :=
  src.take n ++ dest.drop n

/-- The struct `CryKeyProvider::KeyResult`. -/
structure KeyResult where
  key : List Nat
  kdfParameters : List Nat
  deriving DecidableEq, Repr

/-- The function `CryDirectKeyProvider::requestKeyForExistingFilesystem`
(CryDirectKeyProvider.cpp, lines 7-12); `EncryptionKey::Null(size)` is a key of `size` zero
bytes. -/
def CryDirectKeyProvider.requestKeyForExistingFilesystem (_encryptionKey : SizedData)
    (keySize : Nat) (_kdfParameters : List Nat) : Except Thrown (List Nat) :=
  match ASSERT (decide (_encryptionKey.size = keySize))
      "CryDirectKeyProvider: Invalid key size requested" with
  | Except.error e => Except.error e
  | Except.ok () =>
    let encryptionKey := List.replicate _encryptionKey.size 0
    Except.ok (memcpy encryptionKey _encryptionKey.data _encryptionKey.size)

/-- The function `CryDirectKeyProvider::requestKeyForNewFilesystem` (lines 14-16), which
throws a `std::logic_error`. -/
def CryDirectKeyProvider.requestKeyForNewFilesystem (_encryptionKey : SizedData)
    (_keySize : Nat) : Except Thrown KeyResult :=
  Except.error (Thrown.other "CryDirectKeyProvider can\x27t be used for new filesystems")

/-- The function `CryPresetPasswordBasedKeyProvider::requestKeyForExistingFilesystem`
(CryPresetPasswordBasedKeyProvider.cpp, lines 14-21).  It returns the key and, when
`_returnedHash` is not null, the address and the `data`, `size` it stores through it. -/
def CryPresetPasswordBasedKeyProvider.requestKeyForExistingFilesystem (_password : String)
    (_kdf : PasswordBasedKDF) (_returnedHash : Option Nat) (keySize : Nat)
    (kdfParameters : List Nat) : List Nat × Option (Nat × SizedData) :=
  let encryptionKey := _kdf.deriveExistingKey keySize _password kdfParameters
  match _returnedHash with
  | some address => (encryptionKey, some (address, ⟨encryptionKey, encryptionKey.length⟩))
  | none => (encryptionKey, none)

/-- The function `CryPresetPasswordBasedKeyProvider::requestKeyForNewFilesystem`
(lines 23-30).  It returns the key result and, when `_returnedHash` is not null, the address
and the `data`, `size` it stores through it. -/
def CryPresetPasswordBasedKeyProvider.requestKeyForNewFilesystem (_password : String)
    (_kdf : PasswordBasedKDF) (_returnedHash : Option Nat) (keySize : Nat) :
    KeyResult × Option (Nat × SizedData) :=
  let keyResult := _kdf.deriveNewKey keySize _password
  match _returnedHash with
  | some address =>
    (⟨keyResult.1, keyResult.2⟩, some (address, ⟨keyResult.1, keyResult.1.length⟩))
  | none => (⟨keyResult.1, keyResult.2⟩, none)

/-- The virtual call `CryKeyProvider::requestKeyForExistingFilesystem`, dispatched on the
implementation: the key or an exception, and what was stored through a sink. -/
def CryKeyProvider.requestKeyForExistingFilesystem (self : CryKeyProvider) (keySize : Nat)
    (kdfParameters : List Nat) : Except Thrown (List Nat) × Option (Nat × SizedData) :=
  match self with
  | CryKeyProvider.CryDirectKeyProvider _encryptionKey =>
    (CryDirectKeyProvider.requestKeyForExistingFilesystem _encryptionKey keySize kdfParameters,
      none)
  | CryKeyProvider.CryPresetPasswordBasedKeyProvider _password _kdf _returnedHash =>
    match CryPresetPasswordBasedKeyProvider.requestKeyForExistingFilesystem _password _kdf
        _returnedHash keySize kdfParameters with
    | (key, sink) => (Except.ok key, sink)

/-- The virtual call `CryKeyProvider::requestKeyForNewFilesystem`, dispatched on the
implementation: the key result or an exception, and what was stored through a sink. -/
def CryKeyProvider.requestKeyForNewFilesystem (self : CryKeyProvider) (keySize : Nat) :
    Except Thrown KeyResult × Option (Nat × SizedData) :=
  match self with
  | CryKeyProvider.CryDirectKeyProvider _encryptionKey =>
    (CryDirectKeyProvider.requestKeyForNewFilesystem _encryptionKey keySize, none)
  | CryKeyProvider.CryPresetPasswordBasedKeyProvider _password _kdf _returnedHash =>
    match CryPresetPasswordBasedKeyProvider.requestKeyForNewFilesystem _password _kdf
        _returnedHash keySize with
    | (keyResult, sink) => (Except.ok keyResult, sink)

/-- The comparison of an environment is a strict order on version strings: no two versions
are each older than the other, and being older is transitive. -/
def Env.versionOrder (env : Env) : Prop :=
  (∀ a b, env.isOlderThan a b = true → env.isOlderThan b a = false)
  ∧ (∀ a b c, env.isOlderThan a b = true → env.isOlderThan b c = true →
      env.isOlderThan a c = true)

/-- The configuration `_loadConfig` holds in memory once both refresh steps (lines 46-57) have
run: the fixed-up configuration with the current format version and the running version as
last-opened version. -/
def CryConfigLoader.refreshed (env : Env) (config : CryConfig) : CryConfig :=
  ((CryConfigLoader._loadConfig_compatibility env config).SetVersion
    env.FilesystemFormatVersion).SetLastOpenedWithVersion env.VersionString

/-- The world a successful `CryConfigFile::save` of `bytes` at `path` leaves. -/
def World.afterSave (w : World) (path : String) (bytes : List Nat) : World :=
  { w with
    files := fun p => if p = path then some (FileNode.regular bytes) else w.files p
    trace := w.trace ++ [Event.configFileSave path bytes] }

/-- The world the envelope load and the two refresh steps of `_loadConfig` (lines 46-57) leave
when the saves succeed, for the fixed-up configuration `c`: under read-write access a save
after the format version was advanced, and a save after the last-opened version was set. -/
def World.afterRefresh (env : Env) (w : World) (filename : String) (c : CryConfig)
    (encryptor : CryConfigEncryptor) (access : Access) : World :=
  let w1 := w.afterLoad filename
  let w2 :=
    if access = Access.ReadWrite ∧ c.Version ≠ env.FilesystemFormatVersion then
      w1.afterSave filename (env.encrypt encryptor (c.SetVersion env.FilesystemFormatVersion))
    else w1
  if access = Access.ReadWrite ∧ c.LastOpenedWithVersion ≠ env.VersionString then
    w2.afterSave filename
      (env.encrypt encryptor
        ((c.SetVersion env.FilesystemFormatVersion).SetLastOpenedWithVersion env.VersionString))
  else w2

/-- Whether an event of the trace is a save of a descriptor file. -/
def Event.isConfigFileSave : Event → Bool
  | Event.configFileSave _ _ => true
  | _ => false

/-! ## Key change -/

/-- Modelled from the spec: `CryConfigEncryptorFactory::deriveNewKey` is absent from the
sources.  Per the key-change operation it takes the outer key and the KDF parameters from
`derive_for_new` of the key provider, for the key size the encryptor demands (the absent
constant `CryConfigEncryptor::MaxTotalKeySize`, here a parameter). -/
def CryConfigEncryptorFactory.deriveNewKey (MaxTotalKeySize : Nat)
    (keyProvider : CryKeyProvider) : Except Thrown CryConfigEncryptor :=
  match (keyProvider.requestKeyForNewFilesystem MaxTotalKeySize).1 with
  | Except.error e => Except.error e
  | Except.ok keyResult => Except.ok ⟨keyResult.key, keyResult.kdfParameters⟩

/-- The function `CryConfigLoader::changeEncryptionKey` (CryConfigLoader.cpp, lines 110-117):
`none` on success, the `LoadError` of the load otherwise. -/
def CryConfigLoader.changeEncryptionKey (env : Env) (self : CryConfigLoader)
    (filename : String) (allowFilesystemUpgrade allowReplacedFilesystem : Bool)
    (newKeyProvider : CryKeyProvider) (w : World) : Except Thrown (Option LoadError) × World :=
  match self._loadConfig env filename allowFilesystemUpgrade allowReplacedFilesystem
      Access.ReadWrite w with
  | (Except.error e, w) => (Except.error e, w)
  | (Except.ok (Sum.inl err), w) => (Except.ok (some err), w)
  | (Except.ok (Sum.inr config), w) =>
    match env.deriveNewKey newKeyProvider with
    | Except.error e => (Except.error e, w)
    | Except.ok encryptor =>
      match CryConfigFile.save env
          ⟨filename, config.configFile.config, encryptor, Access.ReadWrite⟩ w with
      | (Except.error e, w) => (Except.error e, w)
      | (Except.ok (), w) => (Except.ok none, w)

/-! ## Mounting -/

/-- The parts of mounting whose code is not part of the sources at hand. -/
structure MountEnv where
  /-- The call `bf::exists(dir)`. -/
  bf_exists : String → World → Bool
  /-- The call `bf::create_directory(dir)`: whether a directory was created, and the world
  after it. -/
  bf_create_directory : String → World → Bool × World
  /-- The call `bf::is_directory(dir)`. -/
  bf_is_directory : String → World → Bool
  /-- The steps of `Cli::initFilesystem` after the configuration is loaded (Cli.cpp, lines
  132-156): the construction of `CryDevice`, `_sanityCheckFilesystem`, `new Fuse` and
  `fuse->init()`; the address of the `Fuse` object or what was thrown. -/
  mount : ProgramOptions → ConfigLoadResult → World → Except Thrown Nat × World
  /-- The constant `SCrypt::DefaultSettings`. -/
  DefaultSettings : SCryptSettings

/-- The function `Cli::_checkDirAccessible` (Cli.cpp, lines 198-213). -/
def Cli._checkDirAccessible (menv : MountEnv) (dir name : String) (createMissingDir : Bool)
    (errorCode : ErrorCode) (w : World) : Except Thrown Unit × World :=
  let existsStep : Except Thrown Unit × World :=
    if !menv.bf_exists dir w then
      if createMissingDir then
        match menv.bf_create_directory dir w with
        | (false, w) => (Except.error (Thrown.cryfs ⟨"Error creating " ++ name, errorCode⟩), w)
        | (true, w) => (Except.ok (), w)
      else (Except.error (Thrown.cryfs ⟨name ++ " not found.", errorCode⟩), w)
    else (Except.ok (), w)
  match existsStep with
  | (Except.error e, w) => (Except.error e, w)
  | (Except.ok (), w) =>
    if !menv.bf_is_directory dir w then
      (Except.error (Thrown.cryfs ⟨name ++ " is not a directory.", errorCode⟩), w)
    else (Except.ok (), w)

/-- The function `Cli::_sanityChecks` (lines 194-196); the base directory of the options is
stored absolute. -/
def Cli._sanityChecks (menv : MountEnv) (options : ProgramOptions) (w : World) :
    Except Thrown Unit × World :=
  Cli._checkDirAccessible menv options.baseDir "base directory" options.createMissingBasedir
    ErrorCode.InaccessibleBaseDir w

/-- The function `Cli::initFilesystem` (lines 124-170): the `Fuse` pointer, 0 for `nullptr`.
Each of the three `catch` clauses only logs, after which the function returns `nullptr`.
The constructions of `LocalStateDir` and of the block store, which stand before the
configuration load, are taken not to throw. -/
def Cli.initFilesystem (env : Env) (menv : MountEnv) (self : Cli) (options : ProgramOptions)
    (credentials : Credentials) (w : World) : Except Thrown Nat × World :=
  let tryBlock : Except Thrown Nat × World :=
    match Cli._sanityChecks menv options w with
    | (Except.error e, w) => (Except.error e, w)
    | (Except.ok (), w) =>
      match self._loadOrCreateConfig env options credentials w with
      | (Except.error e, w) => (Except.error e, w)
      | (Except.ok config, w) => menv.mount options config w
  match tryBlock with
  | (Except.ok fuse, w) => (Except.ok fuse, w)
  -- catch (const CryfsException &e) { LOG } ... return nullptr;
  | (Except.error (Thrown.cryfs _), w) => (Except.ok 0, w)
  -- catch (const std::exception &e) { LOG } catch (...) { LOG } ... return nullptr;
  | (Except.error (Thrown.other _), w) => (Except.ok 0, w)

/-- The function `cryfs_init` (libcryfs-jni.cpp, lines 29-84): the returned `fusePtr` and the
error code it stores into `jerrorCode`, `none` when it stores nothing.  A `NULL` argument is
`none`.  The sink of the credentials is the address of a local, written 0; the handing back
of the hash and the bookkeeping of valid pointers after the `try` are left out. -/
def cryfs_init (env : Env) (menv : MountEnv) (jbaseDir jlocalStateDir : String)
    (jpassword : Option String) (jgivenHash : List Nat) (jreturnedHash : Option Nat)
    (createBaseDir : Bool) (jcipher : Option String) (w : World) :
    Except Thrown (Nat × Option ErrorCode) × World :=
  let cipher : Option String := jcipher
  let options : ProgramOptions :=
    ⟨jbaseDir, none, jlocalStateDir, false, false, createBaseDir, cipher, none, false, none⟩
  let credentials : Credentials :=
    match jpassword with
    | none => ⟨none, ⟨jgivenHash, jgivenHash.length⟩, none⟩
    | some password =>
      ⟨some password, ⟨[], 0⟩, match jreturnedHash with | none => none | some _ => some 0⟩
  match Cli.initFilesystem env menv ⟨menv.DefaultSettings⟩ options credentials w with
  | (Except.ok fuse, w) => (Except.ok (fuse, none), w)
  -- catch (const cryfs::CryfsException &e) { ... SetObjectField(jerrorCode, ..., integer); }
  | (Except.error (Thrown.cryfs e), w) => (Except.ok (0, some e.errorCode), w)
  | (Except.error (Thrown.other what), w) => (Except.error (Thrown.other what), w)

/-! ## FUSE adapter -/

/-- What a call into the file system can throw, as the `catch` clauses of `Fuse` tell it
apart: `cpputils::AssertFailed`, `fspp::fuse::FuseErrnoException` with its errno, another
`std::exception`, anything else. -/
inductive FuseThrown
  | AssertFailed (what : String)
  | FuseErrnoException (errno : Int)
  | std_exception (what : String)
  | other
  deriving DecidableEq, Repr

/-- The calls of the interface `fspp::fuse::Filesystem` that the operations below make, with
their arguments. -/
inductive FilesystemCall
  | lstat (path : String)
  | readSymlink (path : String) (size : Nat)
  | unlink (path : String)
  | rmdir (path : String)
  | rename (src dst : String)
  | chmod (path : String) (mode : Nat)
  | chown (path : String) (uid gid : Nat)
  | truncate (path : String) (size : Int)
  | utimens (path : String) (lastAccessTime lastModificationTime : Nat)
  | openFile (path : String) (flags : Int)
  | statfs
  | access (path : String) (mask : Int)
  | createAndOpenFile (path : String) (mode uid gid : Nat)
  deriving DecidableEq, Repr

/-- The library parts the operations of `Fuse` read: the queries of `boost::filesystem::path`,
a path being held as its `string()`, and the errno constants. -/
structure FuseEnv where
  has_root_directory : String → Bool
  has_root_name : String → Bool
  generic_string : String → String
  EIO : Int
  ENOSYS : Int

/-- The members of `Fuse` the operations read: the file system `_fs`, whose calls return a
value (0 where the call is `void`) or throw and leave a state of type `σ`, and the ids of
the mounting user. -/
structure Fuse (σ : Type) where
  _fs : FilesystemCall → σ → Except FuseThrown Nat × σ
  uid : Nat
  gid : Nat

/-- The state an operation of `Fuse` acts on: the state of the file system, the calls made
into `_fs` so far, and the `uint64_t` behind the `fh` argument of `open` and `create`. -/
structure FuseState (σ : Type) where
  fs : σ
  invoked : List FilesystemCall
  fh : Nat

/-- The function `is_valid_fspp_path` (Fuse.cpp, lines 38-43). -/
def is_valid_fspp_path (fenv : FuseEnv) (path : String) : Bool :=
  fenv.has_root_directory path
    && !fenv.has_root_name path
    && (path == fenv.generic_string path)

/-- A call `_fs->...`: its outcome, with the call recorded. -/
def Fuse.invoke {σ : Type} (self : Fuse σ) (call : FilesystemCall) (s : FuseState σ) :
    Except FuseThrown Nat × FuseState σ :=
  match self._fs call s.fs with
  | (r, fs) => (r, { s with fs := fs, invoked := s.invoked ++ [call] })

/-- The statement `ASSERT(is_valid_fspp_path(path), message)`, which throws
`cpputils::AssertFailed`. -/
def Fuse.assertValid (fenv : FuseEnv) (path message : String) : Except FuseThrown Unit :=
  match ASSERT (is_valid_fspp_path fenv path) message with
  | Except.error _ => Except.error (FuseThrown.AssertFailed message)
  | Except.ok () => Except.ok ()

/-- The four `catch` clauses that end each operation of `Fuse` with a `try` block:
`AssertFailed` gives `-EIO`, `FuseErrnoException` gives `-e.getErrno()`, `std::exception` and
everything else give `-EIO`. -/
def Fuse.catchClauses {σ : Type} (fenv : FuseEnv)
    (tryBlock : Except FuseThrown Int × FuseState σ) : Except FuseThrown Int × FuseState σ :=
  match tryBlock with
  | (Except.ok result, s) => (Except.ok result, s)
  | (Except.error (FuseThrown.AssertFailed _), s) => (Except.ok (- fenv.EIO), s)
  | (Except.error (FuseThrown.FuseErrnoException errno), s) => (Except.ok (-errno), s)
  | (Except.error (FuseThrown.std_exception _), s) => (Except.ok (- fenv.EIO), s)
  | (Except.error FuseThrown.other, s) => (Except.ok (- fenv.EIO), s)

/-- The `try` block shared by the operations on one path that drop what `_fs` returns:
the assertion on the path, the call, `return 0`. -/
def Fuse.tryCall {σ : Type} (fenv : FuseEnv) (self : Fuse σ) (path : String)
    (call : FilesystemCall) (s : FuseState σ) : Except FuseThrown Int × FuseState σ :=
  match Fuse.assertValid fenv path "has to be an absolute path" with
  | Except.error e => (Except.error e, s)
  | Except.ok () =>
    match self.invoke call s with
    | (Except.error e, s) => (Except.error e, s)
    | (Except.ok _, s) => (Except.ok 0, s)

/-- The `try` block of `open` and `create`: the assertion on the path, `*fh = _fs->...`,
`return 0`. -/
def Fuse.tryOpen {σ : Type} (fenv : FuseEnv) (self : Fuse σ) (path : String)
    (call : FilesystemCall) (s : FuseState σ) : Except FuseThrown Int × FuseState σ :=
  match Fuse.assertValid fenv path "has to be an absolute path" with
  | Except.error e => (Except.error e, s)
  | Except.ok () =>
    match self.invoke call s with
    | (Except.error e, s) => (Except.error e, s)
    | (Except.ok fh, s) => (Except.ok 0, { s with fh := fh })

/-- The function `Fuse::getattr` (Fuse.cpp, lines 97-124). -/
def Fuse.getattr {σ : Type} (fenv : FuseEnv) (self : Fuse σ) (path : String)
    (s : FuseState σ) : Except FuseThrown Int × FuseState σ :=
  Fuse.catchClauses fenv (self.tryCall fenv path (FilesystemCall.lstat path) s)

/-- The function `Fuse::readlink`. -/
def Fuse.readlink {σ : Type} (fenv : FuseEnv) (self : Fuse σ) (path : String) (size : Nat)
    (s : FuseState σ) : Except FuseThrown Int × FuseState σ :=
  Fuse.catchClauses fenv (self.tryCall fenv path (FilesystemCall.readSymlink path size) s)

/-- The function `Fuse::unlink`. -/
def Fuse.unlink {σ : Type} (fenv : FuseEnv) (self : Fuse σ) (path : String)
    (s : FuseState σ) : Except FuseThrown Int × FuseState σ :=
  Fuse.catchClauses fenv (self.tryCall fenv path (FilesystemCall.unlink path) s)

/-- The function `Fuse::rmdir`. -/
def Fuse.rmdir {σ : Type} (fenv : FuseEnv) (self : Fuse σ) (path : String)
    (s : FuseState σ) : Except FuseThrown Int × FuseState σ :=
  Fuse.catchClauses fenv (self.tryCall fenv path (FilesystemCall.rmdir path) s)

/-- The function `Fuse::rename` (lines 322-350), with an assertion on each path. -/
def Fuse.rename {σ : Type} (fenv : FuseEnv) (self : Fuse σ) (src dst : String)
    (s : FuseState σ) : Except FuseThrown Int × FuseState σ :=
  Fuse.catchClauses fenv
    (match Fuse.assertValid fenv src "from has to be an absolute path" with
    | Except.error e => (Except.error e, s)
    | Except.ok () =>
      match Fuse.assertValid fenv dst "rename target has to be an absolute path. If this assert throws, we have to add code here that makes the path absolute." with
      | Except.error e => (Except.error e, s)
      | Except.ok () =>
        match self.invoke (FilesystemCall.rename src dst) s with
        | (Except.error e, s) => (Except.error e, s)
        | (Except.ok _, s) => (Except.ok 0, s))

/-- The function `Fuse::link` (lines 352-361): it logs that it is not implemented and
returns `ENOSYS`. -/
def Fuse.link {σ : Type} (fenv : FuseEnv) (_self : Fuse σ) (_src _dst : String)
    (s : FuseState σ) : Except FuseThrown Int × FuseState σ :=
  (Except.ok fenv.ENOSYS, s)

/-- The function `Fuse::chmod`. -/
def Fuse.chmod {σ : Type} (fenv : FuseEnv) (self : Fuse σ) (path : String) (mode : Nat)
    (s : FuseState σ) : Except FuseThrown Int × FuseState σ :=
  Fuse.catchClauses fenv (self.tryCall fenv path (FilesystemCall.chmod path mode) s)

/-- The function `Fuse::chown`. -/
def Fuse.chown {σ : Type} (fenv : FuseEnv) (self : Fuse σ) (path : String) (uid gid : Nat)
    (s : FuseState σ) : Except FuseThrown Int × FuseState σ :=
  Fuse.catchClauses fenv (self.tryCall fenv path (FilesystemCall.chown path uid gid) s)

/-- The function `Fuse::truncate`. -/
def Fuse.truncate {σ : Type} (fenv : FuseEnv) (self : Fuse σ) (path : String) (size : Int)
    (s : FuseState σ) : Except FuseThrown Int × FuseState σ :=
  Fuse.catchClauses fenv (self.tryCall fenv path (FilesystemCall.truncate path size) s)

/-- The function `Fuse::utimens`. -/
def Fuse.utimens {σ : Type} (fenv : FuseEnv) (self : Fuse σ) (path : String)
    (lastAccessTime lastModificationTime : Nat) (s : FuseState σ) :
    Except FuseThrown Int × FuseState σ :=
  Fuse.catchClauses fenv
    (self.tryCall fenv path (FilesystemCall.utimens path lastAccessTime lastModificationTime) s)

/-- The function `Fuse::open` (lines 507-534). -/
def Fuse.open {σ : Type} (fenv : FuseEnv) (self : Fuse σ) (path : String) (flags : Int)
    (s : FuseState σ) : Except FuseThrown Int × FuseState σ :=
  Fuse.catchClauses fenv (self.tryOpen fenv path (FilesystemCall.openFile path flags) s)

/-- The function `Fuse::statfs`, which asserts on its path and calls `_fs->statfs(fsstat)`. -/
def Fuse.statfs {σ : Type} (fenv : FuseEnv) (self : Fuse σ) (path : String)
    (s : FuseState σ) : Except FuseThrown Int × FuseState σ :=
  Fuse.catchClauses fenv (self.tryCall fenv path FilesystemCall.statfs s)

/-- The function `Fuse::access`. -/
def Fuse.access {σ : Type} (fenv : FuseEnv) (self : Fuse σ) (path : String) (mask : Int)
    (s : FuseState σ) : Except FuseThrown Int × FuseState σ :=
  Fuse.catchClauses fenv (self.tryCall fenv path (FilesystemCall.access path mask) s)

/-- The function `Fuse::create` (lines 814-841). -/
def Fuse.create {σ : Type} (fenv : FuseEnv) (self : Fuse σ) (path : String) (mode : Nat)
    (s : FuseState σ) : Except FuseThrown Int × FuseState σ :=
  Fuse.catchClauses fenv
    (self.tryOpen fenv path (FilesystemCall.createAndOpenFile path mode self.uid self.gid) s)

/-- A request to one of the twelve operations of `Fuse` that take one path and return 0 on
success, with its arguments. -/
inductive FuseRequest
  | getattr (path : String)
  | readlink (path : String) (size : Nat)
  | unlink (path : String)
  | rmdir (path : String)
  | chmod (path : String) (mode : Nat)
  | chown (path : String) (uid gid : Nat)
  | truncate (path : String) (size : Int)
  | utimens (path : String) (lastAccessTime lastModificationTime : Nat)
  | open (path : String) (flags : Int)
  | statfs (path : String)
  | access (path : String) (mask : Int)
  | create (path : String) (mode : Nat)
  deriving DecidableEq, Repr

/-- The path of a request. -/
def FuseRequest.path : FuseRequest → String
  | FuseRequest.getattr path => path
  | FuseRequest.readlink path _ => path
  | FuseRequest.unlink path => path
  | FuseRequest.rmdir path => path
  | FuseRequest.chmod path _ => path
  | FuseRequest.chown path _ _ => path
  | FuseRequest.truncate path _ => path
  | FuseRequest.utimens path _ _ => path
  | FuseRequest.open path _ => path
  | FuseRequest.statfs path => path
  | FuseRequest.access path _ => path
  | FuseRequest.create path _ => path

/-- The operation of `Fuse` a request goes to. -/
def Fuse.handle {σ : Type} (fenv : FuseEnv) (self : Fuse σ) (request : FuseRequest)
    (s : FuseState σ) : Except FuseThrown Int × FuseState σ :=
  match request with
  | FuseRequest.getattr path => self.getattr fenv path s
  | FuseRequest.readlink path size => self.readlink fenv path size s
  | FuseRequest.unlink path => self.unlink fenv path s
  | FuseRequest.rmdir path => self.rmdir fenv path s
  | FuseRequest.chmod path mode => self.chmod fenv path mode s
  | FuseRequest.chown path uid gid => self.chown fenv path uid gid s
  | FuseRequest.truncate path size => self.truncate fenv path size s
  | FuseRequest.utimens path lastAccessTime lastModificationTime =>
    self.utimens fenv path lastAccessTime lastModificationTime s
  | FuseRequest.open path flags => self.open fenv path flags s
  | FuseRequest.statfs path => self.statfs fenv path s
  | FuseRequest.access path mask => self.access fenv path mask s
  | FuseRequest.create path mode => self.create fenv path mode s

/-- The call into `_fs` that the operation of a request makes: `getattr` calls `lstat`,
`readlink` calls `readSymlink`, `open` calls `openFile`, `create` calls `createAndOpenFile`
with the ids of the mounting user, `statfs` passes no path, and the others call the function
of their own name. -/
def Fuse.callOf {σ : Type} (self : Fuse σ) : FuseRequest → FilesystemCall
  | FuseRequest.getattr path => FilesystemCall.lstat path
  | FuseRequest.readlink path size => FilesystemCall.readSymlink path size
  | FuseRequest.unlink path => FilesystemCall.unlink path
  | FuseRequest.rmdir path => FilesystemCall.rmdir path
  | FuseRequest.chmod path mode => FilesystemCall.chmod path mode
  | FuseRequest.chown path uid gid => FilesystemCall.chown path uid gid
  | FuseRequest.truncate path size => FilesystemCall.truncate path size
  | FuseRequest.utimens path lastAccessTime lastModificationTime =>
    FilesystemCall.utimens path lastAccessTime lastModificationTime
  | FuseRequest.open path flags => FilesystemCall.openFile path flags
  | FuseRequest.statfs _ => FilesystemCall.statfs
  | FuseRequest.access path mask => FilesystemCall.access path mask
  | FuseRequest.create path mode => FilesystemCall.createAndOpenFile path mode self.uid self.gid

/-! ## A concrete environment

One implementation of the collaborators, on which the theorems below are instantiated. -/

namespace Sample

/-- The numbers of a dotted version string, read left to right. -/
def parseVersion : List Char → Nat → List Nat
  | [], acc => [acc]
  | c :: cs, acc =>
    if c = '.' then acc :: parseVersion cs 0
    else parseVersion cs (acc * 10 + (c.toNat - 48))

/-- Lexicographic order on version numbers. -/
def lexLt : List Nat → List Nat → Bool
  | [], [] => false
  | [], _ :: _ => true
  | _ :: _, [] => false
  | a :: as, b :: bs => if a < b then true else if b < a then false else lexLt as bs

/-- Modelled from the spec: `gitversion::VersionCompare::isOlderThan` is absent from the
sources; format versions are semver strings, compared number by number. -/
def isOlderThan (v1 v2 : String) : Bool :=
  lexLt (parseVersion v1.data 0) (parseVersion v2.data 0)

/-- A descriptor with the given format version and exclusive client id. -/
def config (version : String) (exclusiveClientId : Option Nat) : CryConfig :=
  { RootBlob := "root"
    EncryptionKey := "00ff"
    Cipher := "xchacha20-poly1305"
    Version := version
    CreatedWithVersion := version
    LastOpenedWithVersion := version
    BlocksizeBytes := 16384
    FilesystemId := [1, 2, 3, 4]
    ExclusiveClientId := exclusiveClientId }

/-- The descriptor a sample file holds, by its first byte. -/
def decode : List Nat → Option CryConfig
  | 0 :: _ => some (config "0.9.3" none)
  | 1 :: _ => some (config "0.9.6" none)
  | 2 :: _ => some (config "0.9.7" none)
  | 3 :: _ => some (config "0.10" none)
  | 4 :: _ => some (config "0.11" none)
  | 5 :: _ => some (config "0.10" (some 7))
  | _ => none

/-- The outer key the sample files are encrypted with. -/
def encryptor : CryConfigEncryptor := ⟨[42], [9]⟩

/-- A key derivation that ignores its parameters. -/
def kdf : PasswordBasedKDF :=
  { deriveExistingKey := fun _ password _ => password.data.map Char.toNat
    deriveNewKey := fun _ password => (password.data.map Char.toNat, [9]) }

/-- The sample environment: format version 0.10, running version 0.11.4, compatibility
enabled; files decrypt under the raw key `[42]` or the password `hunter2`; the local state store
hands out client id 7. -/
def env : Env :=
  { isOlderThan := isOlderThan
    FilesystemFormatVersion := "0.10"
    VersionString := "0.11.4"
    CRYFS_NO_COMPATIBILITY := false
    decrypt := fun bytes keyProvider =>
      match keyProvider with
      | CryKeyProvider.CryDirectKeyProvider key =>
        if key.data = [42] then (decode bytes).map (fun c => (c, encryptor)) else none
      | CryKeyProvider.CryPresetPasswordBasedKeyProvider password _ _ =>
        if password = "hunter2" then (decode bytes).map (fun c => (c, encryptor)) else none
    encrypt := fun _ c => [if c.ExclusiveClientId = none then 3 else 5]
    loadOrGenerate := fun store _ _ _ => (Except.ok 7, store)
    creatorCreate := fun _ _ _ _ store => (Except.ok (config "0.10" none, 7), store)
    deriveNewKey := fun _ => Except.ok encryptor
    SCrypt := fun _ => kdf }

/-- A loader holding the right raw key and no command-line overrides. -/
def loader : CryConfigLoader :=
  { _keyProvider := CryKeyProvider.CryDirectKeyProvider ⟨[42], 1⟩
    _cipherFromCommandLine := none
    _blocksizeBytesFromCommandLine := none
    _missingBlockIsIntegrityViolationFromCommandLine := none }

/-- A world whose basedir `/t` holds a descriptor file with the given bytes, with empty local
state and no basedir record. -/
def world (bytes : List Nat) : World :=
  { files := fun p => if p = "/t/cryfs.config" then some (FileNode.regular bytes) else none
    writeFails := false
    localState := []
    basedirs := []
    trace := [] }

/-- Options for the basedir `/t` with no overrides. -/
def options : ProgramOptions :=
  { baseDir := "/t"
    configFile := none
    localStateDir := "/state"
    allowFilesystemUpgrade := false
    allowReplacedFilesystem := false
    createMissingBasedir := false
    cipher := none
    blocksizeBytes := none
    allowIntegrityViolations := false
    missingBlockIsIntegrityViolation := none }

/-- The sample environment of a build whose current format version is 0.9.6. -/
def env096 : Env :=
  { env with FilesystemFormatVersion := "0.9.6" }

/-- The sample descriptor of format 0.9.6 as a load under `env` refreshes it. -/
def refreshedConfig : CryConfig :=
  { config "0.9.6" none with Version := "0.10", LastOpenedWithVersion := "0.11.4" }

/-- The sample environment with a codec that stores `refreshedConfig` as the byte 6 and reads
it back. -/
def storingEnv : Env :=
  { env with
    decrypt := fun bytes keyProvider =>
      match bytes with
      | 6 :: _ => (env.decrypt [3] keyProvider).map (fun _ => (refreshedConfig, encryptor))
      | _ => env.decrypt bytes keyProvider
    encrypt := fun _ c => if c = refreshedConfig then [6] else [3] }

/-- A loader holding the right raw key and a cipher override that no sample descriptor uses. -/
def cipherLoader : CryConfigLoader :=
  { loader with _cipherFromCommandLine := some "aes-256-gcm" }

/-- A loader holding the right raw key, told that missing blocks are no integrity violation. -/
def noIntegrityLoader : CryConfigLoader :=
  { loader with _missingBlockIsIntegrityViolationFromCommandLine := some false }

/-- The sample environment on a machine whose local state hands out client id 8. -/
def otherClientEnv : Env :=
  { env with loadOrGenerate := fun store _ _ _ => (Except.ok 8, store) }

/-- The sample environment with the storing codec, whose encryptor factory is the modelled one
for outer keys of 32 bytes. -/
def keyChangeEnv : Env :=
  { storingEnv with deriveNewKey := CryConfigEncryptorFactory.deriveNewKey 32 }

/-- A key provider bound to the password `hunter2`, without a sink. -/
def newKeyProvider : CryKeyProvider :=
  CryKeyProvider.CryPresetPasswordBasedKeyProvider "hunter2" kdf none

/-- A mounting environment whose base directory exists and whose mount gives the address
4096. -/
def mountEnv : MountEnv :=
  { bf_exists := fun _ _ => true
    bf_create_directory := fun _ w => (true, w)
    bf_is_directory := fun _ _ => true
    mount := fun _ _ w => (Except.ok 4096, w)
    DefaultSettings := ⟨[]⟩ }

/-- POSIX paths, with the errno values of Linux. -/
def fuseEnv : FuseEnv :=
  { has_root_directory := fun path => path.data.head? = some '/'
    has_root_name := fun _ => false
    generic_string := fun path => path
    EIO := 5
    ENOSYS := 38 }

/-- A file system that counts its calls; it knows the file `/a` only, any other path gives
`ENOENT` (2), and opening gives the handle 3. -/
def fuse : Fuse Nat :=
  { _fs := fun call n =>
      match call with
      | FilesystemCall.lstat path =>
        if path = "/a" then (Except.ok 0, n + 1)
        else (Except.error (FuseThrown.FuseErrnoException 2), n + 1)
      | FilesystemCall.openFile _ _ => (Except.ok 3, n + 1)
      | _ => (Except.ok 0, n + 1)
    uid := 1000
    gid := 1000 }

end Sample

/-! ## Helper lemmas -/

theorem Sample.lexLt_asymm : ∀ a b : List Nat, Sample.lexLt a b = true → Sample.lexLt b a = false
  | [], [], h => by simp [Sample.lexLt] at h
  | [], _ :: _, _ => by simp [Sample.lexLt]
  | _ :: _, [], h => by simp [Sample.lexLt] at h
  | a :: as, b :: bs, h => by
    unfold Sample.lexLt at h ⊢
    by_cases hab : a < b
    · have hba : ¬ b < a := by omega
      simp [hba, hab]
    · by_cases hba : b < a
      · simp [hab, hba] at h
      · simp only [hab, hba, if_false] at h ⊢
        exact Sample.lexLt_asymm as bs h

theorem Sample.lexLt_trans : ∀ a b c : List Nat,
    Sample.lexLt a b = true → Sample.lexLt b c = true → Sample.lexLt a c = true
  | [], [], _, h, _ => by simp [Sample.lexLt] at h
  | [], _ :: _, [], _, h => by simp [Sample.lexLt] at h
  | [], _ :: _, _ :: _, _, _ => by simp [Sample.lexLt]
  | _ :: _, [], _, h, _ => by simp [Sample.lexLt] at h
  | _ :: _, _ :: _, [], _, h => by simp [Sample.lexLt] at h
  | a :: as, b :: bs, c :: cs, h1, h2 => by
    unfold Sample.lexLt at h1 h2 ⊢
    by_cases hab : a < b
    · by_cases hbc : b < c
      · have hac : a < c := by omega
        simp [hac]
      · by_cases hcb : c < b
        · simp [hbc, hcb] at h2
        · have hac : a < c := by omega
          simp [hac]
    · by_cases hba : b < a
      · simp [hab, hba] at h1
      · simp only [hab, hba, if_false] at h1
        by_cases hbc : b < c
        · have hac : a < c := by omega
          simp [hac]
        · by_cases hcb : c < b
          · simp [hbc, hcb] at h2
          · simp only [hbc, hcb, if_false] at h2
            have hac : ¬ a < c := by omega
            have hca : ¬ c < a := by omega
            simp only [hac, hca, if_false]
            exact Sample.lexLt_trans as bs cs h1 h2

theorem Sample.env_versionOrder : Sample.env.versionOrder :=
  ⟨fun _ _ h => Sample.lexLt_asymm _ _ h, fun _ _ _ h1 h2 => Sample.lexLt_trans _ _ _ h1 h2⟩

/-- The envelope load of a readable file that decrypts returns the open descriptor file. -/
theorem CryConfigFile.load_decrypted (env : Env) (path : String) (keyProvider : CryKeyProvider)
    (access : Access) (w : World) (bytes : List Nat) (config : CryConfig)
    (encryptor : CryConfigEncryptor)
    (hfile : w.files path = some (FileNode.regular bytes))
    (hdecrypt : env.decrypt bytes keyProvider = some (config, encryptor)) :
    CryConfigFile.load env path keyProvider access w
      = (Sum.inr ⟨path, config, encryptor, access⟩, w.afterLoad path) := by
  simp [CryConfigFile.load, hfile, hdecrypt]

/-- When the version check throws, `_loadConfig` throws the same exception right after the
envelope load. -/
theorem CryConfigLoader._loadConfig_checkVersion_error (env : Env) (self : CryConfigLoader)
    (filename : String) (allowFilesystemUpgrade allowReplacedFilesystem : Bool)
    (access : Access) (w : World) (bytes : List Nat) (config : CryConfig)
    (encryptor : CryConfigEncryptor) (e : CryfsException)
    (hfile : w.files filename = some (FileNode.regular bytes))
    (hdecrypt : env.decrypt bytes self._keyProvider = some (config, encryptor))
    (hcheck : CryConfigLoader._checkVersion env
      (CryConfigLoader._loadConfig_compatibility env config) allowFilesystemUpgrade
        = Except.error e) :
    self._loadConfig env filename allowFilesystemUpgrade allowReplacedFilesystem access w
      = (Except.error (Thrown.cryfs e), w.afterLoad filename) := by
  simp [CryConfigLoader._loadConfig, CryConfigFile.load_decrypted env filename _ access w bytes
    config encryptor hfile hdecrypt, hcheck]

/-- On an existing path `loadOrCreate` is `_loadConfig` with read-write access. -/
theorem CryConfigLoader.loadOrCreate_existing (env : Env) (self : CryConfigLoader)
    (filename : String) (allowFilesystemUpgrade allowReplacedFilesystem : Bool) (w : World)
    (hexists : (w.files filename).isSome = true) :
    self.loadOrCreate env filename allowFilesystemUpgrade allowReplacedFilesystem w
      = self._loadConfig env filename allowFilesystemUpgrade allowReplacedFilesystem
          Access.ReadWrite w := by
  simp [CryConfigLoader.loadOrCreate, hexists]

theorem CryConfig.SetVersion_self (c : CryConfig) (v : String) (h : c.Version = v) :
    c.SetVersion v = c := by
  cases c; simp_all [CryConfig.SetVersion]

theorem CryConfig.SetLastOpenedWithVersion_self (c : CryConfig) (v : String)
    (h : c.LastOpenedWithVersion = v) : c.SetLastOpenedWithVersion v = c := by
  cases c; simp_all [CryConfig.SetLastOpenedWithVersion]

/-- A load whose gates and saves all pass returns the decrypted descriptor as `oldConfig`, the
refreshed one in the open file, and the client id of the local state. -/
theorem CryConfigLoader._loadConfig_success (env : Env) (self : CryConfigLoader)
    (filename : String) (allowFilesystemUpgrade allowReplacedFilesystem : Bool)
    (access : Access) (w : World) (bytes : List Nat) (config : CryConfig)
    (encryptor : CryConfigEncryptor) (myClientId : Nat) (localState : LocalStateStore)
    (hfile : w.files filename = some (FileNode.regular bytes))
    (hdecrypt : env.decrypt bytes self._keyProvider = some (config, encryptor))
    (hcheck : CryConfigLoader._checkVersion env
      (CryConfigLoader._loadConfig_compatibility env config) allowFilesystemUpgrade
        = Except.ok ())
    (hwrite : w.writeFails = false)
    (hcipher : self._checkCipher (CryConfigLoader.refreshed env config) = Except.ok ())
    (hlocal : env.loadOrGenerate w.localState config.FilesystemId config.EncryptionKey
      allowReplacedFilesystem = (Except.ok myClientId, localState))
    (hintegrity : self._checkMissingBlocksAreIntegrityViolations
      ⟨filename, CryConfigLoader.refreshed env config, encryptor, access⟩ myClientId
        = Except.ok ()) :
    (self._loadConfig env filename allowFilesystemUpgrade allowReplacedFilesystem access w).1
      = Except.ok (Sum.inr
          ⟨config, ⟨filename, CryConfigLoader.refreshed env config, encryptor, access⟩,
            myClientId⟩) := by
  have hfs : (CryConfigLoader.refreshed env config).FilesystemId = config.FilesystemId := by
    simp only [CryConfigLoader.refreshed, CryConfigLoader._loadConfig_compatibility,
      CryConfig.SetVersion, CryConfig.SetLastOpenedWithVersion]
    split <;> rfl
  have hkey : (CryConfigLoader.refreshed env config).EncryptionKey = config.EncryptionKey := by
    simp only [CryConfigLoader.refreshed, CryConfigLoader._loadConfig_compatibility,
      CryConfig.SetVersion, CryConfig.SetLastOpenedWithVersion]
    split <;> rfl
  rw [← hfs, ← hkey] at hlocal
  simp only [CryConfigLoader._loadConfig, CryConfigFile.load_decrypted env filename _ access w
    bytes config encryptor hfile hdecrypt, hcheck]
  unfold CryConfigLoader.refreshed at hcipher hlocal hintegrity ⊢
  generalize CryConfigLoader._loadConfig_compatibility env config = c at *
  by_cases hv : c.Version = env.FilesystemFormatVersion
  · rw [CryConfig.SetVersion_self c _ hv] at hcipher hlocal hintegrity ⊢
    by_cases hl : c.LastOpenedWithVersion = env.VersionString
    · rw [CryConfig.SetLastOpenedWithVersion_self c _ hl] at hcipher hlocal hintegrity ⊢
      simp [hv, hl, hcipher, hlocal, hintegrity, World.afterLoad]
    · cases access <;>
        simp [hv, hl, hcipher, hlocal, hintegrity, World.afterLoad, CryConfigFile.save, hwrite]
  · have hl1 : (c.SetVersion env.FilesystemFormatVersion).LastOpenedWithVersion
        = c.LastOpenedWithVersion := rfl
    by_cases hl : c.LastOpenedWithVersion = env.VersionString
    · rw [CryConfig.SetLastOpenedWithVersion_self _ _ (hl1.trans hl)]
        at hcipher hlocal hintegrity ⊢
      cases access <;>
        simp [hv, hl, hl1, hcipher, hlocal, hintegrity, World.afterLoad, CryConfigFile.save,
          hwrite]
    · cases access <;>
        simp [hv, hl, hl1, hcipher, hlocal, hintegrity, World.afterLoad, CryConfigFile.save,
          hwrite]

/-- What a successful `_loadConfig` went through. -/
theorem CryConfigLoader._loadConfig_ok_inv (env : Env) (self : CryConfigLoader)
    (filename : String) (allowFilesystemUpgrade allowReplacedFilesystem : Bool)
    (access : Access) (w w1 : World) (r : ConfigLoadResult)
    (h : self._loadConfig env filename allowFilesystemUpgrade allowReplacedFilesystem access w
      = (Except.ok (Sum.inr r), w1)) :
    ∃ bytes encryptor,
      w.files filename = some (FileNode.regular bytes)
      ∧ env.decrypt bytes self._keyProvider = some (r.oldConfig, encryptor)
      ∧ r.configFile = ⟨filename, CryConfigLoader.refreshed env r.oldConfig, encryptor, access⟩
      ∧ CryConfigLoader._checkVersion env
          (CryConfigLoader._loadConfig_compatibility env r.oldConfig) allowFilesystemUpgrade
          = Except.ok ()
      ∧ self._checkCipher r.configFile.config = Except.ok ()
      ∧ (env.loadOrGenerate w.localState r.configFile.config.FilesystemId
          r.configFile.config.EncryptionKey allowReplacedFilesystem).1 = Except.ok r.myClientId
      ∧ self._checkMissingBlocksAreIntegrityViolations r.configFile r.myClientId
          = Except.ok () := by
  unfold CryConfigLoader._loadConfig at h
  cases hf : w.files filename with
  | none => simp [CryConfigFile.load, hf] at h
  | some node =>
    cases node with
    | unreadable => simp [CryConfigFile.load, hf] at h
    | regular bytes =>
      cases hd : env.decrypt bytes self._keyProvider with
      | none => simp [CryConfigFile.load, hf, hd] at h
      | some p =>
        obtain ⟨config, encryptor⟩ := p
        rw [CryConfigFile.load_decrypted env filename _ access w bytes config encryptor hf hd] at h
        simp only at h
        cases hc : CryConfigLoader._checkVersion env
            (CryConfigLoader._loadConfig_compatibility env config) allowFilesystemUpgrade with
        | error e => simp [hc] at h
        | ok u =>
          simp only [hc] at h
          unfold CryConfigLoader.refreshed
          generalize hcdef : CryConfigLoader._loadConfig_compatibility env config = c at *
          have hl1 : (c.SetVersion env.FilesystemFormatVersion).LastOpenedWithVersion
            = c.LastOpenedWithVersion := rfl
          by_cases hv : c.Version = env.FilesystemFormatVersion <;>
          by_cases hl : c.LastOpenedWithVersion = env.VersionString <;>
          cases access <;> cases hw : w.writeFails <;>
          simp [hv, hl, hl1, World.afterLoad, CryConfigFile.save, hw] at h
          all_goals (split at h <;> try simp at h)
          all_goals (split at h <;> try simp at h)
          all_goals (split at h <;> try simp at h)
          all_goals
            obtain ⟨rfl, rfl⟩ := h
            subst hcdef
            refine ⟨bytes, encryptor, rfl, hd, ?_, hc, ?_, ?_, ?_⟩ <;>
              simp_all [CryConfig.SetVersion_self, CryConfig.SetLastOpenedWithVersion_self]

/-- Once the file decrypted, the version check passed and the saves succeed, the outcome of
`_loadConfig` is decided by the cipher gate, the local state and the integrity gate, each run
on the refreshed configuration. -/
theorem CryConfigLoader._loadConfig_after_refresh (env : Env) (self : CryConfigLoader)
    (filename : String) (allowFilesystemUpgrade allowReplacedFilesystem : Bool)
    (access : Access) (w : World) (bytes : List Nat) (config : CryConfig)
    (encryptor : CryConfigEncryptor)
    (hfile : w.files filename = some (FileNode.regular bytes))
    (hdecrypt : env.decrypt bytes self._keyProvider = some (config, encryptor))
    (hcheck : CryConfigLoader._checkVersion env
      (CryConfigLoader._loadConfig_compatibility env config) allowFilesystemUpgrade
        = Except.ok ())
    (hwrite : w.writeFails = false) :
    (self._loadConfig env filename allowFilesystemUpgrade allowReplacedFilesystem access w).1
      = match self._checkCipher (CryConfigLoader.refreshed env config) with
        | Except.error e => Except.error (Thrown.cryfs e)
        | Except.ok () =>
          match (env.loadOrGenerate w.localState
              (CryConfigLoader.refreshed env config).FilesystemId
              (CryConfigLoader.refreshed env config).EncryptionKey
              allowReplacedFilesystem).1 with
          | Except.error e => Except.error (Thrown.cryfs e)
          | Except.ok myClientId =>
            match self._checkMissingBlocksAreIntegrityViolations
                ⟨filename, CryConfigLoader.refreshed env config, encryptor, access⟩
                myClientId with
            | Except.error e => Except.error (Thrown.cryfs e)
            | Except.ok () =>
              Except.ok (Sum.inr
                ⟨config, ⟨filename, CryConfigLoader.refreshed env config, encryptor, access⟩,
                  myClientId⟩) := by
  simp only [CryConfigLoader._loadConfig, CryConfigFile.load_decrypted env filename _ access w
    bytes config encryptor hfile hdecrypt, hcheck]
  unfold CryConfigLoader.refreshed
  generalize CryConfigLoader._loadConfig_compatibility env config = c at *
  have hl1 : (c.SetVersion env.FilesystemFormatVersion).LastOpenedWithVersion
      = c.LastOpenedWithVersion := rfl
  by_cases hv : c.Version = env.FilesystemFormatVersion
  · rw [CryConfig.SetVersion_self c _ hv]
    by_cases hl : c.LastOpenedWithVersion = env.VersionString
    · rw [CryConfig.SetLastOpenedWithVersion_self c _ hl]
      simp only [hv, hl, ne_eq, not_true_eq_false, if_false, World.afterLoad]
      repeat' split
      all_goals simp_all
    · cases access <;>
        simp [hv, hl, hl1, World.afterLoad, CryConfigFile.save, hwrite]
      all_goals repeat' split
      all_goals simp_all
  · by_cases hl : c.LastOpenedWithVersion = env.VersionString
    · rw [CryConfig.SetLastOpenedWithVersion_self _ _ (hl1.trans hl)]
      cases access <;>
        simp [hv, hl, hl1, World.afterLoad, CryConfigFile.save, hwrite]
      all_goals repeat' split
      all_goals simp_all
    · cases access <;>
        simp [hv, hl, hl1, World.afterLoad, CryConfigFile.save, hwrite]
      all_goals repeat' split
      all_goals simp_all

/-- The envelope load changes the world by its trace entry only. -/
theorem CryConfigFile.load_snd (env : Env) (path : String) (keyProvider : CryKeyProvider)
    (access : Access) (w : World) :
    (CryConfigFile.load env path keyProvider access w).2 = w.afterLoad path := by
  unfold CryConfigFile.load
  repeat' split
  all_goals rfl

/-- The only `LoadError` results of `_loadConfig` are those of the envelope load, returned
at once. -/
theorem CryConfigLoader._loadConfig_inl_inv (env : Env) (self : CryConfigLoader)
    (filename : String) (allowFilesystemUpgrade allowReplacedFilesystem : Bool)
    (access : Access) (w w1 : World) (err : LoadError)
    (h : self._loadConfig env filename allowFilesystemUpgrade allowReplacedFilesystem access w
      = (Except.ok (Sum.inl err), w1)) :
    CryConfigFile.load env filename self._keyProvider access w = (Sum.inl err, w1) := by
  unfold CryConfigLoader._loadConfig at h
  rcases hload : CryConfigFile.load env filename self._keyProvider access w with ⟨res | config, w2⟩
  · simp [hload] at h
    rw [h.1, h.2]
  · exfalso
    simp only [hload] at h
    cases hc : CryConfigLoader._checkVersion env
        (CryConfigLoader._loadConfig_compatibility env config.config) allowFilesystemUpgrade with
    | error e => simp [hc] at h
    | ok u =>
      simp only [hc] at h
      generalize CryConfigLoader._loadConfig_compatibility env config.config = c at *
      have hl1 : (c.SetVersion env.FilesystemFormatVersion).LastOpenedWithVersion
        = c.LastOpenedWithVersion := rfl
      by_cases hv : c.Version = env.FilesystemFormatVersion <;>
      by_cases hl : c.LastOpenedWithVersion = env.VersionString <;>
      cases access <;> cases hw : w2.writeFails <;>
      simp [hv, hl, hl1, CryConfigFile.save, hw] at h
      all_goals (split at h <;> try simp at h)
      all_goals (split at h <;> try simp at h)
      all_goals (split at h <;> try simp at h)

/-- The only `LoadError` results of `loadOrCreate` are those of the envelope load of an
existing path. -/
theorem CryConfigLoader.loadOrCreate_inl_inv (env : Env) (self : CryConfigLoader)
    (filename : String) (allowFilesystemUpgrade allowReplacedFilesystem : Bool)
    (w w1 : World) (err : LoadError)
    (h : self.loadOrCreate env filename allowFilesystemUpgrade allowReplacedFilesystem w
      = (Except.ok (Sum.inl err), w1)) :
    (w.files filename).isSome = true
    ∧ CryConfigFile.load env filename self._keyProvider Access.ReadWrite w
        = (Sum.inl err, w1) := by
  unfold CryConfigLoader.loadOrCreate at h
  by_cases hex : (w.files filename).isSome = true
  · rw [if_pos hex] at h
    exact ⟨hex, CryConfigLoader._loadConfig_inl_inv env self filename allowFilesystemUpgrade
      allowReplacedFilesystem Access.ReadWrite w w1 err h⟩
  · rw [if_neg hex] at h
    split at h <;> simp at h

/-- Once the file decrypted, the version check passed and the saves succeed, `_loadConfig`
leaves the refreshed world, extended by the local state step when the cipher gate passes, and
its outcome is decided by the cipher gate, the local state and the integrity gate. -/
theorem CryConfigLoader._loadConfig_refresh_eq (env : Env) (self : CryConfigLoader)
    (filename : String) (allowFilesystemUpgrade allowReplacedFilesystem : Bool)
    (access : Access) (w : World) (bytes : List Nat) (config : CryConfig)
    (encryptor : CryConfigEncryptor)
    (hfile : w.files filename = some (FileNode.regular bytes))
    (hdecrypt : env.decrypt bytes self._keyProvider = some (config, encryptor))
    (hcheck : CryConfigLoader._checkVersion env
      (CryConfigLoader._loadConfig_compatibility env config) allowFilesystemUpgrade
        = Except.ok ())
    (hwrite : w.writeFails = false) :
    self._loadConfig env filename allowFilesystemUpgrade allowReplacedFilesystem access w
      = match self._checkCipher (CryConfigLoader.refreshed env config) with
        | Except.error e =>
          (Except.error (Thrown.cryfs e),
            World.afterRefresh env w filename
              (CryConfigLoader._loadConfig_compatibility env config) encryptor access)
        | Except.ok () =>
          match env.loadOrGenerate w.localState
              (CryConfigLoader.refreshed env config).FilesystemId
              (CryConfigLoader.refreshed env config).EncryptionKey
              allowReplacedFilesystem with
          | (r, localState) =>
            (match r with
              | Except.error e => Except.error (Thrown.cryfs e)
              | Except.ok myClientId =>
                match self._checkMissingBlocksAreIntegrityViolations
                    ⟨filename, CryConfigLoader.refreshed env config, encryptor, access⟩
                    myClientId with
                | Except.error e => Except.error (Thrown.cryfs e)
                | Except.ok () =>
                  Except.ok (Sum.inr
                    ⟨config,
                      ⟨filename, CryConfigLoader.refreshed env config, encryptor, access⟩,
                      myClientId⟩),
              { World.afterRefresh env w filename
                  (CryConfigLoader._loadConfig_compatibility env config) encryptor access with
                localState := localState
                trace := (World.afterRefresh env w filename
                  (CryConfigLoader._loadConfig_compatibility env config) encryptor access).trace
                  ++ [Event.localStateLoadOrGenerate
                      (CryConfigLoader.refreshed env config).FilesystemId] }) := by
  simp only [CryConfigLoader._loadConfig, CryConfigFile.load_decrypted env filename _ access w
    bytes config encryptor hfile hdecrypt, hcheck]
  unfold CryConfigLoader.refreshed
  generalize CryConfigLoader._loadConfig_compatibility env config = c at *
  have hl1 : (c.SetVersion env.FilesystemFormatVersion).LastOpenedWithVersion
      = c.LastOpenedWithVersion := rfl
  by_cases hv : c.Version = env.FilesystemFormatVersion
  · rw [CryConfig.SetVersion_self c _ hv]
    by_cases hl : c.LastOpenedWithVersion = env.VersionString
    · rw [CryConfig.SetLastOpenedWithVersion_self c _ hl]
      simp only [hv, hl, ne_eq, not_true_eq_false, if_false, World.afterLoad,
        World.afterRefresh, and_false]
      repeat' split
      all_goals simp_all
    · cases access <;>
        simp [hv, hl, hl1, World.afterLoad, CryConfigFile.save, hwrite, World.afterRefresh,
          World.afterSave, CryConfig.SetVersion_self c _ hv]
      all_goals repeat' split
      all_goals simp_all
  · by_cases hl : c.LastOpenedWithVersion = env.VersionString
    · rw [CryConfig.SetLastOpenedWithVersion_self _ _ (hl1.trans hl)]
      cases access <;>
        simp [hv, hl, hl1, World.afterLoad, CryConfigFile.save, hwrite, World.afterRefresh,
          World.afterSave]
      all_goals repeat' split
      all_goals simp_all
    · cases access <;>
        simp [hv, hl, hl1, World.afterLoad, CryConfigFile.save, hwrite, World.afterRefresh,
          World.afterSave]
      all_goals repeat' split
      all_goals simp_all

/-- When no save is due (read-only access, or nothing to refresh), `_loadConfig` writes
nothing whether or not writing would fail. -/
theorem CryConfigLoader._loadConfig_no_save_eq (env : Env) (self : CryConfigLoader)
    (filename : String) (allowFilesystemUpgrade allowReplacedFilesystem : Bool)
    (access : Access) (w : World) (bytes : List Nat) (config : CryConfig)
    (encryptor : CryConfigEncryptor)
    (hfile : w.files filename = some (FileNode.regular bytes))
    (hdecrypt : env.decrypt bytes self._keyProvider = some (config, encryptor))
    (hcheck : CryConfigLoader._checkVersion env
      (CryConfigLoader._loadConfig_compatibility env config) allowFilesystemUpgrade
        = Except.ok ())
    (hnosave : access = Access.ReadOnly
      ∨ ((CryConfigLoader._loadConfig_compatibility env config).Version
            = env.FilesystemFormatVersion
          ∧ (CryConfigLoader._loadConfig_compatibility env config).LastOpenedWithVersion
            = env.VersionString)) :
    self._loadConfig env filename allowFilesystemUpgrade allowReplacedFilesystem access w
      = match self._checkCipher (CryConfigLoader.refreshed env config) with
        | Except.error e => (Except.error (Thrown.cryfs e), w.afterLoad filename)
        | Except.ok () =>
          match env.loadOrGenerate w.localState
              (CryConfigLoader.refreshed env config).FilesystemId
              (CryConfigLoader.refreshed env config).EncryptionKey
              allowReplacedFilesystem with
          | (r, localState) =>
            (match r with
              | Except.error e => Except.error (Thrown.cryfs e)
              | Except.ok myClientId =>
                match self._checkMissingBlocksAreIntegrityViolations
                    ⟨filename, CryConfigLoader.refreshed env config, encryptor, access⟩
                    myClientId with
                | Except.error e => Except.error (Thrown.cryfs e)
                | Except.ok () =>
                  Except.ok (Sum.inr
                    ⟨config,
                      ⟨filename, CryConfigLoader.refreshed env config, encryptor, access⟩,
                      myClientId⟩),
              { w with
                localState := localState
                trace := w.trace ++ [Event.configFileLoad filename,
                  Event.localStateLoadOrGenerate
                    (CryConfigLoader.refreshed env config).FilesystemId] }) := by
  simp only [CryConfigLoader._loadConfig, CryConfigFile.load_decrypted env filename _ access w
    bytes config encryptor hfile hdecrypt, hcheck]
  unfold CryConfigLoader.refreshed
  generalize CryConfigLoader._loadConfig_compatibility env config = c at *
  have hl1 : (c.SetVersion env.FilesystemFormatVersion).LastOpenedWithVersion
      = c.LastOpenedWithVersion := rfl
  rcases hnosave with hro | ⟨hv, hl⟩
  · subst hro
    by_cases hv : c.Version = env.FilesystemFormatVersion <;>
      by_cases hl : c.LastOpenedWithVersion = env.VersionString <;>
      simp [hv, hl, hl1, World.afterLoad, CryConfig.SetVersion_self,
        CryConfig.SetLastOpenedWithVersion_self]
    all_goals repeat' split
    all_goals simp_all
  · rw [CryConfig.SetVersion_self c _ hv, CryConfig.SetLastOpenedWithVersion_self c _ hl]
    simp only [hv, hl, ne_eq, not_true_eq_false, if_false, World.afterLoad]
    repeat' split
    all_goals simp_all

/-- Under read-write access with a refresh due, a failing write makes `_loadConfig` throw the
I/O error of the first save, with nothing written and no later gate run. -/
theorem CryConfigLoader._loadConfig_save_fails (env : Env) (self : CryConfigLoader)
    (filename : String) (allowFilesystemUpgrade allowReplacedFilesystem : Bool)
    (w : World) (bytes : List Nat) (config : CryConfig) (encryptor : CryConfigEncryptor)
    (hfile : w.files filename = some (FileNode.regular bytes))
    (hdecrypt : env.decrypt bytes self._keyProvider = some (config, encryptor))
    (hcheck : CryConfigLoader._checkVersion env
      (CryConfigLoader._loadConfig_compatibility env config) allowFilesystemUpgrade
        = Except.ok ())
    (hwrite : w.writeFails = true)
    (hdue : (CryConfigLoader._loadConfig_compatibility env config).Version
          ≠ env.FilesystemFormatVersion
        ∨ (CryConfigLoader._loadConfig_compatibility env config).LastOpenedWithVersion
          ≠ env.VersionString) :
    self._loadConfig env filename allowFilesystemUpgrade allowReplacedFilesystem
        Access.ReadWrite w
      = (Except.error (Thrown.other "IoError"), w.afterLoad filename) := by
  simp only [CryConfigLoader._loadConfig, CryConfigFile.load_decrypted env filename _
    Access.ReadWrite w bytes config encryptor hfile hdecrypt, hcheck]
  generalize CryConfigLoader._loadConfig_compatibility env config = c at *
  have hl1 : (c.SetVersion env.FilesystemFormatVersion).LastOpenedWithVersion
      = c.LastOpenedWithVersion := rfl
  by_cases hv : c.Version = env.FilesystemFormatVersion
  · have hl : c.LastOpenedWithVersion ≠ env.VersionString := by
      rcases hdue with h | h
      · exact absurd hv h
      · exact h
    simp [hv, hl, World.afterLoad, CryConfigFile.save, hwrite]
  · simp [hv, World.afterLoad, CryConfigFile.save, hwrite]

/-- The refresh steps do not change whether writing fails. -/
theorem World.afterRefresh_writeFails (env : Env) (w : World) (filename : String)
    (c : CryConfig) (encryptor : CryConfigEncryptor) (access : Access) :
    (World.afterRefresh env w filename c encryptor access).writeFails = w.writeFails := by
  unfold World.afterRefresh
  repeat' split
  all_goals rfl

/-- The world `_loadConfig` leaves once the version check passed and the saves succeed: the
files are those of the refreshed world, whatever the later gates decide, and the trace is that
of the refreshed world, followed by the local state step if the cipher gate passed. -/
theorem CryConfigLoader._loadConfig_world_after (env : Env) (self : CryConfigLoader)
    (filename : String) (allowFilesystemUpgrade allowReplacedFilesystem : Bool)
    (access : Access) (w : World) (bytes : List Nat) (config : CryConfig)
    (encryptor : CryConfigEncryptor)
    (hfile : w.files filename = some (FileNode.regular bytes))
    (hdecrypt : env.decrypt bytes self._keyProvider = some (config, encryptor))
    (hcheck : CryConfigLoader._checkVersion env
      (CryConfigLoader._loadConfig_compatibility env config) allowFilesystemUpgrade
        = Except.ok ())
    (hwrite : w.writeFails = false) :
    (self._loadConfig env filename allowFilesystemUpgrade allowReplacedFilesystem access
        w).2.files
      = (World.afterRefresh env w filename
          (CryConfigLoader._loadConfig_compatibility env config) encryptor access).files
    ∧ (self._loadConfig env filename allowFilesystemUpgrade allowReplacedFilesystem access
        w).2.writeFails = false
    ∧ ((self._loadConfig env filename allowFilesystemUpgrade allowReplacedFilesystem access
          w).2.trace
        = (World.afterRefresh env w filename
            (CryConfigLoader._loadConfig_compatibility env config) encryptor access).trace
      ∨ (self._loadConfig env filename allowFilesystemUpgrade allowReplacedFilesystem access
          w).2.trace
        = (World.afterRefresh env w filename
            (CryConfigLoader._loadConfig_compatibility env config) encryptor access).trace
          ++ [Event.localStateLoadOrGenerate
              (CryConfigLoader.refreshed env config).FilesystemId]) := by
  have hwf := World.afterRefresh_writeFails env w filename
    (CryConfigLoader._loadConfig_compatibility env config) encryptor access
  rw [CryConfigLoader._loadConfig_refresh_eq env self filename allowFilesystemUpgrade
    allowReplacedFilesystem access w bytes config encryptor hfile hdecrypt hcheck hwrite]
  split
  · exact ⟨rfl, by rw [hwf, hwrite], Or.inl rfl⟩
  · exact ⟨rfl, by simp only [hwf, hwrite], Or.inr rfl⟩

/-- The file at the descriptor path after the refresh steps under read-write access: as
before when nothing was due, else the bytes of the refreshed configuration. -/
theorem World.afterRefresh_files_readWrite (env : Env) (w : World) (filename : String)
    (c : CryConfig) (encryptor : CryConfigEncryptor) :
    (World.afterRefresh env w filename c encryptor Access.ReadWrite).files filename
      = if c.Version = env.FilesystemFormatVersion
            ∧ c.LastOpenedWithVersion = env.VersionString then
          w.files filename
        else
          some (FileNode.regular (env.encrypt encryptor
            ((c.SetVersion env.FilesystemFormatVersion).SetLastOpenedWithVersion
              env.VersionString))) := by
  unfold World.afterRefresh
  by_cases hv : c.Version = env.FilesystemFormatVersion <;>
    by_cases hl : c.LastOpenedWithVersion = env.VersionString <;>
    simp [hv, hl, World.afterSave, World.afterLoad, CryConfig.SetVersion_self,
      CryConfig.SetLastOpenedWithVersion_self]
  have hl1 : (c.SetVersion env.FilesystemFormatVersion).LastOpenedWithVersion
      = env.VersionString := hl
  rw [CryConfig.SetLastOpenedWithVersion_self _ _ hl1]

/-- The refreshed configuration is the decrypted one with the current format version and the
running version as last-opened version. -/
theorem CryConfigLoader.refreshed_eq (env : Env) (c : CryConfig) :
    CryConfigLoader.refreshed env c
      = { c with
          Version := env.FilesystemFormatVersion
          LastOpenedWithVersion := env.VersionString } := by
  simp only [CryConfigLoader.refreshed, CryConfigLoader._loadConfig_compatibility,
    CryConfig.SetVersion, CryConfig.SetLastOpenedWithVersion]
  split <;> rfl

/-- The trace of the refreshed world: the trace before, the envelope load, and then only
saves at the descriptor path of configurations that carry the current format version. -/
theorem World.afterRefresh_trace (env : Env) (w : World) (filename : String)
    (c : CryConfig) (encryptor : CryConfigEncryptor) (access : Access) :
    ∃ saves : List Event,
      (World.afterRefresh env w filename c encryptor access).trace
        = w.trace ++ (Event.configFileLoad filename :: saves)
      ∧ ∀ ev ∈ saves, ∃ saved : CryConfig,
          ev = Event.configFileSave filename (env.encrypt encryptor saved)
          ∧ saved.Version = env.FilesystemFormatVersion := by
  cases access with
  | ReadOnly =>
    refine ⟨[], ?_, ?_⟩
    · simp [World.afterRefresh, World.afterLoad]
    · intro ev hev
      cases hev
  | ReadWrite =>
    by_cases hv : c.Version = env.FilesystemFormatVersion <;>
      by_cases hl : c.LastOpenedWithVersion = env.VersionString
    · refine ⟨[], ?_, ?_⟩
      · simp [World.afterRefresh, hv, hl, World.afterLoad]
      · intro ev hev
        cases hev
    · refine ⟨[Event.configFileSave filename (env.encrypt encryptor
          ((c.SetVersion env.FilesystemFormatVersion).SetLastOpenedWithVersion
            env.VersionString))], ?_, ?_⟩
      · simp [World.afterRefresh, hv, hl, World.afterSave, World.afterLoad]
      · intro ev hev
        simp only [List.mem_singleton] at hev
        subst hev
        exact ⟨_, rfl, rfl⟩
    · refine ⟨[Event.configFileSave filename
          (env.encrypt encryptor (c.SetVersion env.FilesystemFormatVersion))], ?_, ?_⟩
      · simp [World.afterRefresh, hv, hl, World.afterSave, World.afterLoad]
      · intro ev hev
        simp only [List.mem_singleton] at hev
        subst hev
        exact ⟨_, rfl, rfl⟩
    · refine ⟨[Event.configFileSave filename
          (env.encrypt encryptor (c.SetVersion env.FilesystemFormatVersion)),
        Event.configFileSave filename (env.encrypt encryptor
          ((c.SetVersion env.FilesystemFormatVersion).SetLastOpenedWithVersion
            env.VersionString))], ?_, ?_⟩
      · simp [World.afterRefresh, hv, hl, World.afterSave, World.afterLoad]
      · intro ev hev
        simp only [List.mem_cons, List.mem_singleton, List.not_mem_nil, or_false] at hev
        rcases hev with rfl | rfl
        · exact ⟨_, rfl, rfl⟩
        · exact ⟨_, rfl, rfl⟩

/-- After a read-write load that passed the version check, its saves succeeding, the file
at the descriptor path decrypts to the refreshed configuration: either a save stored it, or
nothing was due and the stored descriptor was the refreshed one already. -/
theorem CryConfigLoader._loadConfig_stored_after (env : Env) (self : CryConfigLoader)
    (filename : String) (allowFilesystemUpgrade allowReplacedFilesystem : Bool)
    (w : World) (bytes : List Nat) (config : CryConfig) (encryptor : CryConfigEncryptor)
    (hfile : w.files filename = some (FileNode.regular bytes))
    (hdecrypt : env.decrypt bytes self._keyProvider = some (config, encryptor))
    (hcheck : CryConfigLoader._checkVersion env
      (CryConfigLoader._loadConfig_compatibility env config) allowFilesystemUpgrade
        = Except.ok ())
    (hwrite : w.writeFails = false)
    (hround : env.decrypt (env.encrypt encryptor (CryConfigLoader.refreshed env config))
      self._keyProvider = some (CryConfigLoader.refreshed env config, encryptor))
    (hcurrent : env.FilesystemFormatVersion ≠ "0.9.6") :
    ∃ stored : List Nat,
      (self._loadConfig env filename allowFilesystemUpgrade allowReplacedFilesystem
        Access.ReadWrite w).2.files filename = some (FileNode.regular stored)
      ∧ env.decrypt stored self._keyProvider
        = some (CryConfigLoader.refreshed env config, encryptor) := by
  have hworld := CryConfigLoader._loadConfig_world_after env self filename
    allowFilesystemUpgrade allowReplacedFilesystem Access.ReadWrite w bytes config encryptor
    hfile hdecrypt hcheck hwrite
  have hfiles := congrFun hworld.1 filename
  rw [World.afterRefresh_files_readWrite] at hfiles
  by_cases hboth : (CryConfigLoader._loadConfig_compatibility env config).Version
      = env.FilesystemFormatVersion
      ∧ (CryConfigLoader._loadConfig_compatibility env config).LastOpenedWithVersion
        = env.VersionString
  · rw [if_pos hboth, hfile] at hfiles
    refine ⟨bytes, hfiles, ?_⟩
    have hfix : CryConfigLoader._loadConfig_compatibility env config = config := by
      unfold CryConfigLoader._loadConfig_compatibility
      split
      · rename_i hlegacy
        exfalso
        have h96 : (CryConfigLoader._loadConfig_compatibility env config).Version = "0.9.6" := by
          simp [CryConfigLoader._loadConfig_compatibility, hlegacy, CryConfig.SetVersion]
        exact hcurrent (hboth.1.symm.trans h96)
      · rfl
    have hsame : CryConfigLoader.refreshed env config = config := by
      unfold CryConfigLoader.refreshed
      rw [hfix] at hboth ⊢
      rw [CryConfig.SetVersion_self _ _ hboth.1,
        CryConfig.SetLastOpenedWithVersion_self _ _ hboth.2]
    rw [hsame]
    exact hdecrypt
  · rw [if_neg hboth] at hfiles
    exact ⟨_, hfiles, hround⟩

/-- A descriptor stored with the current format version and the running version as
last-opened version, the current format version being none of the legacy release strings
the fix-up rewrites: the load saves nothing, whether it succeeds or not, and when it
succeeds the descriptor in memory is the stored one. -/
theorem CryConfigLoader._loadConfig_current_writes_nothing (env : Env)
    (self : CryConfigLoader) (filename : String)
    (allowFilesystemUpgrade allowReplacedFilesystem : Bool) (access : Access) (w : World)
    (bytes : List Nat) (config : CryConfig) (encryptor : CryConfigEncryptor)
    (hfile : w.files filename = some (FileNode.regular bytes))
    (hdecrypt : env.decrypt bytes self._keyProvider = some (config, encryptor))
    (hv : config.Version = env.FilesystemFormatVersion)
    (hl : config.LastOpenedWithVersion = env.VersionString)
    (hformat : env.CRYFS_NO_COMPATIBILITY = true
      ∨ (env.FilesystemFormatVersion ≠ "0.9.7" ∧ env.FilesystemFormatVersion ≠ "0.9.8")) :
    (self._loadConfig env filename allowFilesystemUpgrade allowReplacedFilesystem access
        w).2.files = w.files
    ∧ (∃ added : List Event,
        (self._loadConfig env filename allowFilesystemUpgrade allowReplacedFilesystem access
          w).2.trace = w.trace ++ added
        ∧ added.countP Event.isConfigFileSave = 0)
    ∧ (∀ r : ConfigLoadResult,
        (self._loadConfig env filename allowFilesystemUpgrade allowReplacedFilesystem access
          w).1 = Except.ok (Sum.inr r) →
        r.oldConfig = config ∧ r.configFile.config = r.oldConfig) := by
  have hfix : CryConfigLoader._loadConfig_compatibility env config = config := by
    unfold CryConfigLoader._loadConfig_compatibility
    split
    · rename_i hlegacy
      exfalso
      rcases hformat with hno | ⟨h7, h8⟩
      · exact hlegacy.1 hno
      · rcases hlegacy.2 with h | h
        · exact h7 (hv.symm.trans h)
        · exact h8 (hv.symm.trans h)
    · rfl
  have hsame : CryConfigLoader.refreshed env config = config := by
    unfold CryConfigLoader.refreshed
    rw [hfix, CryConfig.SetVersion_self _ _ hv, CryConfig.SetLastOpenedWithVersion_self _ _ hl]
  cases hcheck : CryConfigLoader._checkVersion env
      (CryConfigLoader._loadConfig_compatibility env config) allowFilesystemUpgrade with
  | error e =>
    rw [CryConfigLoader._loadConfig_checkVersion_error env self filename
      allowFilesystemUpgrade allowReplacedFilesystem access w bytes config encryptor e hfile
      hdecrypt hcheck]
    refine ⟨rfl, ⟨[Event.configFileLoad filename], rfl, rfl⟩, ?_⟩
    intro r hr
    cases hr
  | ok u =>
    rw [CryConfigLoader._loadConfig_no_save_eq env self filename allowFilesystemUpgrade
      allowReplacedFilesystem access w bytes config encryptor hfile hdecrypt hcheck
      (Or.inr (by rw [hfix]; exact ⟨hv, hl⟩)), hsame]
    split
    · refine ⟨rfl, ⟨[Event.configFileLoad filename], rfl, rfl⟩, ?_⟩
      intro r hr
      cases hr
    · refine ⟨rfl, ⟨[Event.configFileLoad filename,
          Event.localStateLoadOrGenerate config.FilesystemId], rfl, rfl⟩, ?_⟩
      intro r hr
      simp only at hr
      split at hr
      · cases hr
      · split at hr
        · cases hr
        · injection hr with hr
          injection hr with hr
          subst hr
          exact ⟨rfl, rfl⟩

/-- The fix-up and the refresh change the version fields only. -/
theorem CryConfigLoader.refreshed_frame (env : Env) (c : CryConfig) :
    (CryConfigLoader.refreshed env c).RootBlob = c.RootBlob
    ∧ (CryConfigLoader.refreshed env c).EncryptionKey = c.EncryptionKey
    ∧ (CryConfigLoader.refreshed env c).Cipher = c.Cipher
    ∧ (CryConfigLoader.refreshed env c).CreatedWithVersion = c.CreatedWithVersion
    ∧ (CryConfigLoader.refreshed env c).BlocksizeBytes = c.BlocksizeBytes
    ∧ (CryConfigLoader.refreshed env c).FilesystemId = c.FilesystemId
    ∧ (CryConfigLoader.refreshed env c).ExclusiveClientId = c.ExclusiveClientId := by
  simp only [CryConfigLoader.refreshed, CryConfigLoader._loadConfig_compatibility,
    CryConfig.SetVersion, CryConfig.SetLastOpenedWithVersion]
  split <;> simp

/-- Once the file decrypted and the version check passed, and no save can fail (read-only
access, or writing succeeds), the outcome of `_loadConfig` is decided by the cipher gate, the
local state and the integrity gate, in this order, each run on the refreshed configuration. -/
theorem CryConfigLoader._loadConfig_gates (env : Env) (self : CryConfigLoader)
    (filename : String) (allowFilesystemUpgrade allowReplacedFilesystem : Bool)
    (access : Access) (w : World) (bytes : List Nat) (config : CryConfig)
    (encryptor : CryConfigEncryptor)
    (hfile : w.files filename = some (FileNode.regular bytes))
    (hdecrypt : env.decrypt bytes self._keyProvider = some (config, encryptor))
    (hcheck : CryConfigLoader._checkVersion env
      (CryConfigLoader._loadConfig_compatibility env config) allowFilesystemUpgrade
        = Except.ok ())
    (hsaves : access = Access.ReadOnly ∨ w.writeFails = false) :
    (self._loadConfig env filename allowFilesystemUpgrade allowReplacedFilesystem access w).1
      = match self._checkCipher (CryConfigLoader.refreshed env config) with
        | Except.error e => Except.error (Thrown.cryfs e)
        | Except.ok () =>
          match (env.loadOrGenerate w.localState
              (CryConfigLoader.refreshed env config).FilesystemId
              (CryConfigLoader.refreshed env config).EncryptionKey
              allowReplacedFilesystem).1 with
          | Except.error e => Except.error (Thrown.cryfs e)
          | Except.ok myClientId =>
            match self._checkMissingBlocksAreIntegrityViolations
                ⟨filename, CryConfigLoader.refreshed env config, encryptor, access⟩
                myClientId with
            | Except.error e => Except.error (Thrown.cryfs e)
            | Except.ok () =>
              Except.ok (Sum.inr
                ⟨config, ⟨filename, CryConfigLoader.refreshed env config, encryptor, access⟩,
                  myClientId⟩) := by
  rcases hsaves with hro | hwrite
  · rw [CryConfigLoader._loadConfig_no_save_eq env self filename allowFilesystemUpgrade
      allowReplacedFilesystem access w bytes config encryptor hfile hdecrypt hcheck
      (Or.inl hro)]
    repeat' split
    all_goals simp_all
  · exact CryConfigLoader._loadConfig_after_refresh env self filename allowFilesystemUpgrade
      allowReplacedFilesystem access w bytes config encryptor hfile hdecrypt hcheck hwrite

/-- A read-only `_loadConfig` leaves every file as it is and adds no save to the trace. -/
theorem CryConfigLoader._loadConfig_readOnly_world (env : Env) (self : CryConfigLoader)
    (filename : String) (allowFilesystemUpgrade allowReplacedFilesystem : Bool) (w : World) :
    (self._loadConfig env filename allowFilesystemUpgrade allowReplacedFilesystem
        Access.ReadOnly w).2.files = w.files
    ∧ (self._loadConfig env filename allowFilesystemUpgrade allowReplacedFilesystem
        Access.ReadOnly w).2.basedirs = w.basedirs
    ∧ ∃ added : List Event,
        (self._loadConfig env filename allowFilesystemUpgrade allowReplacedFilesystem
          Access.ReadOnly w).2.trace = w.trace ++ added
        ∧ added.countP Event.isConfigFileSave = 0 := by
  cases hf : w.files filename with
  | none =>
    have h : self._loadConfig env filename allowFilesystemUpgrade allowReplacedFilesystem
        Access.ReadOnly w = (Except.ok (Sum.inl LoadError.ConfigFileNotFound),
          w.afterLoad filename) := by
      simp [CryConfigLoader._loadConfig, CryConfigFile.load, hf]
    rw [h]
    exact ⟨rfl, rfl, [Event.configFileLoad filename], rfl, rfl⟩
  | some node =>
    cases node with
    | unreadable =>
      have h : self._loadConfig env filename allowFilesystemUpgrade allowReplacedFilesystem
          Access.ReadOnly w = (Except.ok (Sum.inl LoadError.ConfigFileNotFound),
            w.afterLoad filename) := by
        simp [CryConfigLoader._loadConfig, CryConfigFile.load, hf]
      rw [h]
      exact ⟨rfl, rfl, [Event.configFileLoad filename], rfl, rfl⟩
    | regular bytes =>
      cases hd : env.decrypt bytes self._keyProvider with
      | none =>
        have h : self._loadConfig env filename allowFilesystemUpgrade allowReplacedFilesystem
            Access.ReadOnly w = (Except.ok (Sum.inl LoadError.DecryptionFailed),
              w.afterLoad filename) := by
          simp [CryConfigLoader._loadConfig, CryConfigFile.load, hf, hd]
        rw [h]
        exact ⟨rfl, rfl, [Event.configFileLoad filename], rfl, rfl⟩
      | some p =>
        obtain ⟨config, encryptor⟩ := p
        cases hc : CryConfigLoader._checkVersion env
            (CryConfigLoader._loadConfig_compatibility env config) allowFilesystemUpgrade with
        | error e =>
          rw [CryConfigLoader._loadConfig_checkVersion_error env self filename
            allowFilesystemUpgrade allowReplacedFilesystem Access.ReadOnly w bytes config
            encryptor e hf hd hc]
          exact ⟨rfl, rfl, [Event.configFileLoad filename], rfl, rfl⟩
        | ok u =>
          rw [CryConfigLoader._loadConfig_no_save_eq env self filename allowFilesystemUpgrade
            allowReplacedFilesystem Access.ReadOnly w bytes config encryptor hf hd hc
            (Or.inl rfl)]
          split
          · exact ⟨rfl, rfl, [Event.configFileLoad filename], rfl, rfl⟩
          · exact ⟨rfl, rfl, [Event.configFileLoad filename,
              Event.localStateLoadOrGenerate
                (CryConfigLoader.refreshed env config).FilesystemId], rfl, rfl⟩

/-- The three gates of `_checkVersion` in their order: below the minimum, newer than the
current format, upgrade refused. -/
theorem CryConfigLoader._checkVersion_order (env : Env) (config : CryConfig)
    (allowFilesystemUpgrade : Bool) :
    (env.isOlderThan config.Version "0.9.4" = true →
      ∃ what, CryConfigLoader._checkVersion env config allowFilesystemUpgrade
        = Except.error ⟨what, ErrorCode.TooOldFilesystemFormat⟩)
    ∧ (env.isOlderThan config.Version "0.9.4" = false →
      env.isOlderThan env.FilesystemFormatVersion config.Version = true →
      ∃ what, CryConfigLoader._checkVersion env config allowFilesystemUpgrade
        = Except.error ⟨what, ErrorCode.TooNewFilesystemFormat⟩)
    ∧ (env.isOlderThan config.Version "0.9.4" = false →
      env.isOlderThan env.FilesystemFormatVersion config.Version = false →
      allowFilesystemUpgrade = false →
      env.isOlderThan config.Version env.FilesystemFormatVersion = true →
      ∃ what, CryConfigLoader._checkVersion env config allowFilesystemUpgrade
        = Except.error ⟨what, ErrorCode.TooOldFilesystemFormat⟩) := by
  refine ⟨?_, ?_, ?_⟩
  · intro h1
    exact ⟨"This filesystem is for CryFS " ++ config.Version ++ ". This format is not supported anymore. Please migrate the file system to a supported version first by opening it with CryFS 0.9.x (x>=4).",
      by simp [CryConfigLoader._checkVersion, h1]⟩
  · intro h1 h2
    exact ⟨"This filesystem is for CryFS " ++ config.Version ++ " or later. Please update your CryFS version.",
      by simp [CryConfigLoader._checkVersion, h1, h2]⟩
  · intro h1 h2 h3 h4
    exact ⟨"This filesystem is for CryFS " ++ config.Version ++ " (or a later version with the same storage format). It has to be migrated.",
      by simp [CryConfigLoader._checkVersion, h1, h2, h3, h4]⟩

/-- What a successful `changeEncryptionKey` went through: the load decrypted the file, the
factory gave an encryptor for the new key provider, and the last step saved the refreshed
configuration under that encryptor on the world the load left. -/
theorem CryConfigLoader.changeEncryptionKey_ok_inv (env : Env) (self : CryConfigLoader)
    (filename : String) (allowFilesystemUpgrade allowReplacedFilesystem : Bool)
    (newKeyProvider : CryKeyProvider) (w : World)
    (h : (self.changeEncryptionKey env filename allowFilesystemUpgrade allowReplacedFilesystem
      newKeyProvider w).1 = Except.ok none) :
    ∃ bytes config encryptor newEncryptor,
      w.files filename = some (FileNode.regular bytes)
      ∧ env.decrypt bytes self._keyProvider = some (config, encryptor)
      ∧ env.deriveNewKey newKeyProvider = Except.ok newEncryptor
      ∧ (self.changeEncryptionKey env filename allowFilesystemUpgrade allowReplacedFilesystem
          newKeyProvider w).2
        = (self._loadConfig env filename allowFilesystemUpgrade allowReplacedFilesystem
            Access.ReadWrite w).2.afterSave filename
            (env.encrypt newEncryptor (CryConfigLoader.refreshed env config)) := by
  unfold CryConfigLoader.changeEncryptionKey at h ⊢
  rcases hload : self._loadConfig env filename allowFilesystemUpgrade allowReplacedFilesystem
    Access.ReadWrite w with ⟨res, w1⟩
  rw [hload] at h
  cases res with
  | error e => simp at h
  | ok res =>
    cases res with
    | inl err => simp at h
    | inr r =>
      obtain ⟨bytes, encryptor, hfile, hdecrypt, hfileEq, _⟩ :=
        CryConfigLoader._loadConfig_ok_inv env self filename allowFilesystemUpgrade
          allowReplacedFilesystem Access.ReadWrite w w1 r hload
      simp only at h ⊢
      cases hk : env.deriveNewKey newKeyProvider with
      | error e => simp [hk] at h
      | ok newEncryptor =>
        simp only [hk] at h ⊢
        cases hw : w1.writeFails with
        | true => simp [CryConfigFile.save, hw] at h
        | false =>
          refine ⟨bytes, r.oldConfig, encryptor, newEncryptor, hfile, hdecrypt, rfl, ?_⟩
          simp [CryConfigFile.save, hw, hfileEq, World.afterSave]

/-- The function `Cli::initFilesystem` throws nothing: whatever its `try` block throws is
caught, and the function then returns `nullptr`. -/
theorem Cli.initFilesystem_returns (env : Env) (menv : MountEnv) (self : Cli)
    (options : ProgramOptions) (credentials : Credentials) (w : World) :
    ∃ fuse, (self.initFilesystem env menv options credentials w).1 = Except.ok fuse := by
  unfold Cli.initFilesystem
  simp only
  generalize (match Cli._sanityChecks menv options w with
    | (Except.error e, w) => (Except.error e, w)
    | (Except.ok (), w) =>
      match self._loadOrCreateConfig env options credentials w with
      | (Except.error e, w) => (Except.error e, w)
      | (Except.ok config, w) => menv.mount options config w) = tryBlock
  rcases tryBlock with ⟨_ | fuse, w1⟩
  · rename_i e
    cases e <;> exact ⟨0, rfl⟩
  · exact ⟨fuse, rfl⟩

/-- The result mapping of a `try` block that asserts on a path, makes one call and returns 0,
closed by the four `catch` clauses. -/
theorem Fuse.catchClauses_tryCall {σ : Type} (fenv : FuseEnv) (self : Fuse σ) (path : String)
    (call : FilesystemCall) (s : FuseState σ) :
    (is_valid_fspp_path fenv path = false →
      Fuse.catchClauses fenv (self.tryCall fenv path call s) = (Except.ok (- fenv.EIO), s))
    ∧ (is_valid_fspp_path fenv path = true →
      (Fuse.catchClauses fenv (self.tryCall fenv path call s)).2.invoked = s.invoked ++ [call]
      ∧ (Fuse.catchClauses fenv (self.tryCall fenv path call s)).2.fs = (self._fs call s.fs).2
      ∧ (∀ value, (self._fs call s.fs).1 = Except.ok value →
          (Fuse.catchClauses fenv (self.tryCall fenv path call s)).1 = Except.ok 0)
      ∧ (∀ errno, (self._fs call s.fs).1 = Except.error (FuseThrown.FuseErrnoException errno) →
          (Fuse.catchClauses fenv (self.tryCall fenv path call s)).1 = Except.ok (-errno))
      ∧ (∀ e, (self._fs call s.fs).1 = Except.error e →
          (∀ errno, e ≠ FuseThrown.FuseErrnoException errno) →
          (Fuse.catchClauses fenv (self.tryCall fenv path call s)).1
            = Except.ok (- fenv.EIO)))
    ∧ ∃ result, (Fuse.catchClauses fenv (self.tryCall fenv path call s)).1
        = Except.ok result := by
  cases hvalid : is_valid_fspp_path fenv path with
  | false =>
    have h : Fuse.catchClauses fenv (self.tryCall fenv path call s)
        = (Except.ok (- fenv.EIO), s) := by
      simp [Fuse.tryCall, Fuse.assertValid, ASSERT, hvalid, Fuse.catchClauses]
    rw [h]
    refine ⟨fun _ => rfl, ?_, ⟨_, rfl⟩⟩
    intro hv
    cases hv
  | true =>
    rcases hfs : self._fs call s.fs with ⟨r, fs⟩
    cases r with
    | ok value =>
      have h : Fuse.catchClauses fenv (self.tryCall fenv path call s)
          = (Except.ok 0, { s with fs := fs, invoked := s.invoked ++ [call] }) := by
        simp [Fuse.tryCall, Fuse.assertValid, ASSERT, hvalid, Fuse.catchClauses, Fuse.invoke,
          hfs]
      rw [h]
      refine ⟨?_, ?_, ⟨_, rfl⟩⟩
      · intro hv
        cases hv
      · intro _
        refine ⟨rfl, rfl, ?_, ?_, ?_⟩
        · intro value1 _
          rfl
        · intro errno he
          cases he
        · intro e he
          cases he
    | error e =>
      cases e with
      | FuseErrnoException errno =>
        have h : Fuse.catchClauses fenv (self.tryCall fenv path call s)
            = (Except.ok (-errno), { s with fs := fs, invoked := s.invoked ++ [call] }) := by
          simp [Fuse.tryCall, Fuse.assertValid, ASSERT, hvalid, Fuse.catchClauses,
            Fuse.invoke, hfs]
        rw [h]
        refine ⟨?_, ?_, ⟨_, rfl⟩⟩
        · intro hv
          cases hv
        · intro _
          refine ⟨rfl, rfl, ?_, ?_, ?_⟩
          · intro value he
            cases he
          · intro errno1 he
            cases he
            rfl
          · intro e1 he hne
            cases he
            exact absurd rfl (hne errno)
      | AssertFailed what=>
        have h : Fuse.catchClauses fenv (self.tryCall fenv path call s)
            = (Except.ok (- fenv.EIO),
                { s with fs := fs, invoked := s.invoked ++ [call] }) := by
          simp [Fuse.tryCall, Fuse.assertValid, ASSERT, hvalid, Fuse.catchClauses,
            Fuse.invoke, hfs]
        rw [h]
        refine ⟨?_, ?_, ⟨_, rfl⟩⟩
        · intro hv
          cases hv
        · intro _
          refine ⟨rfl, rfl, ?_, ?_, ?_⟩
          · intro value he
            cases he
          · intro errno he
            cases he
          · intro e1 _ _
            rfl
      | std_exception what=>
        have h : Fuse.catchClauses fenv (self.tryCall fenv path call s)
            = (Except.ok (- fenv.EIO),
                { s with fs := fs, invoked := s.invoked ++ [call] }) := by
          simp [Fuse.tryCall, Fuse.assertValid, ASSERT, hvalid, Fuse.catchClauses,
            Fuse.invoke, hfs]
        rw [h]
        refine ⟨?_, ?_, ⟨_, rfl⟩⟩
        · intro hv
          cases hv
        · intro _
          refine ⟨rfl, rfl, ?_, ?_, ?_⟩
          · intro value he
            cases he
          · intro errno he
            cases he
          · intro e1 _ _
            rfl
      | other =>
        have h : Fuse.catchClauses fenv (self.tryCall fenv path call s)
            = (Except.ok (- fenv.EIO),
                { s with fs := fs, invoked := s.invoked ++ [call] }) := by
          simp [Fuse.tryCall, Fuse.assertValid, ASSERT, hvalid, Fuse.catchClauses,
            Fuse.invoke, hfs]
        rw [h]
        refine ⟨?_, ?_, ⟨_, rfl⟩⟩
        · intro hv
          cases hv
        · intro _
          refine ⟨rfl, rfl, ?_, ?_, ?_⟩
          · intro value he
            cases he
          · intro errno he
            cases he
          · intro e1 _ _
            rfl

/-- The result mapping of the `try` block of `open` and `create`, closed by the four `catch`
clauses. -/
theorem Fuse.catchClauses_tryOpen {σ : Type} (fenv : FuseEnv) (self : Fuse σ) (path : String)
    (call : FilesystemCall) (s : FuseState σ) :
    (is_valid_fspp_path fenv path = false →
      Fuse.catchClauses fenv (self.tryOpen fenv path call s) = (Except.ok (- fenv.EIO), s))
    ∧ (is_valid_fspp_path fenv path = true →
      (Fuse.catchClauses fenv (self.tryOpen fenv path call s)).2.invoked = s.invoked ++ [call]
      ∧ (Fuse.catchClauses fenv (self.tryOpen fenv path call s)).2.fs = (self._fs call s.fs).2
      ∧ (∀ value, (self._fs call s.fs).1 = Except.ok value →
          (Fuse.catchClauses fenv (self.tryOpen fenv path call s)).1 = Except.ok 0)
      ∧ (∀ errno, (self._fs call s.fs).1 = Except.error (FuseThrown.FuseErrnoException errno) →
          (Fuse.catchClauses fenv (self.tryOpen fenv path call s)).1 = Except.ok (-errno))
      ∧ (∀ e, (self._fs call s.fs).1 = Except.error e →
          (∀ errno, e ≠ FuseThrown.FuseErrnoException errno) →
          (Fuse.catchClauses fenv (self.tryOpen fenv path call s)).1
            = Except.ok (- fenv.EIO)))
    ∧ ∃ result, (Fuse.catchClauses fenv (self.tryOpen fenv path call s)).1
        = Except.ok result := by
  cases hvalid : is_valid_fspp_path fenv path with
  | false =>
    have h : Fuse.catchClauses fenv (self.tryOpen fenv path call s)
        = (Except.ok (- fenv.EIO), s) := by
      simp [Fuse.tryOpen, Fuse.assertValid, ASSERT, hvalid, Fuse.catchClauses]
    rw [h]
    refine ⟨fun _ => rfl, ?_, ⟨_, rfl⟩⟩
    intro hv
    cases hv
  | true =>
    rcases hfs : self._fs call s.fs with ⟨r, fs⟩
    cases r with
    | ok value =>
      have h : Fuse.catchClauses fenv (self.tryOpen fenv path call s)
          = (Except.ok 0, { fs := fs, invoked := s.invoked ++ [call], fh := value }) := by
        simp [Fuse.tryOpen, Fuse.assertValid, ASSERT, hvalid, Fuse.catchClauses, Fuse.invoke,
          hfs]
      rw [h]
      refine ⟨?_, ?_, ⟨_, rfl⟩⟩
      · intro hv
        cases hv
      · intro _
        refine ⟨rfl, rfl, ?_, ?_, ?_⟩
        · intro value1 _
          rfl
        · intro errno he
          cases he
        · intro e he
          cases he
    | error e =>
      cases e with
      | FuseErrnoException errno =>
        have h : Fuse.catchClauses fenv (self.tryOpen fenv path call s)
            = (Except.ok (-errno), { s with fs := fs, invoked := s.invoked ++ [call] }) := by
          simp [Fuse.tryOpen, Fuse.assertValid, ASSERT, hvalid, Fuse.catchClauses,
            Fuse.invoke, hfs]
        rw [h]
        refine ⟨?_, ?_, ⟨_, rfl⟩⟩
        · intro hv
          cases hv
        · intro _
          refine ⟨rfl, rfl, ?_, ?_, ?_⟩
          · intro value he
            cases he
          · intro errno1 he
            cases he
            rfl
          · intro e1 he hne
            cases he
            exact absurd rfl (hne errno)
      | AssertFailed what=>
        have h : Fuse.catchClauses fenv (self.tryOpen fenv path call s)
            = (Except.ok (- fenv.EIO),
                { s with fs := fs, invoked := s.invoked ++ [call] }) := by
          simp [Fuse.tryOpen, Fuse.assertValid, ASSERT, hvalid, Fuse.catchClauses,
            Fuse.invoke, hfs]
        rw [h]
        refine ⟨?_, ?_, ⟨_, rfl⟩⟩
        · intro hv
          cases hv
        · intro _
          refine ⟨rfl, rfl, ?_, ?_, ?_⟩
          · intro value he
            cases he
          · intro errno he
            cases he
          · intro e1 _ _
            rfl
      | std_exception what=>
        have h : Fuse.catchClauses fenv (self.tryOpen fenv path call s)
            = (Except.ok (- fenv.EIO),
                { s with fs := fs, invoked := s.invoked ++ [call] }) := by
          simp [Fuse.tryOpen, Fuse.assertValid, ASSERT, hvalid, Fuse.catchClauses,
            Fuse.invoke, hfs]
        rw [h]
        refine ⟨?_, ?_, ⟨_, rfl⟩⟩
        · intro hv
          cases hv
        · intro _
          refine ⟨rfl, rfl, ?_, ?_, ?_⟩
          · intro value he
            cases he
          · intro errno he
            cases he
          · intro e1 _ _
            rfl
      | other =>
        have h : Fuse.catchClauses fenv (self.tryOpen fenv path call s)
            = (Except.ok (- fenv.EIO),
                { s with fs := fs, invoked := s.invoked ++ [call] }) := by
          simp [Fuse.tryOpen, Fuse.assertValid, ASSERT, hvalid, Fuse.catchClauses,
            Fuse.invoke, hfs]
        rw [h]
        refine ⟨?_, ?_, ⟨_, rfl⟩⟩
        · intro hv
          cases hv
        · intro _
          refine ⟨rfl, rfl, ?_, ?_, ?_⟩
          · intro value he
            cases he
          · intro errno he
            cases he
          · intro e1 _ _
            rfl

/-! ## Version gates -/

/-- C1: an existing descriptor whose format version, after the legacy fix-up, is older than
the minimum supported version 0.9.4 makes `CryConfigLoader::load` (with either access) and
`CryConfigLoader::loadOrCreate` throw a `CryfsException` with
`ErrorCode::TooOldFilesystemFormat`, for both values of `allowFilesystemUpgrade`; only the
envelope load has happened by then. -/
theorem C1_below_minimum_throws_TooOldFilesystemFormat (env : Env) (self : CryConfigLoader)
    (filename : String) (allowFilesystemUpgrade allowReplacedFilesystem : Bool)
    (access : Access) (w : World) (bytes : List Nat) (config : CryConfig)
    (encryptor : CryConfigEncryptor)
    (hfile : w.files filename = some (FileNode.regular bytes))
    (hdecrypt : env.decrypt bytes self._keyProvider = some (config, encryptor))
    (hold : env.isOlderThan (CryConfigLoader._loadConfig_compatibility env config).Version
      "0.9.4" = true) :
    ∃ what : String,
      self.load env filename allowFilesystemUpgrade allowReplacedFilesystem access w
        = (Except.error (Thrown.cryfs ⟨what, ErrorCode.TooOldFilesystemFormat⟩),
            w.afterLoad filename)
      ∧ self.loadOrCreate env filename allowFilesystemUpgrade allowReplacedFilesystem w
        = (Except.error (Thrown.cryfs ⟨what, ErrorCode.TooOldFilesystemFormat⟩),
            w.afterLoad filename) := by
  have hcheck : CryConfigLoader._checkVersion env
      (CryConfigLoader._loadConfig_compatibility env config) allowFilesystemUpgrade
        = Except.error ⟨"This filesystem is for CryFS "
            ++ (CryConfigLoader._loadConfig_compatibility env config).Version
            ++ ". This format is not supported anymore. Please migrate the file system to a supported version first by opening it with CryFS 0.9.x (x>=4).",
          ErrorCode.TooOldFilesystemFormat⟩ := by
    simp [CryConfigLoader._checkVersion, hold]
  have hload := CryConfigLoader._loadConfig_checkVersion_error env self filename
    allowFilesystemUpgrade allowReplacedFilesystem access w bytes config encryptor _
    hfile hdecrypt hcheck
  have hloadOrCreate := CryConfigLoader._loadConfig_checkVersion_error env self filename
    allowFilesystemUpgrade allowReplacedFilesystem Access.ReadWrite w bytes config encryptor _
    hfile hdecrypt hcheck
  rw [← CryConfigLoader.loadOrCreate_existing env self filename allowFilesystemUpgrade
    allowReplacedFilesystem w (by simp [hfile])] at hloadOrCreate
  exact ⟨_, hload, hloadOrCreate⟩

/-- C1 at a descriptor of format 0.9.3, opened read-only with upgrades allowed. -/
theorem C1_below_minimum_throws_TooOldFilesystemFormat_witness :
    (Sample.world [0]).files "/t/cryfs.config" = some (FileNode.regular [0])
    ∧ Sample.env.decrypt [0] Sample.loader._keyProvider
        = some (Sample.config "0.9.3" none, Sample.encryptor)
    ∧ Sample.env.isOlderThan
        (CryConfigLoader._loadConfig_compatibility Sample.env
          (Sample.config "0.9.3" none)).Version "0.9.4" = true
    ∧ ∃ what : String,
      Sample.loader.load Sample.env "/t/cryfs.config" true false Access.ReadOnly
          (Sample.world [0])
        = (Except.error (Thrown.cryfs ⟨what, ErrorCode.TooOldFilesystemFormat⟩),
            (Sample.world [0]).afterLoad "/t/cryfs.config")
      ∧ Sample.loader.loadOrCreate Sample.env "/t/cryfs.config" true false (Sample.world [0])
        = (Except.error (Thrown.cryfs ⟨what, ErrorCode.TooOldFilesystemFormat⟩),
            (Sample.world [0]).afterLoad "/t/cryfs.config") :=
  ⟨rfl, rfl, by decide,
    C1_below_minimum_throws_TooOldFilesystemFormat Sample.env Sample.loader "/t/cryfs.config"
      true false Access.ReadOnly (Sample.world [0]) [0] (Sample.config "0.9.3" none)
      Sample.encryptor rfl rfl (by decide)⟩

/-- C2: an existing descriptor whose format version (as the gates see it) is newer than
`CryConfig::FilesystemFormatVersion` makes `load` and `loadOrCreate` throw a `CryfsException`
with `ErrorCode::TooNewFilesystemFormat`, for both values of `allowFilesystemUpgrade`, and the
descriptor is not saved: the files are as before and the trace gained the envelope load only.
The comparison is a strict order under which 0.9.4 is not newer than the current format. -/
theorem C2_newer_than_current_throws_TooNewFilesystemFormat (env : Env)
    (self : CryConfigLoader) (filename : String)
    (allowFilesystemUpgrade allowReplacedFilesystem : Bool) (access : Access) (w : World)
    (bytes : List Nat) (config : CryConfig) (encryptor : CryConfigEncryptor)
    (horder : env.versionOrder)
    (hminimum : env.isOlderThan env.FilesystemFormatVersion "0.9.4" = false)
    (hfile : w.files filename = some (FileNode.regular bytes))
    (hdecrypt : env.decrypt bytes self._keyProvider = some (config, encryptor))
    (hnew : env.isOlderThan env.FilesystemFormatVersion
      (CryConfigLoader._loadConfig_compatibility env config).Version = true) :
    ∃ what : String,
      self.load env filename allowFilesystemUpgrade allowReplacedFilesystem access w
        = (Except.error (Thrown.cryfs ⟨what, ErrorCode.TooNewFilesystemFormat⟩),
            w.afterLoad filename)
      ∧ self.loadOrCreate env filename allowFilesystemUpgrade allowReplacedFilesystem w
        = (Except.error (Thrown.cryfs ⟨what, ErrorCode.TooNewFilesystemFormat⟩),
            w.afterLoad filename)
      ∧ (w.afterLoad filename).files = w.files
      ∧ (w.afterLoad filename).trace = w.trace ++ [Event.configFileLoad filename] := by
  have hnotold : env.isOlderThan (CryConfigLoader._loadConfig_compatibility env config).Version
      "0.9.4" = false := by
    cases hc : env.isOlderThan (CryConfigLoader._loadConfig_compatibility env config).Version
      "0.9.4" with
    | false => rfl
    | true =>
      have := horder.2 _ _ _ hnew hc
      rw [hminimum] at this
      exact this.symm
  have hcheck : CryConfigLoader._checkVersion env
      (CryConfigLoader._loadConfig_compatibility env config) allowFilesystemUpgrade
        = Except.error ⟨"This filesystem is for CryFS "
            ++ (CryConfigLoader._loadConfig_compatibility env config).Version
            ++ " or later. Please update your CryFS version.",
          ErrorCode.TooNewFilesystemFormat⟩ := by
    simp [CryConfigLoader._checkVersion, hnotold, hnew]
  have hload := CryConfigLoader._loadConfig_checkVersion_error env self filename
    allowFilesystemUpgrade allowReplacedFilesystem access w bytes config encryptor _
    hfile hdecrypt hcheck
  have hloadOrCreate := CryConfigLoader._loadConfig_checkVersion_error env self filename
    allowFilesystemUpgrade allowReplacedFilesystem Access.ReadWrite w bytes config encryptor _
    hfile hdecrypt hcheck
  rw [← CryConfigLoader.loadOrCreate_existing env self filename allowFilesystemUpgrade
    allowReplacedFilesystem w (by simp [hfile])] at hloadOrCreate
  exact ⟨_, hload, hloadOrCreate, rfl, rfl⟩

/-- C2 at a descriptor of format 0.11 under the current format 0.10, upgrades allowed. -/
theorem C2_newer_than_current_throws_TooNewFilesystemFormat_witness :
    Sample.env.versionOrder
    ∧ Sample.env.isOlderThan Sample.env.FilesystemFormatVersion "0.9.4" = false
    ∧ Sample.env.isOlderThan Sample.env.FilesystemFormatVersion
        (CryConfigLoader._loadConfig_compatibility Sample.env
          (Sample.config "0.11" none)).Version = true
    ∧ ∃ what : String,
      Sample.loader.load Sample.env "/t/cryfs.config" true false Access.ReadWrite
          (Sample.world [4])
        = (Except.error (Thrown.cryfs ⟨what, ErrorCode.TooNewFilesystemFormat⟩),
            (Sample.world [4]).afterLoad "/t/cryfs.config")
      ∧ Sample.loader.loadOrCreate Sample.env "/t/cryfs.config" true false (Sample.world [4])
        = (Except.error (Thrown.cryfs ⟨what, ErrorCode.TooNewFilesystemFormat⟩),
            (Sample.world [4]).afterLoad "/t/cryfs.config")
      ∧ ((Sample.world [4]).afterLoad "/t/cryfs.config").files = (Sample.world [4]).files
      ∧ ((Sample.world [4]).afterLoad "/t/cryfs.config").trace
        = (Sample.world [4]).trace ++ [Event.configFileLoad "/t/cryfs.config"] :=
  ⟨Sample.env_versionOrder, by decide, by decide,
    C2_newer_than_current_throws_TooNewFilesystemFormat Sample.env Sample.loader
      "/t/cryfs.config" true false Access.ReadWrite (Sample.world [4]) [4]
      (Sample.config "0.11" none) Sample.encryptor Sample.env_versionOrder (by decide) rfl rfl
      (by decide)⟩

/-- C3, as the code has it: an existing descriptor whose format version `v` (as the gates see
it) is neither older than 0.9.4 nor as new as the current format, loaded with
`allowFilesystemUpgrade = false`, makes `load` and `loadOrCreate` throw the migration
exception "... It has to be migrated.", whose error code is
`ErrorCode::TooOldFilesystemFormat`: the code of the exception thrown for a format below
the minimum. -/
theorem C3_upgrade_not_allowed_throws_TooOldFilesystemFormat (env : Env)
    (self : CryConfigLoader) (filename : String) (allowReplacedFilesystem : Bool)
    (access : Access) (w : World) (bytes : List Nat) (config : CryConfig)
    (encryptor : CryConfigEncryptor)
    (horder : env.versionOrder)
    (hfile : w.files filename = some (FileNode.regular bytes))
    (hdecrypt : env.decrypt bytes self._keyProvider = some (config, encryptor))
    (hminimum : env.isOlderThan (CryConfigLoader._loadConfig_compatibility env config).Version
      "0.9.4" = false)
    (hcurrent : env.isOlderThan (CryConfigLoader._loadConfig_compatibility env config).Version
      env.FilesystemFormatVersion = true) :
    self.load env filename false allowReplacedFilesystem access w
      = (Except.error (Thrown.cryfs ⟨"This filesystem is for CryFS "
            ++ (CryConfigLoader._loadConfig_compatibility env config).Version
            ++ " (or a later version with the same storage format). It has to be migrated.",
          ErrorCode.TooOldFilesystemFormat⟩), w.afterLoad filename)
    ∧ self.loadOrCreate env filename false allowReplacedFilesystem w
      = (Except.error (Thrown.cryfs ⟨"This filesystem is for CryFS "
            ++ (CryConfigLoader._loadConfig_compatibility env config).Version
            ++ " (or a later version with the same storage format). It has to be migrated.",
          ErrorCode.TooOldFilesystemFormat⟩), w.afterLoad filename) := by
  have hnotnew := horder.1 _ _ hcurrent
  have hcheck : CryConfigLoader._checkVersion env
      (CryConfigLoader._loadConfig_compatibility env config) false
        = Except.error ⟨"This filesystem is for CryFS "
            ++ (CryConfigLoader._loadConfig_compatibility env config).Version
            ++ " (or a later version with the same storage format). It has to be migrated.",
          ErrorCode.TooOldFilesystemFormat⟩ := by
    simp [CryConfigLoader._checkVersion, hminimum, hnotnew, hcurrent]
  have hload := CryConfigLoader._loadConfig_checkVersion_error env self filename
    false allowReplacedFilesystem access w bytes config encryptor _ hfile hdecrypt hcheck
  have hloadOrCreate := CryConfigLoader._loadConfig_checkVersion_error env self filename
    false allowReplacedFilesystem Access.ReadWrite w bytes config encryptor _
    hfile hdecrypt hcheck
  rw [← CryConfigLoader.loadOrCreate_existing env self filename false
    allowReplacedFilesystem w (by simp [hfile])] at hloadOrCreate
  exact ⟨hload, hloadOrCreate⟩

/-- C3, as the code has it, at a descriptor of format 0.9.6 under the current format 0.10. -/
theorem C3_upgrade_not_allowed_throws_TooOldFilesystemFormat_witness :
    Sample.env.versionOrder
    ∧ Sample.env.isOlderThan
        (CryConfigLoader._loadConfig_compatibility Sample.env
          (Sample.config "0.9.6" none)).Version "0.9.4" = false
    ∧ Sample.env.isOlderThan
        (CryConfigLoader._loadConfig_compatibility Sample.env
          (Sample.config "0.9.6" none)).Version Sample.env.FilesystemFormatVersion = true
    ∧ Sample.loader.load Sample.env "/t/cryfs.config" false false Access.ReadOnly
        (Sample.world [1])
      = (Except.error (Thrown.cryfs ⟨"This filesystem is for CryFS "
            ++ (CryConfigLoader._loadConfig_compatibility Sample.env
                (Sample.config "0.9.6" none)).Version
            ++ " (or a later version with the same storage format). It has to be migrated.",
          ErrorCode.TooOldFilesystemFormat⟩), (Sample.world [1]).afterLoad "/t/cryfs.config")
    ∧ Sample.loader.loadOrCreate Sample.env "/t/cryfs.config" false false (Sample.world [1])
      = (Except.error (Thrown.cryfs ⟨"This filesystem is for CryFS "
            ++ (CryConfigLoader._loadConfig_compatibility Sample.env
                (Sample.config "0.9.6" none)).Version
            ++ " (or a later version with the same storage format). It has to be migrated.",
          ErrorCode.TooOldFilesystemFormat⟩), (Sample.world [1]).afterLoad "/t/cryfs.config") :=
  ⟨Sample.env_versionOrder, by decide, by decide,
    C3_upgrade_not_allowed_throws_TooOldFilesystemFormat Sample.env Sample.loader
      "/t/cryfs.config" false Access.ReadOnly (Sample.world [1]) [1]
      (Sample.config "0.9.6" none) Sample.encryptor Sample.env_versionOrder rfl rfl
      (by decide) (by decide)⟩

/-- C3 as stated fails: a descriptor of format 0.9.6 (not older than 0.9.4, older than the
current format 0.10) loaded with `allowFilesystemUpgrade = false` is rejected with
`ErrorCode::TooOldFilesystemFormat`, so with no error code distinct from the one reported
for a format below the minimum. -/
theorem C3_distinct_upgrade_code_counterexample :
    Sample.env.isOlderThan "0.9.6" "0.9.4" = false
    ∧ Sample.env.isOlderThan "0.9.6" Sample.env.FilesystemFormatVersion = true
    ∧ (Sample.loader.load Sample.env "/t/cryfs.config" false false Access.ReadWrite
        (Sample.world [1])).1
      = Except.error (Thrown.cryfs ⟨"This filesystem is for CryFS 0.9.6 (or a later version with the same storage format). It has to be migrated.",
          ErrorCode.TooOldFilesystemFormat⟩)
    ∧ ¬ ∃ e : CryfsException,
        (Sample.loader.load Sample.env "/t/cryfs.config" false false Access.ReadWrite
          (Sample.world [1])).1 = Except.error (Thrown.cryfs e)
        ∧ e.errorCode ≠ ErrorCode.TooOldFilesystemFormat := by
  have heval : (Sample.loader.load Sample.env "/t/cryfs.config" false false Access.ReadWrite
        (Sample.world [1])).1
      = Except.error (Thrown.cryfs ⟨"This filesystem is for CryFS 0.9.6 (or a later version with the same storage format). It has to be migrated.",
          ErrorCode.TooOldFilesystemFormat⟩) := rfl
  refine ⟨by decide, by decide, heval, ?_⟩
  rintro ⟨e, he, hne⟩
  rw [heval] at he
  injection he with he
  injection he with he
  exact hne (by rw [← he])

/-! ## Legacy fix-up -/

/-- C4: in a build with compatibility enabled, a descriptor stored with format version
"0.9.7" or "0.9.8" is rewritten in memory to "0.9.6" (nothing else of it changes) and no
descriptor with another stored version is altered.  The version gates then judge it as
0.9.6: `_checkVersion` gives the result it gives for 0.9.6; with 0.9.6 not older than 0.9.4
and the current format not older than 0.9.6 it passes when upgrades are allowed, so that the
load succeeds whenever its later steps do, and whatever `allowFilesystemUpgrade` is it is
never the below-minimum exception that rejects it: a rejection happens only with
`allowFilesystemUpgrade = false` and is the migration exception. -/
theorem C4_legacy_release_versions_judged_as_0_9_6 (env : Env) (self : CryConfigLoader)
    (filename : String) (allowReplacedFilesystem : Bool) (access : Access) (w : World)
    (bytes : List Nat) (config : CryConfig) (encryptor : CryConfigEncryptor)
    (hcompat : env.CRYFS_NO_COMPATIBILITY = false)
    (hlegacy : config.Version = "0.9.7" ∨ config.Version = "0.9.8")
    (hminimum : env.isOlderThan "0.9.6" "0.9.4" = false)
    (hcurrent : env.isOlderThan env.FilesystemFormatVersion "0.9.6" = false)
    (hfile : w.files filename = some (FileNode.regular bytes))
    (hdecrypt : env.decrypt bytes self._keyProvider = some (config, encryptor)) :
    CryConfigLoader._loadConfig_compatibility env config = { config with Version := "0.9.6" }
    ∧ (∀ other : CryConfig, other.Version ≠ "0.9.7" → other.Version ≠ "0.9.8" →
        CryConfigLoader._loadConfig_compatibility env other = other)
    ∧ (∀ allowFilesystemUpgrade : Bool,
        CryConfigLoader._checkVersion env (CryConfigLoader._loadConfig_compatibility env config)
            allowFilesystemUpgrade
          = CryConfigLoader._checkVersion env { config with Version := "0.9.6" }
            allowFilesystemUpgrade)
    ∧ CryConfigLoader._checkVersion env (CryConfigLoader._loadConfig_compatibility env config)
        true = Except.ok ()
    ∧ (∀ (allowFilesystemUpgrade : Bool) (e : CryfsException),
        CryConfigLoader._checkVersion env (CryConfigLoader._loadConfig_compatibility env config)
            allowFilesystemUpgrade = Except.error e →
          allowFilesystemUpgrade = false
          ∧ e = ⟨"This filesystem is for CryFS 0.9.6 (or a later version with the same storage format). It has to be migrated.",
              ErrorCode.TooOldFilesystemFormat⟩)
    ∧ (∀ (myClientId : Nat) (localState : LocalStateStore),
        w.writeFails = false →
        self._checkCipher (CryConfigLoader.refreshed env config) = Except.ok () →
        env.loadOrGenerate w.localState config.FilesystemId config.EncryptionKey
          allowReplacedFilesystem = (Except.ok myClientId, localState) →
        self._checkMissingBlocksAreIntegrityViolations
          ⟨filename, CryConfigLoader.refreshed env config, encryptor, access⟩ myClientId
            = Except.ok () →
        (self.load env filename true allowReplacedFilesystem access w).1
          = Except.ok (Sum.inr
              ⟨config, ⟨filename, CryConfigLoader.refreshed env config, encryptor, access⟩,
                myClientId⟩)) := by
  have hfix : CryConfigLoader._loadConfig_compatibility env config
      = { config with Version := "0.9.6" } := by
    simp [CryConfigLoader._loadConfig_compatibility, hcompat, hlegacy, CryConfig.SetVersion]
  have hpass : CryConfigLoader._checkVersion env
      (CryConfigLoader._loadConfig_compatibility env config) true = Except.ok () := by
    simp [hfix, CryConfigLoader._checkVersion, hminimum, hcurrent]
  refine ⟨hfix, ?_, ?_, hpass, ?_, ?_⟩
  · intro other h7 h8
    simp [CryConfigLoader._loadConfig_compatibility, h7, h8]
  · intro allowFilesystemUpgrade
    rw [hfix]
  · intro allowFilesystemUpgrade e he
    rw [hfix] at he
    cases allowFilesystemUpgrade with
    | true => simp [CryConfigLoader._checkVersion, hminimum, hcurrent] at he
    | false =>
      refine ⟨rfl, ?_⟩
      simp [CryConfigLoader._checkVersion, hminimum, hcurrent] at he
      split at he
      · injection he with he
        exact he.symm
      · simp at he
  · intro myClientId localState hwrite hcipher hlocal hintegrity
    exact CryConfigLoader._loadConfig_success env self filename true allowReplacedFilesystem
      access w bytes config encryptor myClientId localState hfile hdecrypt hpass hwrite hcipher
      hlocal hintegrity

/-- C4 at a descriptor stored with format version 0.9.7 under the current format 0.10: it is
accepted with upgrades allowed, and the load returns it upgraded. -/
theorem C4_legacy_release_versions_judged_as_0_9_6_witness :
    (Sample.env.CRYFS_NO_COMPATIBILITY = false
      ∧ ((Sample.config "0.9.7" none).Version = "0.9.7"
          ∨ (Sample.config "0.9.7" none).Version = "0.9.8")
      ∧ Sample.env.isOlderThan "0.9.6" "0.9.4" = false
      ∧ Sample.env.isOlderThan Sample.env.FilesystemFormatVersion "0.9.6" = false)
    ∧ CryConfigLoader._loadConfig_compatibility Sample.env (Sample.config "0.9.7" none)
        = { Sample.config "0.9.7" none with Version := "0.9.6" }
    ∧ CryConfigLoader._checkVersion Sample.env
        (CryConfigLoader._loadConfig_compatibility Sample.env (Sample.config "0.9.7" none))
        true = Except.ok ()
    ∧ (Sample.loader.load Sample.env "/t/cryfs.config" true false Access.ReadWrite
        (Sample.world [2])).1
      = Except.ok (Sum.inr
          ⟨Sample.config "0.9.7" none,
            ⟨"/t/cryfs.config",
              CryConfigLoader.refreshed Sample.env (Sample.config "0.9.7" none),
              Sample.encryptor, Access.ReadWrite⟩, 7⟩) :=
  have h := C4_legacy_release_versions_judged_as_0_9_6 Sample.env Sample.loader
    "/t/cryfs.config" false Access.ReadWrite (Sample.world [2]) [2]
    (Sample.config "0.9.7" none) Sample.encryptor rfl (Or.inl rfl) (by decide) (by decide)
    rfl rfl
  ⟨⟨rfl, Or.inl rfl, by decide, by decide⟩, h.1, h.2.2.2.1,
    h.2.2.2.2.2 7 [] rfl rfl rfl rfl⟩

/-! ## Cipher gate and integrity-mode gate -/

/-- C5: for a descriptor that decrypted and passed the version gates, the cipher gate
`_checkCipher`, run by the load on the refreshed descriptor, throws if and only if a cipher
was given on the command line and differs from the cipher of the descriptor; what it throws
has `ErrorCode::WrongCipher`; with no override, or an override equal to the descriptor's
cipher, it passes.  When it throws, the load (its saves succeeding) ends with that
exception. -/
theorem C5_cipher_gate_throws_iff_override_differs (env : Env) (self : CryConfigLoader)
    (filename : String) (allowFilesystemUpgrade allowReplacedFilesystem : Bool)
    (access : Access) (w : World) (bytes : List Nat) (config : CryConfig)
    (encryptor : CryConfigEncryptor)
    (hfile : w.files filename = some (FileNode.regular bytes))
    (hdecrypt : env.decrypt bytes self._keyProvider = some (config, encryptor))
    (hversion : CryConfigLoader._checkVersion env
      (CryConfigLoader._loadConfig_compatibility env config) allowFilesystemUpgrade
        = Except.ok ())
    (hwrite : w.writeFails = false) :
    ((∃ e : CryfsException,
        self._checkCipher (CryConfigLoader.refreshed env config) = Except.error e
        ∧ e.errorCode = ErrorCode.WrongCipher)
      ↔ ∃ cipher, self._cipherFromCommandLine = some cipher ∧ cipher ≠ config.Cipher)
    ∧ (∀ e : CryfsException,
        self._checkCipher (CryConfigLoader.refreshed env config) = Except.error e →
          e.errorCode = ErrorCode.WrongCipher)
    ∧ (self._cipherFromCommandLine = none ∨ self._cipherFromCommandLine = some config.Cipher →
        self._checkCipher (CryConfigLoader.refreshed env config) = Except.ok ())
    ∧ (∀ cipher, self._cipherFromCommandLine = some cipher → cipher ≠ config.Cipher →
        (self.load env filename allowFilesystemUpgrade allowReplacedFilesystem access w).1
          = Except.error (Thrown.cryfs
              ⟨"Filesystem uses " ++ config.Cipher ++ " cipher and not " ++ cipher
                ++ " as specified.", ErrorCode.WrongCipher⟩)) := by
  have hc : (CryConfigLoader.refreshed env config).Cipher = config.Cipher := by
    simp only [CryConfigLoader.refreshed, CryConfigLoader._loadConfig_compatibility,
      CryConfig.SetVersion, CryConfig.SetLastOpenedWithVersion]
    split <;> rfl
  have hthrow : ∀ cipher, self._cipherFromCommandLine = some cipher → cipher ≠ config.Cipher →
      self._checkCipher (CryConfigLoader.refreshed env config)
        = Except.error ⟨"Filesystem uses " ++ config.Cipher ++ " cipher and not " ++ cipher
            ++ " as specified.", ErrorCode.WrongCipher⟩ := by
    intro cipher hsome hne
    simp [CryConfigLoader._checkCipher, hsome, hc, Ne.symm hne]
  have hpass : self._cipherFromCommandLine = none
      ∨ self._cipherFromCommandLine = some config.Cipher →
      self._checkCipher (CryConfigLoader.refreshed env config) = Except.ok () := by
    rintro (hnone | hsame) <;> simp [CryConfigLoader._checkCipher, *]
  refine ⟨⟨?_, ?_⟩, ?_, hpass, ?_⟩
  · rintro ⟨e, he, _⟩
    cases hover : self._cipherFromCommandLine with
    | none => rw [hpass (Or.inl hover)] at he; cases he
    | some cipher =>
      refine ⟨cipher, rfl, fun heq => ?_⟩
      rw [hpass (Or.inr (by rw [hover, heq]))] at he
      cases he
  · rintro ⟨cipher, hsome, hne⟩
    exact ⟨_, hthrow cipher hsome hne, rfl⟩
  · intro e he
    cases hover : self._cipherFromCommandLine with
    | none => rw [hpass (Or.inl hover)] at he; cases he
    | some cipher =>
      by_cases heq : cipher = config.Cipher
      · rw [hpass (Or.inr (by rw [hover, heq]))] at he
        cases he
      · rw [hthrow cipher hover heq] at he
        injection he with he
        rw [← he]
  · intro cipher hsome hne
    rw [show self.load env filename allowFilesystemUpgrade allowReplacedFilesystem access w
        = self._loadConfig env filename allowFilesystemUpgrade allowReplacedFilesystem access w
        from rfl,
      CryConfigLoader._loadConfig_after_refresh env self filename allowFilesystemUpgrade
        allowReplacedFilesystem access w bytes config encryptor hfile hdecrypt hversion hwrite,
      hthrow cipher hsome hne]

/-- C5 at a descriptor of the current format with cipher xchacha20-poly1305, loaded with the
override aes-256-gcm. -/
theorem C5_cipher_gate_throws_iff_override_differs_witness :
    (Sample.world [3]).files "/t/cryfs.config" = some (FileNode.regular [3])
    ∧ CryConfigLoader._checkVersion Sample.env
        (CryConfigLoader._loadConfig_compatibility Sample.env (Sample.config "0.10" none))
        false = Except.ok ()
    ∧ (CryConfigLoader.load Sample.env
          { Sample.loader with _cipherFromCommandLine := some "aes-256-gcm" }
          "/t/cryfs.config" false false Access.ReadWrite (Sample.world [3])).1
        = Except.error (Thrown.cryfs
            ⟨"Filesystem uses " ++ (Sample.config "0.10" none).Cipher ++ " cipher and not "
              ++ "aes-256-gcm" ++ " as specified.", ErrorCode.WrongCipher⟩) :=
  ⟨rfl, rfl,
    (C5_cipher_gate_throws_iff_override_differs Sample.env
      { Sample.loader with _cipherFromCommandLine := some "aes-256-gcm" }
      "/t/cryfs.config" false false Access.ReadWrite (Sample.world [3]) [3]
      (Sample.config "0.10" none) Sample.encryptor rfl rfl rfl rfl).2.2.2
      "aes-256-gcm" rfl (by decide)⟩

/-- C6: for every descriptor, client id and command-line value `req` of
missing-block-is-integrity-violation, `_checkMissingBlocksAreIntegrityViolations` throws with
`ErrorCode::FilesystemHasDifferentIntegritySetup` if and only if `req = Some(true)` and the
descriptor has no exclusive client id, or `req = Some(false)` and it has one; with `req = None`
it never throws with that code. -/
theorem C6_integrity_setup_mismatch_iff (self : CryConfigLoader) (configFile : CryConfigFile)
    (myClientId : Nat) :
    ((∃ e : CryfsException,
        self._checkMissingBlocksAreIntegrityViolations configFile myClientId = Except.error e
        ∧ e.errorCode = ErrorCode.FilesystemHasDifferentIntegritySetup)
      ↔ (self._missingBlockIsIntegrityViolationFromCommandLine = some true
            ∧ configFile.config.ExclusiveClientId = none)
          ∨ (self._missingBlockIsIntegrityViolationFromCommandLine = some false
            ∧ ∃ x, configFile.config.ExclusiveClientId = some x))
    ∧ (self._missingBlockIsIntegrityViolationFromCommandLine = none →
        ∀ e : CryfsException,
          self._checkMissingBlocksAreIntegrityViolations configFile myClientId = Except.error e →
            e.errorCode ≠ ErrorCode.FilesystemHasDifferentIntegritySetup) := by
  unfold CryConfigLoader._checkMissingBlocksAreIntegrityViolations
  constructor
  · rcases hreq : self._missingBlockIsIntegrityViolationFromCommandLine with _ | _ | _ <;>
      rcases hexcl : configFile.config.ExclusiveClientId with _ | x <;>
      simp <;> split <;> simp
  · intro hreq e
    rcases hexcl : configFile.config.ExclusiveClientId with _ | x <;> simp [hreq]
    split
    · intro he
      cases he
    · intro he
      injection he with he
      rw [← he]
      simp

/-- C6 at the override `Some(true)` on a descriptor without exclusive client id. -/
theorem C6_integrity_setup_mismatch_iff_witness :
    ∃ e : CryfsException,
      CryConfigLoader._checkMissingBlocksAreIntegrityViolations
        { Sample.loader with _missingBlockIsIntegrityViolationFromCommandLine := some true }
        ⟨"/t/cryfs.config", Sample.config "0.10" none, Sample.encryptor, Access.ReadWrite⟩ 7
        = Except.error e
      ∧ e.errorCode = ErrorCode.FilesystemHasDifferentIntegritySetup :=
  (C6_integrity_setup_mismatch_iff
    { Sample.loader with _missingBlockIsIntegrityViolationFromCommandLine := some true }
    ⟨"/t/cryfs.config", Sample.config "0.10" none, Sample.encryptor, Access.ReadWrite⟩ 7).1.mpr
    (Or.inl ⟨rfl, rfl⟩)

/-- C7: for a descriptor with exclusive client id `x`, a client id `my` and a command-line
value that does not contradict the descriptor (`None` or `Some(true)`),
`_checkMissingBlocksAreIntegrityViolations` throws with `ErrorCode::SingleClientFileSystem`
if and only if `x ≠ my`; so does a load that reaches the gate (file decrypted, version and
cipher gates passed, saves succeeded, local state returned `my`); consequently every
successful load of a descriptor with exclusive client id `x` returns `myClientId = x`. -/
theorem C7_single_client_violation_iff (env : Env) (self : CryConfigLoader)
    (filename : String) (allowFilesystemUpgrade allowReplacedFilesystem : Bool)
    (access : Access) (w : World) (x : Nat) :
    (∀ (configFile : CryConfigFile) (my : Nat),
        configFile.config.ExclusiveClientId = some x →
        (self._missingBlockIsIntegrityViolationFromCommandLine = none
          ∨ self._missingBlockIsIntegrityViolationFromCommandLine = some true) →
        ((∃ e : CryfsException,
            self._checkMissingBlocksAreIntegrityViolations configFile my = Except.error e
            ∧ e.errorCode = ErrorCode.SingleClientFileSystem) ↔ x ≠ my))
    ∧ (∀ (bytes : List Nat) (config : CryConfig) (encryptor : CryConfigEncryptor) (my : Nat),
        w.files filename = some (FileNode.regular bytes) →
        env.decrypt bytes self._keyProvider = some (config, encryptor) →
        CryConfigLoader._checkVersion env
          (CryConfigLoader._loadConfig_compatibility env config) allowFilesystemUpgrade
            = Except.ok () →
        w.writeFails = false →
        self._checkCipher (CryConfigLoader.refreshed env config) = Except.ok () →
        (env.loadOrGenerate w.localState (CryConfigLoader.refreshed env config).FilesystemId
          (CryConfigLoader.refreshed env config).EncryptionKey allowReplacedFilesystem).1
            = Except.ok my →
        config.ExclusiveClientId = some x →
        (self._missingBlockIsIntegrityViolationFromCommandLine = none
          ∨ self._missingBlockIsIntegrityViolationFromCommandLine = some true) →
        ((self.load env filename allowFilesystemUpgrade allowReplacedFilesystem access w).1
            = Except.error (Thrown.cryfs
                ⟨"File system is in single-client mode and can only be used from the client that created it.",
                  ErrorCode.SingleClientFileSystem⟩) ↔ x ≠ my))
    ∧ (∀ r : ConfigLoadResult,
        (self.load env filename allowFilesystemUpgrade allowReplacedFilesystem access w).1
          = Except.ok (Sum.inr r) →
        r.oldConfig.ExclusiveClientId = some x →
        r.myClientId = x ∧ r.configFile.config.ExclusiveClientId = some x) := by
  have hexcl : ∀ c : CryConfig,
      (CryConfigLoader.refreshed env c).ExclusiveClientId = c.ExclusiveClientId := by
    intro c
    simp only [CryConfigLoader.refreshed, CryConfigLoader._loadConfig_compatibility,
      CryConfig.SetVersion, CryConfig.SetLastOpenedWithVersion]
    split <;> rfl
  have hgate : ∀ (configFile : CryConfigFile) (my : Nat),
      configFile.config.ExclusiveClientId = some x →
      (self._missingBlockIsIntegrityViolationFromCommandLine = none
        ∨ self._missingBlockIsIntegrityViolationFromCommandLine = some true) →
      self._checkMissingBlocksAreIntegrityViolations configFile my
        = if x ≠ my then
            Except.error ⟨"File system is in single-client mode and can only be used from the client that created it.",
              ErrorCode.SingleClientFileSystem⟩
          else Except.ok () := by
    intro configFile my hx hreq
    unfold CryConfigLoader._checkMissingBlocksAreIntegrityViolations
    rcases hreq with hreq | hreq <;> simp [hreq, hx]
  refine ⟨?_, ?_, ?_⟩
  · intro configFile my hx hreq
    rw [hgate configFile my hx hreq]
    by_cases hne : x = my <;> simp [hne]
  · intro bytes config encryptor my hfile hdecrypt hversion hwrite hcipher hlocal hx hreq
    rw [show self.load env filename allowFilesystemUpgrade allowReplacedFilesystem access w
        = self._loadConfig env filename allowFilesystemUpgrade allowReplacedFilesystem access w
        from rfl,
      CryConfigLoader._loadConfig_after_refresh env self filename allowFilesystemUpgrade
        allowReplacedFilesystem access w bytes config encryptor hfile hdecrypt hversion hwrite,
      hcipher]
    simp only [hlocal]
    rw [hgate _ my (by rw [hexcl]; exact hx) hreq]
    by_cases hne : x = my <;> simp [hne]
  · intro r hr hx
    have hpair : self._loadConfig env filename allowFilesystemUpgrade allowReplacedFilesystem
        access w = (Except.ok (Sum.inr r),
          (self._loadConfig env filename allowFilesystemUpgrade allowReplacedFilesystem
            access w).2) := Prod.ext hr rfl
    obtain ⟨_, encryptor, _, _, hfileEq, _, _, _, hcheck⟩ :=
      CryConfigLoader._loadConfig_ok_inv env self filename allowFilesystemUpgrade
        allowReplacedFilesystem access w _ r hpair
    have hx2 : r.configFile.config.ExclusiveClientId = some x := by
      rw [hfileEq]
      simp only [hexcl]
      exact hx
    refine ⟨?_, hx2⟩
    unfold CryConfigLoader._checkMissingBlocksAreIntegrityViolations at hcheck
    rw [hx2] at hcheck
    by_cases hne : x = r.myClientId
    · exact hne.symm
    · simp [hne] at hcheck
      split at hcheck <;> simp at hcheck

/-- C7 at a descriptor pinned to client 7, loaded by the client to which the local state
gives id 7: the load succeeds and returns 7. -/
theorem C7_single_client_violation_iff_witness :
    (Sample.loader.load Sample.env "/t/cryfs.config" true false Access.ReadWrite
        (Sample.world [5])).1
      = Except.ok (Sum.inr
          ⟨Sample.config "0.10" (some 7),
            ⟨"/t/cryfs.config",
              CryConfigLoader.refreshed Sample.env (Sample.config "0.10" (some 7)),
              Sample.encryptor, Access.ReadWrite⟩, 7⟩)
    ∧ (Sample.config "0.10" (some 7)).ExclusiveClientId = some 7
    ∧ (7 : Nat) = 7
    ∧ (CryConfigLoader.refreshed Sample.env
        (Sample.config "0.10" (some 7))).ExclusiveClientId = some 7 :=
  ⟨rfl, rfl,
    (C7_single_client_violation_iff Sample.env Sample.loader "/t/cryfs.config" true false
      Access.ReadWrite (Sample.world [5]) 7).2.2
      ⟨Sample.config "0.10" (some 7),
        ⟨"/t/cryfs.config",
          CryConfigLoader.refreshed Sample.env (Sample.config "0.10" (some 7)),
          Sample.encryptor, Access.ReadWrite⟩, 7⟩ rfl rfl⟩

/-! ## Cli: basedir binding and mapping of load errors -/

/-- C8: `Cli::_checkConfigIntegrity`, with the basedir record as modelled from the spec.  When
the record maps the basedir to an id different from the descriptor's filesystem id and
`allowReplacedFilesystem = false`, it throws with `ErrorCode::FilesystemIdChanged`, having only
read the record.  In every other case (no record, equal id, or `allowReplacedFilesystem =
true`) it returns and the saved record maps the basedir to the descriptor's filesystem id.
`Cli::_loadOrCreateConfig` runs it on the basedir and the descriptor file of a config that
was loaded or created, and ends as it ends. -/
theorem C8_basedir_binding (basedir : String) (config : CryConfigFile)
    (allowReplacedFilesystem : Bool) (w : World) :
    (∀ recorded : List Nat,
        w.basedirs.lookup basedir = some recorded →
        recorded ≠ config.config.FilesystemId →
        allowReplacedFilesystem = false →
        Cli._checkConfigIntegrity basedir config allowReplacedFilesystem w
          = (Except.error (Thrown.cryfs
              ⟨"The filesystem id in the config file is different to the last time we loaded a filesystem from this basedir.",
                ErrorCode.FilesystemIdChanged⟩),
              { w with trace := w.trace ++ [Event.basedirMetadataLoad] }))
    ∧ (w.basedirs.lookup basedir = none
          ∨ w.basedirs.lookup basedir = some config.config.FilesystemId
          ∨ allowReplacedFilesystem = true →
        (Cli._checkConfigIntegrity basedir config allowReplacedFilesystem w).1 = Except.ok ()
        ∧ (Cli._checkConfigIntegrity basedir config allowReplacedFilesystem w).2.basedirs.lookup
            basedir = some config.config.FilesystemId)
    ∧ (∀ (env : Env) (cli : Cli) (options : ProgramOptions) (credentials : Credentials)
        (w0 : World) (r : ConfigLoadResult),
        cli._loadOrCreateConfigFile env (Cli._determineConfigFile options) credentials
          options.cipher options.blocksizeBytes options.allowFilesystemUpgrade
          options.missingBlockIsIntegrityViolation options.allowReplacedFilesystem w0
            = (Except.ok (Sum.inr r), w) →
        options.baseDir = basedir → r.configFile = config →
        options.allowReplacedFilesystem = allowReplacedFilesystem →
        cli._loadOrCreateConfig env options credentials w0
          = match Cli._checkConfigIntegrity basedir config allowReplacedFilesystem w with
            | (Except.error e, w1) => (Except.error e, w1)
            | (Except.ok (), w1) => (Except.ok r, w1)) := by
  refine ⟨?_, ?_, ?_⟩
  · intro recorded hrec hne hallow
    simp [Cli._checkConfigIntegrity, BasedirMetadata.load,
      BasedirMetadata.filesystemIdForBasedirIsCorrect, BasedirMetadata.basedir_fs_id, hrec, hne,
      hallow]
  · intro h
    have hcorrect : (!allowReplacedFilesystem
        && !(BasedirMetadata.mk w.basedirs).filesystemIdForBasedirIsCorrect basedir
            config.config.FilesystemId) = false := by
      rcases h with h | h | h <;>
        simp [BasedirMetadata.filesystemIdForBasedirIsCorrect, BasedirMetadata.basedir_fs_id, h]
    simp [Cli._checkConfigIntegrity, BasedirMetadata.load, hcorrect, BasedirMetadata.save,
      BasedirMetadata.updateFilesystemIdForBasedir, List.lookup]
  · intro env cli options credentials w0 r hload hbase hconfig hallow
    subst hbase hconfig hallow
    simp only [Cli._loadOrCreateConfig, hload]

/-- C8 at scenario 5: the basedir `/t` is recorded with filesystem id `[9]` and the descriptor
has id `[1, 2, 3, 4]`; with `allowReplacedFilesystem = false` the check throws, with `true` it
returns and the record is updated. -/
theorem C8_basedir_binding_witness :
    ({ Sample.world [3] with basedirs := [("/t", [9])] } : World).basedirs.lookup "/t"
      = some [9]
    ∧ Cli._checkConfigIntegrity "/t"
        ⟨"/t/cryfs.config", Sample.config "0.10" none, Sample.encryptor, Access.ReadWrite⟩ false
        { Sample.world [3] with basedirs := [("/t", [9])] }
      = (Except.error (Thrown.cryfs
          ⟨"The filesystem id in the config file is different to the last time we loaded a filesystem from this basedir.",
            ErrorCode.FilesystemIdChanged⟩),
          { { Sample.world [3] with basedirs := [("/t", [9])] } with
            trace := [] ++ [Event.basedirMetadataLoad] })
    ∧ (Cli._checkConfigIntegrity "/t"
        ⟨"/t/cryfs.config", Sample.config "0.10" none, Sample.encryptor, Access.ReadWrite⟩ true
        { Sample.world [3] with basedirs := [("/t", [9])] }).1 = Except.ok ()
    ∧ (Cli._checkConfigIntegrity "/t"
        ⟨"/t/cryfs.config", Sample.config "0.10" none, Sample.encryptor, Access.ReadWrite⟩ true
        { Sample.world [3] with basedirs := [("/t", [9])] }).2.basedirs.lookup "/t"
      = some [1, 2, 3, 4] :=
  ⟨rfl,
    (C8_basedir_binding "/t"
      ⟨"/t/cryfs.config", Sample.config "0.10" none, Sample.encryptor, Access.ReadWrite⟩ false
      { Sample.world [3] with basedirs := [("/t", [9])] }).1 [9] rfl (by decide) rfl,
    (C8_basedir_binding "/t"
      ⟨"/t/cryfs.config", Sample.config "0.10" none, Sample.encryptor, Access.ReadWrite⟩ true
      { Sample.world [3] with basedirs := [("/t", [9])] }).2.1 (Or.inr (Or.inr rfl))⟩

/-- C9: `Cli::_loadOrCreateConfig` turns the load result `ConfigFileNotFound` into a
`CryfsException` with `ErrorCode::InvalidFilesystem` and the load result `DecryptionFailed`
into one with `ErrorCode::WrongPassword`.  In both cases the world it leaves is the one the
envelope load left: the basedir record is as before and the trace gained the load of the
descriptor file only, so the record was neither read nor written. -/
theorem C9_load_errors_become_typed_errors (env : Env) (cli : Cli)
    (options : ProgramOptions) (credentials : Credentials) (w w1 : World) :
    (cli._loadOrCreateConfigFile env (Cli._determineConfigFile options) credentials
        options.cipher options.blocksizeBytes options.allowFilesystemUpgrade
        options.missingBlockIsIntegrityViolation options.allowReplacedFilesystem w
          = (Except.ok (Sum.inl LoadError.ConfigFileNotFound), w1) →
      cli._loadOrCreateConfig env options credentials w
          = (Except.error (Thrown.cryfs
              ⟨"Could not find the cryfs.config file. Are you sure this is a valid CryFS file system?",
                ErrorCode.InvalidFilesystem⟩), w1)
        ∧ w1.basedirs = w.basedirs
        ∧ w1.trace = w.trace ++ [Event.configFileLoad (Cli._determineConfigFile options)])
    ∧ (cli._loadOrCreateConfigFile env (Cli._determineConfigFile options) credentials
        options.cipher options.blocksizeBytes options.allowFilesystemUpgrade
        options.missingBlockIsIntegrityViolation options.allowReplacedFilesystem w
          = (Except.ok (Sum.inl LoadError.DecryptionFailed), w1) →
      cli._loadOrCreateConfig env options credentials w
          = (Except.error (Thrown.cryfs
              ⟨"Failed to decrypt the config file. Did you enter the correct password?",
                ErrorCode.WrongPassword⟩), w1)
        ∧ w1.basedirs = w.basedirs
        ∧ w1.trace = w.trace ++ [Event.configFileLoad (Cli._determineConfigFile options)]) := by
  have hworld : ∀ err : LoadError,
      cli._loadOrCreateConfigFile env (Cli._determineConfigFile options) credentials
        options.cipher options.blocksizeBytes options.allowFilesystemUpgrade
        options.missingBlockIsIntegrityViolation options.allowReplacedFilesystem w
          = (Except.ok (Sum.inl err), w1) →
      w1 = w.afterLoad (Cli._determineConfigFile options) := by
    intro err h
    have hinv := (CryConfigLoader.loadOrCreate_inl_inv env _ _ _ _ w w1 err h).2
    have hsnd := CryConfigFile.load_snd env (Cli._determineConfigFile options)
      (cli._createKeyProvider env credentials) Access.ReadWrite w
    rw [hinv] at hsnd
    exact hsnd
  constructor
  · intro h
    have hw := hworld _ h
    refine ⟨?_, by rw [hw]; rfl, by rw [hw]; rfl⟩
    simp only [Cli._loadOrCreateConfig, h]
  · intro h
    have hw := hworld _ h
    refine ⟨?_, by rw [hw]; rfl, by rw [hw]; rfl⟩
    simp only [Cli._loadOrCreateConfig, h]

/-- C9 on the basedir `/t`: with the password `wrong` the load result is `DecryptionFailed`
and the error is `WrongPassword`; with an unreadable node at the descriptor path the load
result is `ConfigFileNotFound` and the error is `InvalidFilesystem`. -/
theorem C9_load_errors_become_typed_errors_witness :
    Cli._loadOrCreateConfig Sample.env ⟨⟨[]⟩⟩ Sample.options ⟨some "wrong", ⟨[], 0⟩, none⟩
        (Sample.world [3])
      = (Except.error (Thrown.cryfs
          ⟨"Failed to decrypt the config file. Did you enter the correct password?",
            ErrorCode.WrongPassword⟩), (Sample.world [3]).afterLoad "/t/cryfs.config")
    ∧ Cli._loadOrCreateConfig Sample.env ⟨⟨[]⟩⟩ Sample.options ⟨some "hunter2", ⟨[], 0⟩, none⟩
        { Sample.world [3] with files := fun _ => some FileNode.unreadable }
      = (Except.error (Thrown.cryfs
          ⟨"Could not find the cryfs.config file. Are you sure this is a valid CryFS file system?",
            ErrorCode.InvalidFilesystem⟩),
          ({ Sample.world [3] with files := fun _ => some FileNode.unreadable } :
            World).afterLoad "/t/cryfs.config") :=
  ⟨((C9_load_errors_become_typed_errors Sample.env ⟨⟨[]⟩⟩ Sample.options
      ⟨some "wrong", ⟨[], 0⟩, none⟩ (Sample.world [3])
      ((Sample.world [3]).afterLoad "/t/cryfs.config")).2 rfl).1,
    ((C9_load_errors_become_typed_errors Sample.env ⟨⟨[]⟩⟩ Sample.options
      ⟨some "hunter2", ⟨[], 0⟩, none⟩
      { Sample.world [3] with files := fun _ => some FileNode.unreadable }
      (({ Sample.world [3] with files := fun _ => some FileNode.unreadable } :
        World).afterLoad "/t/cryfs.config")).1 rfl).1⟩

/-- C10: when the envelope load of an existing descriptor file returns `DecryptionFailed`,
`loadOrCreate` returns that error, and the world it leaves differs from the one it found by
the trace entry of the envelope load only: no save of the descriptor file and no access to the
local state happened, and the file at the path is what it was. -/
theorem C10_decryption_failed_leaves_file_unchanged (env : Env) (self : CryConfigLoader)
    (filename : String) (allowFilesystemUpgrade allowReplacedFilesystem : Bool) (w : World)
    (hfail : (CryConfigFile.load env filename self._keyProvider Access.ReadWrite w).1
      = Sum.inl LoadError.DecryptionFailed) :
    (w.files filename).isSome = true
    ∧ self.loadOrCreate env filename allowFilesystemUpgrade allowReplacedFilesystem w
      = (Except.ok (Sum.inl LoadError.DecryptionFailed), w.afterLoad filename)
    ∧ (self.loadOrCreate env filename allowFilesystemUpgrade allowReplacedFilesystem w).2.files
        filename = w.files filename
    ∧ (self.loadOrCreate env filename allowFilesystemUpgrade allowReplacedFilesystem w).2.files
      = w.files
    ∧ (self.loadOrCreate env filename allowFilesystemUpgrade allowReplacedFilesystem
        w).2.localState = w.localState
    ∧ (self.loadOrCreate env filename allowFilesystemUpgrade allowReplacedFilesystem w).2.trace
      = w.trace ++ [Event.configFileLoad filename] := by
  have hexists : (w.files filename).isSome = true := by
    unfold CryConfigFile.load at hfail
    cases hf : w.files filename with
    | none => simp [hf] at hfail
    | some node => rfl
  have hload : CryConfigFile.load env filename self._keyProvider Access.ReadWrite w
      = (Sum.inl LoadError.DecryptionFailed, w.afterLoad filename) :=
    Prod.ext hfail (CryConfigFile.load_snd env filename self._keyProvider Access.ReadWrite w)
  have hresult : self.loadOrCreate env filename allowFilesystemUpgrade allowReplacedFilesystem w
      = (Except.ok (Sum.inl LoadError.DecryptionFailed), w.afterLoad filename) := by
    rw [CryConfigLoader.loadOrCreate_existing env self filename allowFilesystemUpgrade
      allowReplacedFilesystem w hexists]
    simp only [CryConfigLoader._loadConfig, hload]
  refine ⟨hexists, hresult, ?_, ?_, ?_, ?_⟩ <;> rw [hresult] <;> rfl

/-- C10 at scenario 2: the descriptor of `/t` opened with a wrong raw key. -/
theorem C10_decryption_failed_leaves_file_unchanged_witness :
    (CryConfigFile.load Sample.env "/t/cryfs.config"
        (CryKeyProvider.CryDirectKeyProvider ⟨[13], 1⟩) Access.ReadWrite (Sample.world [3])).1
      = Sum.inl LoadError.DecryptionFailed
    ∧ (CryConfigLoader.loadOrCreate Sample.env
        { Sample.loader with _keyProvider := CryKeyProvider.CryDirectKeyProvider ⟨[13], 1⟩ }
        "/t/cryfs.config" true false (Sample.world [3])).2.files "/t/cryfs.config"
      = some (FileNode.regular [3]) :=
  ⟨rfl,
    (C10_decryption_failed_leaves_file_unchanged Sample.env
      { Sample.loader with _keyProvider := CryKeyProvider.CryDirectKeyProvider ⟨[13], 1⟩ }
      "/t/cryfs.config" true false (Sample.world [3]) rfl).2.2.1⟩

/-! ## Key providers -/

/-- C19: the direct key provider holding the raw key `k` (its `size` bytes at `data`), asked
for a key of `keySize` bytes with any KDF parameters `p`, returns a key whose bytes are
exactly those of `k`, of length `|k|` and whatever `p` is, when `keySize = |k|`, and fails
with the assertion violation "CryDirectKeyProvider: Invalid key size requested" when
`keySize ≠ |k|`. -/
theorem C19_direct_key_provider_returns_raw_key (k : SizedData) (keySize : Nat)
    (p : List Nat) (hk : k.data.length = k.size) :
    (keySize = k.size →
      CryDirectKeyProvider.requestKeyForExistingFilesystem k keySize p = Except.ok k.data
      ∧ k.data.length = k.size
      ∧ (∀ q : List Nat, CryDirectKeyProvider.requestKeyForExistingFilesystem k keySize q
          = CryDirectKeyProvider.requestKeyForExistingFilesystem k keySize p)
      ∧ (CryKeyProvider.CryDirectKeyProvider k).requestKeyForExistingFilesystem keySize p
          = (Except.ok k.data, none))
    ∧ (keySize ≠ k.size →
      CryDirectKeyProvider.requestKeyForExistingFilesystem k keySize p
        = Except.error (Thrown.other "CryDirectKeyProvider: Invalid key size requested")) := by
  have hcopy : memcpy (List.replicate k.size 0) k.data k.size = k.data := by
    simp [memcpy, ← hk]
  constructor
  · intro hsize
    have hreq : ∀ q : List Nat,
        CryDirectKeyProvider.requestKeyForExistingFilesystem k keySize q = Except.ok k.data := by
      intro q
      simp [CryDirectKeyProvider.requestKeyForExistingFilesystem, ASSERT, hsize, hcopy]
    refine ⟨hreq p, hk, fun q => by rw [hreq q, hreq p], ?_⟩
    simp [CryKeyProvider.requestKeyForExistingFilesystem, hreq p]
  · intro hsize
    simp [CryDirectKeyProvider.requestKeyForExistingFilesystem, ASSERT, Ne.symm hsize]

/-- C19 at the raw key `[1, 2, 3]`: a request for 3 bytes returns it, a request for 32 bytes
fails the assertion. -/
theorem C19_direct_key_provider_returns_raw_key_witness :
    (⟨[1, 2, 3], 3⟩ : SizedData).data.length = (⟨[1, 2, 3], 3⟩ : SizedData).size
    ∧ CryDirectKeyProvider.requestKeyForExistingFilesystem ⟨[1, 2, 3], 3⟩ 3 [9, 9]
        = Except.ok [1, 2, 3]
    ∧ CryDirectKeyProvider.requestKeyForExistingFilesystem ⟨[1, 2, 3], 3⟩ 32 [9, 9]
        = Except.error (Thrown.other "CryDirectKeyProvider: Invalid key size requested") :=
  ⟨rfl,
    ((C19_direct_key_provider_returns_raw_key ⟨[1, 2, 3], 3⟩ 3 [9, 9] rfl).1 rfl).1,
    (C19_direct_key_provider_returns_raw_key ⟨[1, 2, 3], 3⟩ 32 [9, 9] rfl).2 (by decide)⟩

/-- C20: the password-based key provider with password `pw` and key derivation `kdf`, asked
for the key of an existing filesystem, returns exactly `kdf.deriveExistingKey(keySize, pw, p)`;
asked for the key of a new filesystem, it returns exactly the key and the KDF parameters of
`kdf.deriveNewKey(keySize, pw)`; both are the same with a sink and without one. -/
theorem C20_password_key_provider_returns_kdf_result (pw : String) (kdf : PasswordBasedKDF)
    (sink : Option Nat) (keySize : Nat) (p : List Nat) :
    (CryPresetPasswordBasedKeyProvider.requestKeyForExistingFilesystem pw kdf sink keySize p).1
      = kdf.deriveExistingKey keySize pw p
    ∧ (CryPresetPasswordBasedKeyProvider.requestKeyForNewFilesystem pw kdf sink keySize).1
      = ⟨(kdf.deriveNewKey keySize pw).1, (kdf.deriveNewKey keySize pw).2⟩
    ∧ (CryPresetPasswordBasedKeyProvider.requestKeyForExistingFilesystem pw kdf sink keySize p).1
      = (CryPresetPasswordBasedKeyProvider.requestKeyForExistingFilesystem pw kdf none keySize
          p).1
    ∧ (CryPresetPasswordBasedKeyProvider.requestKeyForNewFilesystem pw kdf sink keySize).1
      = (CryPresetPasswordBasedKeyProvider.requestKeyForNewFilesystem pw kdf none keySize).1
    ∧ ((CryKeyProvider.CryPresetPasswordBasedKeyProvider pw kdf
          sink).requestKeyForExistingFilesystem keySize p).1
      = Except.ok (kdf.deriveExistingKey keySize pw p)
    ∧ ((CryKeyProvider.CryPresetPasswordBasedKeyProvider pw kdf
          sink).requestKeyForNewFilesystem keySize).1
      = Except.ok ⟨(kdf.deriveNewKey keySize pw).1, (kdf.deriveNewKey keySize pw).2⟩ := by
  cases sink <;>
    simp [CryPresetPasswordBasedKeyProvider.requestKeyForExistingFilesystem,
      CryPresetPasswordBasedKeyProvider.requestKeyForNewFilesystem,
      CryKeyProvider.requestKeyForExistingFilesystem,
      CryKeyProvider.requestKeyForNewFilesystem]

/-- C20 at the password `pw` with the sample key derivation and a sink at address 1. -/
theorem C20_password_key_provider_returns_kdf_result_witness :
    (CryPresetPasswordBasedKeyProvider.requestKeyForExistingFilesystem "pw" Sample.kdf (some 1)
        32 [9]).1 = [112, 119]
    ∧ (CryPresetPasswordBasedKeyProvider.requestKeyForNewFilesystem "pw" Sample.kdf (some 1)
        32).1 = ⟨[112, 119], [9]⟩ :=
  ⟨(C20_password_key_provider_returns_kdf_result "pw" Sample.kdf (some 1) 32 [9]).1,
    (C20_password_key_provider_returns_kdf_result "pw" Sample.kdf (some 1) 32 [9]).2.1⟩

/-! ## Refresh on open -/

/-- C11, as the code has it: within a single load the refresh saves come after the version
gates and before the cipher gate, the local state step and the integrity-mode gate.  A load
that a version gate rejects has written nothing.  A load that passed the version gates
(its saves succeeding) leaves the files of the refreshed world whatever the later steps
decide: under read-write access with a refresh due, the file holds the refreshed descriptor
also when the load then fails at the cipher gate, at the local state step or at the
integrity-mode gate; these later steps add no save. -/
theorem C11_refresh_saves_precede_later_gates (env : Env) (self : CryConfigLoader)
    (filename : String) (allowFilesystemUpgrade allowReplacedFilesystem : Bool)
    (access : Access) (w : World) (bytes : List Nat) (config : CryConfig)
    (encryptor : CryConfigEncryptor)
    (hfile : w.files filename = some (FileNode.regular bytes))
    (hdecrypt : env.decrypt bytes self._keyProvider = some (config, encryptor)) :
    (∀ e : CryfsException,
        CryConfigLoader._checkVersion env
          (CryConfigLoader._loadConfig_compatibility env config) allowFilesystemUpgrade
            = Except.error e →
        self.load env filename allowFilesystemUpgrade allowReplacedFilesystem access w
          = (Except.error (Thrown.cryfs e), w.afterLoad filename))
    ∧ (CryConfigLoader._checkVersion env
          (CryConfigLoader._loadConfig_compatibility env config) allowFilesystemUpgrade
            = Except.ok () →
        w.writeFails = false →
        (self.load env filename allowFilesystemUpgrade allowReplacedFilesystem access w).2.files
            = (World.afterRefresh env w filename
                (CryConfigLoader._loadConfig_compatibility env config) encryptor access).files
        ∧ ((self.load env filename allowFilesystemUpgrade allowReplacedFilesystem access
              w).2.trace
            = (World.afterRefresh env w filename
                (CryConfigLoader._loadConfig_compatibility env config) encryptor access).trace
          ∨ (self.load env filename allowFilesystemUpgrade allowReplacedFilesystem access
              w).2.trace
            = (World.afterRefresh env w filename
                (CryConfigLoader._loadConfig_compatibility env config) encryptor access).trace
              ++ [Event.localStateLoadOrGenerate
                  (CryConfigLoader.refreshed env config).FilesystemId])
        ∧ (access = Access.ReadWrite →
            ((CryConfigLoader._loadConfig_compatibility env config).Version
                ≠ env.FilesystemFormatVersion
              ∨ (CryConfigLoader._loadConfig_compatibility env config).LastOpenedWithVersion
                ≠ env.VersionString) →
            (self.load env filename allowFilesystemUpgrade allowReplacedFilesystem access
                w).2.files filename
              = some (FileNode.regular
                  (env.encrypt encryptor (CryConfigLoader.refreshed env config))))) := by
  constructor
  · intro e he
    exact CryConfigLoader._loadConfig_checkVersion_error env self filename
      allowFilesystemUpgrade allowReplacedFilesystem access w bytes config encryptor e
      hfile hdecrypt he
  · intro hcheck hwrite
    have hworld := CryConfigLoader._loadConfig_world_after env self filename
      allowFilesystemUpgrade allowReplacedFilesystem access w bytes config encryptor hfile
      hdecrypt hcheck hwrite
    refine ⟨hworld.1, hworld.2.2, ?_⟩
    intro haccess hdue
    subst haccess
    have hfiles := congrFun hworld.1 filename
    rw [World.afterRefresh_files_readWrite] at hfiles
    rw [show self.load env filename allowFilesystemUpgrade allowReplacedFilesystem
        Access.ReadWrite w
        = self._loadConfig env filename allowFilesystemUpgrade allowReplacedFilesystem
            Access.ReadWrite w from rfl, hfiles, if_neg]
    · rfl
    · rintro ⟨hv, hl⟩
      rcases hdue with h | h
      · exact h hv
      · exact h hl

/-- C11, as the code has it, at a descriptor of format 0.9.6 opened read-write with upgrades
allowed and the cipher override aes-256-gcm: the file holds the upgraded descriptor. -/
theorem C11_refresh_saves_precede_later_gates_witness :
    CryConfigLoader._checkVersion Sample.env
        (CryConfigLoader._loadConfig_compatibility Sample.env (Sample.config "0.9.6" none))
        true = Except.ok ()
    ∧ (Sample.world [1]).writeFails = false
    ∧ (CryConfigLoader.load Sample.env
          { Sample.loader with _cipherFromCommandLine := some "aes-256-gcm" }
          "/t/cryfs.config" true false Access.ReadWrite (Sample.world [1])).2.files
          "/t/cryfs.config"
        = some (FileNode.regular
            (Sample.env.encrypt Sample.encryptor
              (CryConfigLoader.refreshed Sample.env (Sample.config "0.9.6" none)))) :=
  ⟨rfl, rfl,
    ((C11_refresh_saves_precede_later_gates Sample.env
      { Sample.loader with _cipherFromCommandLine := some "aes-256-gcm" }
      "/t/cryfs.config" true false Access.ReadWrite (Sample.world [1]) [1]
      (Sample.config "0.9.6" none) Sample.encryptor rfl rfl).2 rfl rfl).2.2 rfl
      (Or.inl (by decide))⟩

/-- C11 as stated fails: a read-write load of a descriptor of format 0.9.6, with upgrades
allowed and the cipher override aes-256-gcm, fails with `ErrorCode::WrongCipher` after it
has saved the descriptor file twice; the file no longer holds the bytes it held. -/
theorem C11_file_written_before_cipher_gate_counterexample :
    (CryConfigLoader.load Sample.env
        { Sample.loader with _cipherFromCommandLine := some "aes-256-gcm" }
        "/t/cryfs.config" true false Access.ReadWrite (Sample.world [1])).1
      = Except.error (Thrown.cryfs
          ⟨"Filesystem uses xchacha20-poly1305 cipher and not aes-256-gcm as specified.",
            ErrorCode.WrongCipher⟩)
    ∧ (CryConfigLoader.load Sample.env
        { Sample.loader with _cipherFromCommandLine := some "aes-256-gcm" }
        "/t/cryfs.config" true false Access.ReadWrite (Sample.world [1])).2.trace
      = [Event.configFileLoad "/t/cryfs.config", Event.configFileSave "/t/cryfs.config" [3],
          Event.configFileSave "/t/cryfs.config" [3]]
    ∧ (Sample.world [1]).files "/t/cryfs.config" = some (FileNode.regular [1])
    ∧ (CryConfigLoader.load Sample.env
        { Sample.loader with _cipherFromCommandLine := some "aes-256-gcm" }
        "/t/cryfs.config" true false Access.ReadWrite (Sample.world [1])).2.files
        "/t/cryfs.config" = some (FileNode.regular [3]) :=
  ⟨rfl, rfl, rfl, rfl⟩

/-- C13, as the code has it: a read-write load, with upgrades allowed, of a descriptor stored
with format version "0.9.7" and a last-opened version different from the running version
(compatibility enabled, 0.9.6 within the supported range, the saves succeeding) saves the
descriptor file twice when the current format version is not "0.9.6": once after the format
version was advanced and once after the last-opened version was set, the second save storing
the refreshed descriptor.  It saves it once when the current format version is "0.9.6". -/
theorem C13_legacy_upgrade_saves_twice (env : Env) (self : CryConfigLoader)
    (filename : String) (allowReplacedFilesystem : Bool) (w : World) (bytes : List Nat)
    (config : CryConfig) (encryptor : CryConfigEncryptor)
    (hcompat : env.CRYFS_NO_COMPATIBILITY = false)
    (hstored : config.Version = "0.9.7")
    (hlast : config.LastOpenedWithVersion ≠ env.VersionString)
    (hminimum : env.isOlderThan "0.9.6" "0.9.4" = false)
    (hcurrent : env.isOlderThan env.FilesystemFormatVersion "0.9.6" = false)
    (hfile : w.files filename = some (FileNode.regular bytes))
    (hdecrypt : env.decrypt bytes self._keyProvider = some (config, encryptor))
    (hwrite : w.writeFails = false) :
    (env.FilesystemFormatVersion ≠ "0.9.6" →
      (∃ tail : List Event,
        (self.load env filename true allowReplacedFilesystem Access.ReadWrite w).2.trace
          = w.trace ++ ([Event.configFileLoad filename,
              Event.configFileSave filename
                (env.encrypt encryptor
                  ((CryConfigLoader._loadConfig_compatibility env config).SetVersion
                    env.FilesystemFormatVersion)),
              Event.configFileSave filename
                (env.encrypt encryptor (CryConfigLoader.refreshed env config))] ++ tail)
        ∧ tail.countP Event.isConfigFileSave = 0)
      ∧ ((self.load env filename true allowReplacedFilesystem Access.ReadWrite w).2.trace.drop
          w.trace.length).countP Event.isConfigFileSave = 2)
    ∧ (env.FilesystemFormatVersion = "0.9.6" →
      ((self.load env filename true allowReplacedFilesystem Access.ReadWrite w).2.trace.drop
          w.trace.length).countP Event.isConfigFileSave = 1) := by
  have hfix : CryConfigLoader._loadConfig_compatibility env config
      = { config with Version := "0.9.6" } := by
    simp [CryConfigLoader._loadConfig_compatibility, hcompat, hstored, CryConfig.SetVersion]
  have hpass : CryConfigLoader._checkVersion env
      (CryConfigLoader._loadConfig_compatibility env config) true = Except.ok () := by
    simp [hfix, CryConfigLoader._checkVersion, hminimum, hcurrent]
  have hworld := (CryConfigLoader._loadConfig_world_after env self filename true
    allowReplacedFilesystem Access.ReadWrite w bytes config encryptor hfile hdecrypt hpass
    hwrite).2.2
  have hl : (CryConfigLoader._loadConfig_compatibility env config).LastOpenedWithVersion
      ≠ env.VersionString := by
    rw [hfix]
    exact hlast
  have hv : (CryConfigLoader._loadConfig_compatibility env config).Version = "0.9.6" := by
    rw [hfix]
  constructor
  · intro hne
    have hv2 : (CryConfigLoader._loadConfig_compatibility env config).Version
        ≠ env.FilesystemFormatVersion := by
      rw [hv]
      exact Ne.symm hne
    have htrace : (World.afterRefresh env w filename
        (CryConfigLoader._loadConfig_compatibility env config) encryptor
        Access.ReadWrite).trace
        = w.trace ++ [Event.configFileLoad filename,
            Event.configFileSave filename
              (env.encrypt encryptor
                ((CryConfigLoader._loadConfig_compatibility env config).SetVersion
                  env.FilesystemFormatVersion)),
            Event.configFileSave filename
              (env.encrypt encryptor (CryConfigLoader.refreshed env config))] := by
      simp [World.afterRefresh, hv2, hl, World.afterSave, World.afterLoad,
        CryConfigLoader.refreshed]
    rw [htrace] at hworld
    rcases hworld with h | h
    · refine ⟨⟨[], ?_, rfl⟩, ?_⟩
      · rw [List.append_nil]
        exact h
      · rw [show self.load env filename true allowReplacedFilesystem Access.ReadWrite w
          = self._loadConfig env filename true allowReplacedFilesystem Access.ReadWrite w
          from rfl, h]
        simp [Event.isConfigFileSave]
    · refine ⟨⟨[Event.localStateLoadOrGenerate
          (CryConfigLoader.refreshed env config).FilesystemId], ?_, rfl⟩, ?_⟩
      · rw [show self.load env filename true allowReplacedFilesystem Access.ReadWrite w
          = self._loadConfig env filename true allowReplacedFilesystem Access.ReadWrite w
          from rfl, h, List.append_assoc]
      · rw [show self.load env filename true allowReplacedFilesystem Access.ReadWrite w
          = self._loadConfig env filename true allowReplacedFilesystem Access.ReadWrite w
          from rfl, h, List.append_assoc]
        simp [Event.isConfigFileSave]
  · intro heq
    have hv2 : (CryConfigLoader._loadConfig_compatibility env config).Version
        = env.FilesystemFormatVersion := by
      rw [hv, heq]
    have htrace : (World.afterRefresh env w filename
        (CryConfigLoader._loadConfig_compatibility env config) encryptor
        Access.ReadWrite).trace
        = w.trace ++ [Event.configFileLoad filename,
            Event.configFileSave filename
              (env.encrypt encryptor (CryConfigLoader.refreshed env config))] := by
      simp [World.afterRefresh, hv2, hl, World.afterSave, World.afterLoad,
        CryConfigLoader.refreshed]
    rw [htrace] at hworld
    rw [show self.load env filename true allowReplacedFilesystem Access.ReadWrite w
      = self._loadConfig env filename true allowReplacedFilesystem Access.ReadWrite w
      from rfl]
    rcases hworld with h | h
    · rw [h]
      simp [Event.isConfigFileSave]
    · rw [h, List.append_assoc]
      simp [Event.isConfigFileSave]

/-- C13, as the code has it, at scenario 6 under the current format 0.10: two saves. -/
theorem C13_legacy_upgrade_saves_twice_witness :
    (Sample.env.CRYFS_NO_COMPATIBILITY = false
      ∧ (Sample.config "0.9.7" none).Version = "0.9.7"
      ∧ (Sample.config "0.9.7" none).LastOpenedWithVersion ≠ Sample.env.VersionString
      ∧ Sample.env.isOlderThan "0.9.6" "0.9.4" = false
      ∧ Sample.env.isOlderThan Sample.env.FilesystemFormatVersion "0.9.6" = false
      ∧ Sample.env.FilesystemFormatVersion ≠ "0.9.6")
    ∧ ((Sample.loader.load Sample.env "/t/cryfs.config" true false Access.ReadWrite
        (Sample.world [2])).2.trace.drop (Sample.world [2]).trace.length).countP
          Event.isConfigFileSave = 2 :=
  ⟨⟨rfl, rfl, by decide, by decide, by decide, by decide⟩,
    ((C13_legacy_upgrade_saves_twice Sample.env Sample.loader "/t/cryfs.config" false
      (Sample.world [2]) [2] (Sample.config "0.9.7" none) Sample.encryptor rfl rfl
      (by decide) (by decide) (by decide) rfl rfl rfl).1 (by decide)).2⟩

/-- C13 as stated fails: scenario 6 (a descriptor stored with format version 0.9.7, loaded
read-write with upgrades allowed under the current format 0.10) succeeds and saves the
descriptor file twice during the load, not once. -/
theorem C13_written_exactly_once_counterexample :
    (Sample.config "0.9.7" none).LastOpenedWithVersion ≠ Sample.env.VersionString
    ∧ (∃ r, (Sample.loader.load Sample.env "/t/cryfs.config" true false Access.ReadWrite
        (Sample.world [2])).1 = Except.ok (Sum.inr r))
    ∧ (Sample.loader.load Sample.env "/t/cryfs.config" true false Access.ReadWrite
        (Sample.world [2])).2.trace
      = [Event.configFileLoad "/t/cryfs.config", Event.configFileSave "/t/cryfs.config" [3],
          Event.configFileSave "/t/cryfs.config" [3],
          Event.localStateLoadOrGenerate [1, 2, 3, 4]]
    ∧ ((Sample.loader.load Sample.env "/t/cryfs.config" true false Access.ReadWrite
        (Sample.world [2])).2.trace).countP Event.isConfigFileSave ≠ 1 :=
  ⟨by decide, ⟨_, rfl⟩, rfl, by decide⟩

/-- C15, as the code has it: `_loadConfig` does not catch what a save throws.  For an existing
descriptor that decrypts and passes the version gates, opened read-write with a refresh due,
an I/O error of the save leaves `load` and `loadOrCreate` with that error: no `LoadResult`
is returned, nothing is written, and no later gate is run. -/
theorem C15_failing_refresh_save_fails_the_load (env : Env) (self : CryConfigLoader)
    (filename : String) (allowFilesystemUpgrade allowReplacedFilesystem : Bool)
    (w : World) (bytes : List Nat) (config : CryConfig) (encryptor : CryConfigEncryptor)
    (hfile : w.files filename = some (FileNode.regular bytes))
    (hdecrypt : env.decrypt bytes self._keyProvider = some (config, encryptor))
    (hversion : CryConfigLoader._checkVersion env
      (CryConfigLoader._loadConfig_compatibility env config) allowFilesystemUpgrade
        = Except.ok ())
    (hwrite : w.writeFails = true)
    (hdue : (CryConfigLoader._loadConfig_compatibility env config).Version
          ≠ env.FilesystemFormatVersion
        ∨ (CryConfigLoader._loadConfig_compatibility env config).LastOpenedWithVersion
          ≠ env.VersionString) :
    self.load env filename allowFilesystemUpgrade allowReplacedFilesystem Access.ReadWrite w
      = (Except.error (Thrown.other "IoError"), w.afterLoad filename)
    ∧ self.loadOrCreate env filename allowFilesystemUpgrade allowReplacedFilesystem w
      = (Except.error (Thrown.other "IoError"), w.afterLoad filename)
    ∧ ¬ ∃ r : ConfigLoadResult,
        (self.loadOrCreate env filename allowFilesystemUpgrade allowReplacedFilesystem w).1
          = Except.ok (Sum.inr r) := by
  have hload := CryConfigLoader._loadConfig_save_fails env self filename
    allowFilesystemUpgrade allowReplacedFilesystem w bytes config encryptor hfile hdecrypt
    hversion hwrite hdue
  have hloadOrCreate : self.loadOrCreate env filename allowFilesystemUpgrade
      allowReplacedFilesystem w
      = (Except.error (Thrown.other "IoError"), w.afterLoad filename) := by
    rw [CryConfigLoader.loadOrCreate_existing env self filename allowFilesystemUpgrade
      allowReplacedFilesystem w (by simp [hfile])]
    exact hload
  refine ⟨hload, hloadOrCreate, ?_⟩
  rintro ⟨r, hr⟩
  rw [hloadOrCreate] at hr
  cases hr

/-- C15, as the code has it, at a descriptor of format 0.9.6 whose file cannot be written. -/
theorem C15_failing_refresh_save_fails_the_load_witness :
    CryConfigLoader._checkVersion Sample.env
        (CryConfigLoader._loadConfig_compatibility Sample.env (Sample.config "0.9.6" none))
        true = Except.ok ()
    ∧ ({ Sample.world [1] with writeFails := true } : World).writeFails = true
    ∧ Sample.loader.loadOrCreate Sample.env "/t/cryfs.config" true false
        { Sample.world [1] with writeFails := true }
      = (Except.error (Thrown.other "IoError"),
          ({ Sample.world [1] with writeFails := true } : World).afterLoad
            "/t/cryfs.config") :=
  ⟨rfl, rfl,
    (C15_failing_refresh_save_fails_the_load Sample.env Sample.loader "/t/cryfs.config" true
      false { Sample.world [1] with writeFails := true } [1] (Sample.config "0.9.6" none)
      Sample.encryptor rfl rfl rfl rfl (Or.inl (by decide))).2.1⟩

/-- C15 as stated fails: a descriptor of format 0.9.6 decrypts and passes every gate (the
same load succeeds where the file can be written), yet where the refresh save fails with
an I/O error `loadOrCreate` ends with that error and returns no `LoadResult`. -/
theorem C15_best_effort_refresh_counterexample :
    (∃ r, (Sample.loader.loadOrCreate Sample.env "/t/cryfs.config" true false
        (Sample.world [1])).1 = Except.ok (Sum.inr r))
    ∧ (Sample.loader.loadOrCreate Sample.env "/t/cryfs.config" true false
        { Sample.world [1] with writeFails := true }).1
      = Except.error (Thrown.other "IoError")
    ∧ ¬ ∃ r, (Sample.loader.loadOrCreate Sample.env "/t/cryfs.config" true false
        { Sample.world [1] with writeFails := true }).1 = Except.ok (Sum.inr r) := by
  have heval : (Sample.loader.loadOrCreate Sample.env "/t/cryfs.config" true false
      { Sample.world [1] with writeFails := true }).1
      = Except.error (Thrown.other "IoError") := rfl
  refine ⟨⟨_, rfl⟩, heval, ?_⟩
  rintro ⟨r, hr⟩
  rw [heval] at hr
  cases hr

/-- C16: a successful load of an existing descriptor returns as `oldConfig` the descriptor
decrypted from the file, and the descriptor in the returned file differs from it in at most
the format version and the last-opened version: filesystem id, encryption key, cipher, block
size, root blob, created-with version and exclusive client id are those of `oldConfig`. -/
theorem C16_load_changes_only_version_fields (env : Env) (self : CryConfigLoader)
    (filename : String) (allowFilesystemUpgrade allowReplacedFilesystem : Bool)
    (access : Access) (w : World) (r : ConfigLoadResult)
    (hsuccess : (self.load env filename allowFilesystemUpgrade allowReplacedFilesystem access
      w).1 = Except.ok (Sum.inr r)) :
    (∃ bytes encryptor,
        w.files filename = some (FileNode.regular bytes)
        ∧ env.decrypt bytes self._keyProvider = some (r.oldConfig, encryptor))
    ∧ r.configFile.config
      = { r.oldConfig with
          Version := env.FilesystemFormatVersion
          LastOpenedWithVersion := env.VersionString }
    ∧ r.configFile.config.FilesystemId = r.oldConfig.FilesystemId
    ∧ r.configFile.config.EncryptionKey = r.oldConfig.EncryptionKey
    ∧ r.configFile.config.Cipher = r.oldConfig.Cipher
    ∧ r.configFile.config.BlocksizeBytes = r.oldConfig.BlocksizeBytes
    ∧ r.configFile.config.RootBlob = r.oldConfig.RootBlob
    ∧ r.configFile.config.CreatedWithVersion = r.oldConfig.CreatedWithVersion
    ∧ r.configFile.config.ExclusiveClientId = r.oldConfig.ExclusiveClientId := by
  have hpair : self._loadConfig env filename allowFilesystemUpgrade allowReplacedFilesystem
      access w = (Except.ok (Sum.inr r),
        (self._loadConfig env filename allowFilesystemUpgrade allowReplacedFilesystem
          access w).2) := Prod.ext hsuccess rfl
  obtain ⟨bytes, encryptor, hfile, hdecrypt, hfileEq, _, _, _, _⟩ :=
    CryConfigLoader._loadConfig_ok_inv env self filename allowFilesystemUpgrade
      allowReplacedFilesystem access w _ r hpair
  have hrefreshed : CryConfigLoader.refreshed env r.oldConfig
      = { r.oldConfig with
          Version := env.FilesystemFormatVersion
          LastOpenedWithVersion := env.VersionString } := by
    simp only [CryConfigLoader.refreshed, CryConfigLoader._loadConfig_compatibility,
      CryConfig.SetVersion, CryConfig.SetLastOpenedWithVersion]
    split <;> rfl
  have hconfig : r.configFile.config
      = { r.oldConfig with
          Version := env.FilesystemFormatVersion
          LastOpenedWithVersion := env.VersionString } := by
    rw [hfileEq, hrefreshed]
  refine ⟨⟨bytes, encryptor, hfile, hdecrypt⟩, hconfig, ?_, ?_, ?_, ?_, ?_, ?_, ?_⟩ <;>
    rw [hconfig]

/-- C16 at scenario 6: the legacy descriptor comes back with its identity. -/
theorem C16_load_changes_only_version_fields_witness :
    (Sample.loader.load Sample.env "/t/cryfs.config" true false Access.ReadWrite
        (Sample.world [2])).1
      = Except.ok (Sum.inr
          ⟨Sample.config "0.9.7" none,
            ⟨"/t/cryfs.config",
              CryConfigLoader.refreshed Sample.env (Sample.config "0.9.7" none),
              Sample.encryptor, Access.ReadWrite⟩, 7⟩)
    ∧ (CryConfigLoader.refreshed Sample.env (Sample.config "0.9.7" none)).FilesystemId
      = (Sample.config "0.9.7" none).FilesystemId
    ∧ (CryConfigLoader.refreshed Sample.env (Sample.config "0.9.7" none)).EncryptionKey
      = (Sample.config "0.9.7" none).EncryptionKey :=
  have h := C16_load_changes_only_version_fields Sample.env Sample.loader "/t/cryfs.config"
    true false Access.ReadWrite (Sample.world [2])
    ⟨Sample.config "0.9.7" none,
      ⟨"/t/cryfs.config", CryConfigLoader.refreshed Sample.env (Sample.config "0.9.7" none),
        Sample.encryptor, Access.ReadWrite⟩, 7⟩ rfl
  ⟨rfl, h.2.2.1, h.2.2.2.1⟩

/-- C18: the client id of a successful load of an existing descriptor is the one that
`LocalStateMetadata::loadOrGenerate` returns on the local state for the filesystem id and the
encryption key of the loaded descriptor and the `allowReplacedFilesystem` of the caller; and
when that call throws, for a load that came as far (file decrypted, version and cipher
gates passed, saves succeeded), the load throws the same exception. -/
theorem C18_client_id_is_that_of_local_state (env : Env) (self : CryConfigLoader)
    (filename : String) (allowFilesystemUpgrade allowReplacedFilesystem : Bool)
    (access : Access) (w : World) :
    (∀ r : ConfigLoadResult,
        (self.load env filename allowFilesystemUpgrade allowReplacedFilesystem access w).1
          = Except.ok (Sum.inr r) →
        (env.loadOrGenerate w.localState r.oldConfig.FilesystemId r.oldConfig.EncryptionKey
          allowReplacedFilesystem).1 = Except.ok r.myClientId
        ∧ (env.loadOrGenerate w.localState r.configFile.config.FilesystemId
          r.configFile.config.EncryptionKey allowReplacedFilesystem).1
            = Except.ok r.myClientId)
    ∧ (∀ (bytes : List Nat) (config : CryConfig) (encryptor : CryConfigEncryptor)
        (e : CryfsException),
        w.files filename = some (FileNode.regular bytes) →
        env.decrypt bytes self._keyProvider = some (config, encryptor) →
        CryConfigLoader._checkVersion env
          (CryConfigLoader._loadConfig_compatibility env config) allowFilesystemUpgrade
            = Except.ok () →
        w.writeFails = false →
        self._checkCipher (CryConfigLoader.refreshed env config) = Except.ok () →
        (env.loadOrGenerate w.localState config.FilesystemId config.EncryptionKey
          allowReplacedFilesystem).1 = Except.error e →
        (self.load env filename allowFilesystemUpgrade allowReplacedFilesystem access w).1
          = Except.error (Thrown.cryfs e)) := by
  constructor
  · intro r hr
    have hpair : self._loadConfig env filename allowFilesystemUpgrade allowReplacedFilesystem
        access w = (Except.ok (Sum.inr r),
          (self._loadConfig env filename allowFilesystemUpgrade allowReplacedFilesystem
            access w).2) := Prod.ext hr rfl
    obtain ⟨_, encryptor, _, _, hfileEq, _, _, hlocal, _⟩ :=
      CryConfigLoader._loadConfig_ok_inv env self filename allowFilesystemUpgrade
        allowReplacedFilesystem access w _ r hpair
    refine ⟨?_, hlocal⟩
    rw [hfileEq, CryConfigLoader.refreshed_eq] at hlocal
    exact hlocal
  · intro bytes config encryptor e hfile hdecrypt hversion hwrite hcipher hlocal
    rw [show self.load env filename allowFilesystemUpgrade allowReplacedFilesystem access w
        = self._loadConfig env filename allowFilesystemUpgrade allowReplacedFilesystem access w
        from rfl,
      CryConfigLoader._loadConfig_after_refresh env self filename allowFilesystemUpgrade
        allowReplacedFilesystem access w bytes config encryptor hfile hdecrypt hversion hwrite,
      hcipher]
    have hlocal2 : (env.loadOrGenerate w.localState
        (CryConfigLoader.refreshed env config).FilesystemId
        (CryConfigLoader.refreshed env config).EncryptionKey allowReplacedFilesystem).1
        = Except.error e := by
      rw [CryConfigLoader.refreshed_eq]
      exact hlocal
    simp only [hlocal2]

/-- C18 at the sample descriptor of the current format: the local state hands out 7. -/
theorem C18_client_id_is_that_of_local_state_witness :
    (Sample.loader.load Sample.env "/t/cryfs.config" false false Access.ReadOnly
        (Sample.world [3])).1
      = Except.ok (Sum.inr
          ⟨Sample.config "0.10" none,
            ⟨"/t/cryfs.config",
              CryConfigLoader.refreshed Sample.env (Sample.config "0.10" none),
              Sample.encryptor, Access.ReadOnly⟩, 7⟩)
    ∧ (Sample.env.loadOrGenerate (Sample.world [3]).localState
        (Sample.config "0.10" none).FilesystemId (Sample.config "0.10" none).EncryptionKey
        false).1 = Except.ok 7 :=
  ⟨rfl,
    ((C18_client_id_is_that_of_local_state Sample.env Sample.loader "/t/cryfs.config" false
      false Access.ReadOnly (Sample.world [3])).1
      ⟨Sample.config "0.10" none,
        ⟨"/t/cryfs.config", CryConfigLoader.refreshed Sample.env (Sample.config "0.10" none),
          Sample.encryptor, Access.ReadOnly⟩, 7⟩ rfl).1⟩

/-- C17, as the code has it: after a successful load the format version in memory is the
current format version, hence not newer than it, and it is not older than the stored version
as the gates read it, that is after the fix-up that reads a stored "0.9.7" or "0.9.8" as
"0.9.6"; it is not older than the stored version itself whenever the fix-up left that
alone.  Every save of the load (the saves succeeding) stores a descriptor with the current
format version.  The comparison is any strict order. -/
theorem C17_format_version_after_load (env : Env) (self : CryConfigLoader)
    (filename : String) (allowFilesystemUpgrade allowReplacedFilesystem : Bool)
    (access : Access) (w : World) (r : ConfigLoadResult)
    (horder : env.versionOrder)
    (hsuccess : (self.load env filename allowFilesystemUpgrade allowReplacedFilesystem access
      w).1 = Except.ok (Sum.inr r)) :
    r.configFile.config.Version = env.FilesystemFormatVersion
    ∧ env.isOlderThan env.FilesystemFormatVersion r.configFile.config.Version = false
    ∧ env.isOlderThan r.configFile.config.Version
        (CryConfigLoader._loadConfig_compatibility env r.oldConfig).Version = false
    ∧ (CryConfigLoader._loadConfig_compatibility env r.oldConfig = r.oldConfig →
        env.isOlderThan r.configFile.config.Version r.oldConfig.Version = false)
    ∧ (r.oldConfig.Version ≠ "0.9.7" → r.oldConfig.Version ≠ "0.9.8" →
        env.isOlderThan r.configFile.config.Version r.oldConfig.Version = false)
    ∧ (w.writeFails = false →
        ∃ added : List Event,
          (self.load env filename allowFilesystemUpgrade allowReplacedFilesystem access
            w).2.trace = w.trace ++ added
          ∧ ∀ (path : String) (stored : List Nat),
              Event.configFileSave path stored ∈ added →
              ∃ saved : CryConfig,
                stored = env.encrypt r.configFile.encryptor saved
                ∧ saved.Version = env.FilesystemFormatVersion) := by
  have hpair : self._loadConfig env filename allowFilesystemUpgrade allowReplacedFilesystem
      access w = (Except.ok (Sum.inr r),
        (self._loadConfig env filename allowFilesystemUpgrade allowReplacedFilesystem
          access w).2) := Prod.ext hsuccess rfl
  obtain ⟨bytes, encryptor, hfile, hdecrypt, hfileEq, hcheck, _, _, _⟩ :=
    CryConfigLoader._loadConfig_ok_inv env self filename allowFilesystemUpgrade
      allowReplacedFilesystem access w _ r hpair
  have hversion : r.configFile.config.Version = env.FilesystemFormatVersion := by
    rw [hfileEq, CryConfigLoader.refreshed_eq]
  have hirrefl : env.isOlderThan env.FilesystemFormatVersion env.FilesystemFormatVersion
      = false := by
    cases h : env.isOlderThan env.FilesystemFormatVersion env.FilesystemFormatVersion with
    | false => rfl
    | true =>
      have hasymm := horder.1 _ _ h
      rw [h] at hasymm
      exact hasymm
  have hgate : env.isOlderThan env.FilesystemFormatVersion
      (CryConfigLoader._loadConfig_compatibility env r.oldConfig).Version = false := by
    cases h2 : env.isOlderThan env.FilesystemFormatVersion
        (CryConfigLoader._loadConfig_compatibility env r.oldConfig).Version with
    | false => rfl
    | true =>
      unfold CryConfigLoader._checkVersion at hcheck
      by_cases h1 : env.isOlderThan
          (CryConfigLoader._loadConfig_compatibility env r.oldConfig).Version "0.9.4" = true <;>
        simp [h1, h2] at hcheck
  have hsame : CryConfigLoader._loadConfig_compatibility env r.oldConfig = r.oldConfig →
      env.isOlderThan r.configFile.config.Version r.oldConfig.Version = false := by
    intro hfix
    rw [hversion]
    rw [hfix] at hgate
    exact hgate
  refine ⟨hversion, by rw [hversion]; exact hirrefl, by rw [hversion]; exact hgate, hsame,
    ?_, ?_⟩
  · intro h7 h8
    apply hsame
    simp [CryConfigLoader._loadConfig_compatibility, h7, h8]
  · intro hwrite
    have hworld := (CryConfigLoader._loadConfig_world_after env self filename
      allowFilesystemUpgrade allowReplacedFilesystem access w bytes r.oldConfig encryptor hfile
      hdecrypt hcheck hwrite).2.2
    obtain ⟨saves, htrace, hsaves⟩ := World.afterRefresh_trace env w filename
      (CryConfigLoader._loadConfig_compatibility env r.oldConfig) encryptor access
    have henc : r.configFile.encryptor = encryptor := by rw [hfileEq]
    rw [htrace] at hworld
    rcases hworld with h | h
    · refine ⟨Event.configFileLoad filename :: saves, h, ?_⟩
      intro path stored hmem
      simp only [List.mem_cons, reduceCtorEq, false_or] at hmem
      obtain ⟨saved, hev, hv⟩ := hsaves _ hmem
      injection hev with _ hbytes
      exact ⟨saved, by rw [henc]; exact hbytes, hv⟩
    · refine ⟨(Event.configFileLoad filename :: saves)
        ++ [Event.localStateLoadOrGenerate
            (CryConfigLoader.refreshed env r.oldConfig).FilesystemId], ?_, ?_⟩
      · rw [← List.append_assoc]
        exact h
      · intro path stored hmem
        simp only [List.cons_append, List.mem_cons, reduceCtorEq, false_or, List.mem_append,
          List.mem_singleton, or_false, List.not_mem_nil] at hmem
        obtain ⟨saved, hev, hv⟩ := hsaves _ hmem
        injection hev with _ hbytes
        exact ⟨saved, by rw [henc]; exact hbytes, hv⟩

/-- C17, as the code has it, at scenario 6 under the current format 0.10. -/
theorem C17_format_version_after_load_witness :
    Sample.env.versionOrder
    ∧ (Sample.loader.load Sample.env "/t/cryfs.config" true false Access.ReadWrite
        (Sample.world [2])).1
      = Except.ok (Sum.inr
          ⟨Sample.config "0.9.7" none,
            ⟨"/t/cryfs.config",
              CryConfigLoader.refreshed Sample.env (Sample.config "0.9.7" none),
              Sample.encryptor, Access.ReadWrite⟩, 7⟩)
    ∧ (CryConfigLoader.refreshed Sample.env (Sample.config "0.9.7" none)).Version
      = Sample.env.FilesystemFormatVersion
    ∧ Sample.env.isOlderThan
        (CryConfigLoader.refreshed Sample.env (Sample.config "0.9.7" none)).Version
        (CryConfigLoader._loadConfig_compatibility Sample.env
          (Sample.config "0.9.7" none)).Version = false :=
  have h := C17_format_version_after_load Sample.env Sample.loader "/t/cryfs.config" true
    false Access.ReadWrite (Sample.world [2])
    ⟨Sample.config "0.9.7" none,
      ⟨"/t/cryfs.config", CryConfigLoader.refreshed Sample.env (Sample.config "0.9.7" none),
        Sample.encryptor, Access.ReadWrite⟩, 7⟩ Sample.env_versionOrder rfl
  ⟨Sample.env_versionOrder, rfl, h.1, h.2.2.1⟩

/-- C17 as stated fails for the current format version 0.9.6: a descriptor stored with
format version 0.9.7 loads successfully and comes out with format version 0.9.6, which is
older than the stored 0.9.7. -/
theorem C17_version_not_monotone_counterexample :
    Sample.env096.FilesystemFormatVersion = "0.9.6"
    ∧ (Sample.loader.load Sample.env096 "/t/cryfs.config" true false Access.ReadWrite
        (Sample.world [2])).1
      = Except.ok (Sum.inr
          ⟨Sample.config "0.9.7" none,
            ⟨"/t/cryfs.config",
              { Sample.config "0.9.7" none with
                Version := "0.9.6", LastOpenedWithVersion := "0.11.4" },
              Sample.encryptor, Access.ReadWrite⟩, 7⟩)
    ∧ Sample.env096.isOlderThan "0.9.6" (Sample.config "0.9.7" none).Version = true :=
  ⟨rfl, rfl, by decide⟩

/-- C12: for an existing descriptor, when `loadOrCreate` succeeds with its saves succeeding,
the file afterwards decrypts under the same credential to the refreshed descriptor, whose
last-opened version is the running version and whose format version is the current one; so
a second successful `loadOrCreate` on the world the first one left returns that descriptor
as `oldConfig`, with last-opened version equal to the running version.  What a save wrote is
read back by the decryption, and the current format version is not "0.9.6", the string the
fix-up gives the legacy releases. -/
theorem C12_second_load_sees_running_version (env : Env) (self : CryConfigLoader)
    (filename : String) (allowFilesystemUpgrade allowReplacedFilesystem : Bool) (w : World)
    (bytes : List Nat) (config : CryConfig) (encryptor : CryConfigEncryptor)
    (r : ConfigLoadResult)
    (hfile : w.files filename = some (FileNode.regular bytes))
    (hdecrypt : env.decrypt bytes self._keyProvider = some (config, encryptor))
    (hwrite : w.writeFails = false)
    (hround : env.decrypt (env.encrypt encryptor (CryConfigLoader.refreshed env config))
      self._keyProvider = some (CryConfigLoader.refreshed env config, encryptor))
    (hcurrent : env.FilesystemFormatVersion ≠ "0.9.6")
    (hsuccess : (self.loadOrCreate env filename allowFilesystemUpgrade
      allowReplacedFilesystem w).1 = Except.ok (Sum.inr r)) :
    ∃ stored : List Nat,
      (self.loadOrCreate env filename allowFilesystemUpgrade allowReplacedFilesystem
        w).2.files filename = some (FileNode.regular stored)
      ∧ env.decrypt stored self._keyProvider
        = some (CryConfigLoader.refreshed env config, encryptor)
      ∧ (CryConfigLoader.refreshed env config).LastOpenedWithVersion = env.VersionString
      ∧ (CryConfigLoader.refreshed env config).Version = env.FilesystemFormatVersion
      ∧ ∀ (allowFilesystemUpgrade2 allowReplacedFilesystem2 : Bool) (r2 : ConfigLoadResult),
          (self.loadOrCreate env filename allowFilesystemUpgrade2 allowReplacedFilesystem2
            (self.loadOrCreate env filename allowFilesystemUpgrade allowReplacedFilesystem
              w).2).1 = Except.ok (Sum.inr r2) →
          r2.oldConfig = CryConfigLoader.refreshed env config
          ∧ r2.oldConfig.LastOpenedWithVersion = env.VersionString := by
  have hexists : (w.files filename).isSome = true := by simp [hfile]
  rw [CryConfigLoader.loadOrCreate_existing env self filename allowFilesystemUpgrade
    allowReplacedFilesystem w hexists] at hsuccess ⊢
  have hpair : self._loadConfig env filename allowFilesystemUpgrade allowReplacedFilesystem
      Access.ReadWrite w = (Except.ok (Sum.inr r),
        (self._loadConfig env filename allowFilesystemUpgrade allowReplacedFilesystem
          Access.ReadWrite w).2) := Prod.ext hsuccess rfl
  obtain ⟨bytes1, encryptor1, hfile1, hdecrypt1, _, hcheck, _, _, _⟩ :=
    CryConfigLoader._loadConfig_ok_inv env self filename allowFilesystemUpgrade
      allowReplacedFilesystem Access.ReadWrite w _ r hpair
  have hbytes : bytes1 = bytes := by
    rw [hfile] at hfile1
    injection hfile1 with h
    injection h with h
    exact h.symm
  have hold : r.oldConfig = config := by
    rw [hbytes, hdecrypt] at hdecrypt1
    injection hdecrypt1 with h
    injection h with h
    exact h.symm
  rw [hold] at hcheck
  obtain ⟨stored, hstored, hread⟩ := CryConfigLoader._loadConfig_stored_after env self
    filename allowFilesystemUpgrade allowReplacedFilesystem w bytes config encryptor hfile
    hdecrypt hcheck hwrite hround hcurrent
  have hlast : (CryConfigLoader.refreshed env config).LastOpenedWithVersion
      = env.VersionString := by rw [CryConfigLoader.refreshed_eq]
  refine ⟨stored, hstored, hread, hlast, by rw [CryConfigLoader.refreshed_eq], ?_⟩
  intro allow2 replaced2 r2 hr2
  rw [CryConfigLoader.loadOrCreate_existing env self filename allow2 replaced2 _
    (by simp [hstored])] at hr2
  obtain ⟨bytes2, encryptor2, hfile2, hdecrypt2, _, _, _, _, _⟩ :=
    CryConfigLoader._loadConfig_ok_inv env self filename allow2 replaced2 Access.ReadWrite _ _
      r2 (Prod.ext hr2 rfl)
  have hold2 : r2.oldConfig = CryConfigLoader.refreshed env config := by
    rw [hstored] at hfile2
    injection hfile2 with h
    injection h with h
    rw [← h, hread] at hdecrypt2
    injection hdecrypt2 with h2
    injection h2 with h2
    exact h2.symm
  exact ⟨hold2, by rw [hold2]; exact hlast⟩

/-- C12 at a descriptor of format 0.9.6 under a codec that reads back what it stored: the
file afterwards holds the refreshed descriptor. -/
theorem C12_second_load_sees_running_version_witness :
    (Sample.storingEnv.decrypt
        (Sample.storingEnv.encrypt Sample.encryptor
          (CryConfigLoader.refreshed Sample.storingEnv (Sample.config "0.9.6" none)))
        Sample.loader._keyProvider
      = some (CryConfigLoader.refreshed Sample.storingEnv (Sample.config "0.9.6" none),
          Sample.encryptor)
      ∧ Sample.storingEnv.FilesystemFormatVersion ≠ "0.9.6"
      ∧ (Sample.loader.loadOrCreate Sample.storingEnv "/t/cryfs.config" true false
          (Sample.world [1])).1
        = Except.ok (Sum.inr
            ⟨Sample.config "0.9.6" none,
              ⟨"/t/cryfs.config", Sample.refreshedConfig, Sample.encryptor,
                Access.ReadWrite⟩, 7⟩))
    ∧ ∃ stored : List Nat,
      (Sample.loader.loadOrCreate Sample.storingEnv "/t/cryfs.config" true false
        (Sample.world [1])).2.files "/t/cryfs.config" = some (FileNode.regular stored)
      ∧ Sample.storingEnv.decrypt stored Sample.loader._keyProvider
        = some (CryConfigLoader.refreshed Sample.storingEnv (Sample.config "0.9.6" none),
            Sample.encryptor) :=
  have h := C12_second_load_sees_running_version Sample.storingEnv Sample.loader
    "/t/cryfs.config" true false (Sample.world [1]) [1] (Sample.config "0.9.6" none)
    Sample.encryptor
    ⟨Sample.config "0.9.6" none,
      ⟨"/t/cryfs.config", Sample.refreshedConfig, Sample.encryptor, Access.ReadWrite⟩, 7⟩
    rfl rfl rfl rfl (by decide) rfl
  ⟨⟨rfl, by decide, rfl⟩,
    h.elim fun stored hs => ⟨stored, hs.1, hs.2.1⟩⟩

/-- C14: a descriptor stored with the current format version and with the running version
as last-opened version (the current format version being none of the legacy release strings
"0.9.7" and "0.9.8" that the fix-up rewrites): the load saves nothing, and when it succeeds
the descriptor it returns in the file equals `oldConfig`.  In particular the second of two
consecutive successful read-write loads, on the world the first one left, saves
nothing. -/
theorem C14_refresh_is_idempotent (env : Env) (self : CryConfigLoader)
    (filename : String) (allowFilesystemUpgrade allowReplacedFilesystem : Bool)
    (access : Access) (w : World) (bytes : List Nat) (config : CryConfig)
    (encryptor : CryConfigEncryptor)
    (hformat : env.CRYFS_NO_COMPATIBILITY = true
      ∨ (env.FilesystemFormatVersion ≠ "0.9.7" ∧ env.FilesystemFormatVersion ≠ "0.9.8"))
    (hfile : w.files filename = some (FileNode.regular bytes))
    (hdecrypt : env.decrypt bytes self._keyProvider = some (config, encryptor))
    (hv : config.Version = env.FilesystemFormatVersion)
    (hl : config.LastOpenedWithVersion = env.VersionString) :
    (self.load env filename allowFilesystemUpgrade allowReplacedFilesystem access w).2.files
      = w.files
    ∧ (∃ added : List Event,
        (self.load env filename allowFilesystemUpgrade allowReplacedFilesystem access
          w).2.trace = w.trace ++ added
        ∧ added.countP Event.isConfigFileSave = 0)
    ∧ (∀ r : ConfigLoadResult,
        (self.load env filename allowFilesystemUpgrade allowReplacedFilesystem access w).1
          = Except.ok (Sum.inr r) →
        r.oldConfig = config ∧ r.configFile.config = r.oldConfig)
    ∧ (∀ (w0 : World) (bytes0 : List Nat) (config0 : CryConfig) (r1 r2 : ConfigLoadResult)
        (allowFilesystemUpgrade0 allowReplacedFilesystem0 : Bool),
        w0.files filename = some (FileNode.regular bytes0) →
        env.decrypt bytes0 self._keyProvider = some (config0, encryptor) →
        w0.writeFails = false →
        env.decrypt (env.encrypt encryptor (CryConfigLoader.refreshed env config0))
          self._keyProvider = some (CryConfigLoader.refreshed env config0, encryptor) →
        env.FilesystemFormatVersion ≠ "0.9.6" →
        (self.load env filename allowFilesystemUpgrade0 allowReplacedFilesystem0
          Access.ReadWrite w0).1 = Except.ok (Sum.inr r1) →
        (self.load env filename allowFilesystemUpgrade allowReplacedFilesystem
          Access.ReadWrite
          (self.load env filename allowFilesystemUpgrade0 allowReplacedFilesystem0
            Access.ReadWrite w0).2).1 = Except.ok (Sum.inr r2) →
        (self.load env filename allowFilesystemUpgrade allowReplacedFilesystem
          Access.ReadWrite
          (self.load env filename allowFilesystemUpgrade0 allowReplacedFilesystem0
            Access.ReadWrite w0).2).2.files
          = (self.load env filename allowFilesystemUpgrade0 allowReplacedFilesystem0
              Access.ReadWrite w0).2.files
        ∧ (∃ added : List Event,
            (self.load env filename allowFilesystemUpgrade allowReplacedFilesystem
              Access.ReadWrite
              (self.load env filename allowFilesystemUpgrade0 allowReplacedFilesystem0
                Access.ReadWrite w0).2).2.trace
              = (self.load env filename allowFilesystemUpgrade0 allowReplacedFilesystem0
                  Access.ReadWrite w0).2.trace ++ added
            ∧ added.countP Event.isConfigFileSave = 0)
        ∧ r2.configFile.config = r2.oldConfig) := by
  have hone := CryConfigLoader._loadConfig_current_writes_nothing env self filename
    allowFilesystemUpgrade allowReplacedFilesystem access w bytes config encryptor hfile
    hdecrypt hv hl hformat
  refine ⟨hone.1, hone.2.1, hone.2.2, ?_⟩
  intro w0 bytes0 config0 r1 r2 allow0 replaced0 hfile0 hdecrypt0 hwrite0 hround0 hcurrent0
    hr1 hr2
  obtain ⟨bytes1, encryptor1, hfile1, hdecrypt1, _, hcheck, _, _, _⟩ :=
    CryConfigLoader._loadConfig_ok_inv env self filename allow0 replaced0 Access.ReadWrite w0
      _ r1 (Prod.ext hr1 rfl)
  have hold : r1.oldConfig = config0 := by
    rw [hfile0] at hfile1
    injection hfile1 with h
    injection h with h
    rw [← h, hdecrypt0] at hdecrypt1
    injection hdecrypt1 with h2
    injection h2 with h2
    exact h2.symm
  rw [hold] at hcheck
  obtain ⟨stored, hstored, hread⟩ := CryConfigLoader._loadConfig_stored_after env self
    filename allow0 replaced0 w0 bytes0 config0 encryptor hfile0 hdecrypt0 hcheck hwrite0
    hround0 hcurrent0
  have htwo := CryConfigLoader._loadConfig_current_writes_nothing env self filename
    allowFilesystemUpgrade allowReplacedFilesystem Access.ReadWrite _ stored
    (CryConfigLoader.refreshed env config0) encryptor hstored hread
    (by rw [CryConfigLoader.refreshed_eq]) (by rw [CryConfigLoader.refreshed_eq]) hformat
  exact ⟨htwo.1, htwo.2.1, (htwo.2.2 r2 hr2).2⟩

/-- C14 at the refreshed sample descriptor, stored as the byte 6: a read-write load leaves the
files as they are and returns the stored descriptor unchanged. -/
theorem C14_refresh_is_idempotent_witness :
    ((Sample.storingEnv.FilesystemFormatVersion ≠ "0.9.7"
        ∧ Sample.storingEnv.FilesystemFormatVersion ≠ "0.9.8")
      ∧ Sample.storingEnv.decrypt [6] Sample.loader._keyProvider
        = some (Sample.refreshedConfig, Sample.encryptor)
      ∧ Sample.refreshedConfig.Version = Sample.storingEnv.FilesystemFormatVersion
      ∧ Sample.refreshedConfig.LastOpenedWithVersion = Sample.storingEnv.VersionString
      ∧ (Sample.loader.load Sample.storingEnv "/t/cryfs.config" false false Access.ReadWrite
          (Sample.world [6])).1
        = Except.ok (Sum.inr
            ⟨Sample.refreshedConfig,
              ⟨"/t/cryfs.config", Sample.refreshedConfig, Sample.encryptor,
                Access.ReadWrite⟩, 7⟩))
    ∧ (Sample.loader.load Sample.storingEnv "/t/cryfs.config" false false Access.ReadWrite
        (Sample.world [6])).2.files = (Sample.world [6]).files :=
  ⟨⟨⟨by decide, by decide⟩, rfl, rfl, rfl, rfl⟩,
    (C14_refresh_is_idempotent Sample.storingEnv Sample.loader "/t/cryfs.config" false false
      Access.ReadWrite (Sample.world [6]) [6] Sample.refreshedConfig Sample.encryptor
      (Or.inr ⟨by decide, by decide⟩) rfl rfl rfl rfl).1⟩

/-! ## What a load returns -/

/-- C27: the `oldConfig` of a successful load is the descriptor exactly as decrypted from
the file, taken before the legacy fix-up and the refresh: for a file storing format version
"0.9.7" its format version is "0.9.7", not "0.9.6", while the descriptor in the returned
file has the current format version. -/
theorem C27_oldConfig_is_the_decrypted_descriptor (env : Env) (self : CryConfigLoader)
    (filename : String) (allowFilesystemUpgrade allowReplacedFilesystem : Bool)
    (access : Access) (w : World) (bytes : List Nat) (config : CryConfig)
    (encryptor : CryConfigEncryptor) (r : ConfigLoadResult)
    (hfile : w.files filename = some (FileNode.regular bytes))
    (hdecrypt : env.decrypt bytes self._keyProvider = some (config, encryptor))
    (hsuccess : (self.load env filename allowFilesystemUpgrade allowReplacedFilesystem access
      w).1 = Except.ok (Sum.inr r)) :
    r.oldConfig = config
    ∧ r.configFile.config.Version = env.FilesystemFormatVersion
    ∧ (config.Version = "0.9.7" →
        r.oldConfig.Version = "0.9.7" ∧ r.oldConfig.Version ≠ "0.9.6"
        ∧ r.configFile.config.Version = env.FilesystemFormatVersion) := by
  obtain ⟨bytes1, encryptor1, hfile1, hdecrypt1, hfileEq, _, _, _, _⟩ :=
    CryConfigLoader._loadConfig_ok_inv env self filename allowFilesystemUpgrade
      allowReplacedFilesystem access w _ r (Prod.ext hsuccess rfl)
  have hold : r.oldConfig = config := by
    rw [hfile] at hfile1
    injection hfile1 with h
    injection h with h
    rw [← h, hdecrypt] at hdecrypt1
    injection hdecrypt1 with h2
    injection h2 with h2
    exact h2.symm
  have hnew : r.configFile.config.Version = env.FilesystemFormatVersion := by
    rw [hfileEq, CryConfigLoader.refreshed_eq]
  refine ⟨hold, hnew, ?_⟩
  intro h7
  rw [hold, h7]
  exact ⟨rfl, by decide, hnew⟩

/-- C27 at scenario 6: `oldConfig` keeps the stored 0.9.7, the returned file has 0.10. -/
theorem C27_oldConfig_is_the_decrypted_descriptor_witness :
    (Sample.loader.load Sample.env "/t/cryfs.config" true false Access.ReadWrite
        (Sample.world [2])).1
      = Except.ok (Sum.inr
          ⟨Sample.config "0.9.7" none,
            ⟨"/t/cryfs.config",
              CryConfigLoader.refreshed Sample.env (Sample.config "0.9.7" none),
              Sample.encryptor, Access.ReadWrite⟩, 7⟩)
    ∧ (Sample.config "0.9.7" none).Version = "0.9.7"
    ∧ (CryConfigLoader.refreshed Sample.env (Sample.config "0.9.7" none)).Version = "0.10" :=
  have h := C27_oldConfig_is_the_decrypted_descriptor Sample.env Sample.loader
    "/t/cryfs.config" true false Access.ReadWrite (Sample.world [2]) [2]
    (Sample.config "0.9.7" none) Sample.encryptor
    ⟨Sample.config "0.9.7" none,
      ⟨"/t/cryfs.config", CryConfigLoader.refreshed Sample.env (Sample.config "0.9.7" none),
        Sample.encryptor, Access.ReadWrite⟩, 7⟩ rfl rfl rfl
  ⟨rfl, (h.2.2 rfl).1, h.2.1⟩

/-! ## Gate precedence and read-only access -/

/-- C25: the gates of a load run in a fixed order, and the first that fails decides the
reported error.  A format version below the minimum 0.9.4 gives `TooOldFilesystemFormat`
whatever the later gates would say (in particular with a mismatching cipher override); else a
version newer than the current format gives `TooNewFilesystemFormat`; else a refused upgrade
gives `TooOldFilesystemFormat`.  Once the version gates passed, no save failing, a mismatching
cipher override gives `WrongCipher` whatever the local state and the integrity setup are; else
an error of the local state is reported as it is; else a mismatching integrity setup gives
`FilesystemHasDifferentIntegritySetup`, also when the exclusive client id differs from the own
client id; only then a differing exclusive client id gives `SingleClientFileSystem`. -/
theorem C25_gate_precedence (env : Env) (self : CryConfigLoader) (filename : String)
    (allowFilesystemUpgrade allowReplacedFilesystem : Bool) (access : Access) (w : World)
    (bytes : List Nat) (config : CryConfig) (encryptor : CryConfigEncryptor)
    (hfile : w.files filename = some (FileNode.regular bytes))
    (hdecrypt : env.decrypt bytes self._keyProvider = some (config, encryptor)) :
    (env.isOlderThan (CryConfigLoader._loadConfig_compatibility env config).Version "0.9.4"
        = true →
      ∃ what, (self.load env filename allowFilesystemUpgrade allowReplacedFilesystem access
        w).1 = Except.error (Thrown.cryfs ⟨what, ErrorCode.TooOldFilesystemFormat⟩))
    ∧ (env.isOlderThan (CryConfigLoader._loadConfig_compatibility env config).Version "0.9.4"
        = false →
      env.isOlderThan env.FilesystemFormatVersion
        (CryConfigLoader._loadConfig_compatibility env config).Version = true →
      ∃ what, (self.load env filename allowFilesystemUpgrade allowReplacedFilesystem access
        w).1 = Except.error (Thrown.cryfs ⟨what, ErrorCode.TooNewFilesystemFormat⟩))
    ∧ (env.isOlderThan (CryConfigLoader._loadConfig_compatibility env config).Version "0.9.4"
        = false →
      env.isOlderThan env.FilesystemFormatVersion
        (CryConfigLoader._loadConfig_compatibility env config).Version = false →
      allowFilesystemUpgrade = false →
      env.isOlderThan (CryConfigLoader._loadConfig_compatibility env config).Version
        env.FilesystemFormatVersion = true →
      ∃ what, (self.load env filename allowFilesystemUpgrade allowReplacedFilesystem access
        w).1 = Except.error (Thrown.cryfs ⟨what, ErrorCode.TooOldFilesystemFormat⟩))
    ∧ (CryConfigLoader._checkVersion env
          (CryConfigLoader._loadConfig_compatibility env config) allowFilesystemUpgrade
          = Except.ok () →
      (access = Access.ReadOnly ∨ w.writeFails = false) →
      (∀ cipher, self._cipherFromCommandLine = some cipher → config.Cipher ≠ cipher →
        ∃ what, (self.load env filename allowFilesystemUpgrade allowReplacedFilesystem access
          w).1 = Except.error (Thrown.cryfs ⟨what, ErrorCode.WrongCipher⟩))
      ∧ ((self._cipherFromCommandLine = none
            ∨ self._cipherFromCommandLine = some config.Cipher) →
        (∀ e, (env.loadOrGenerate w.localState config.FilesystemId config.EncryptionKey
            allowReplacedFilesystem).1 = Except.error e →
          (self.load env filename allowFilesystemUpgrade allowReplacedFilesystem access w).1
            = Except.error (Thrown.cryfs e))
        ∧ (∀ myClientId, (env.loadOrGenerate w.localState config.FilesystemId
            config.EncryptionKey allowReplacedFilesystem).1 = Except.ok myClientId →
          ((self._missingBlockIsIntegrityViolationFromCommandLine = some true
                ∧ config.ExclusiveClientId = none
              ∨ self._missingBlockIsIntegrityViolationFromCommandLine = some false
                ∧ config.ExclusiveClientId ≠ none) →
            ∃ what, (self.load env filename allowFilesystemUpgrade allowReplacedFilesystem
              access w).1 = Except.error
                (Thrown.cryfs ⟨what, ErrorCode.FilesystemHasDifferentIntegritySetup⟩))
          ∧ (¬ (self._missingBlockIsIntegrityViolationFromCommandLine = some true
                ∧ config.ExclusiveClientId = none
              ∨ self._missingBlockIsIntegrityViolationFromCommandLine = some false
                ∧ config.ExclusiveClientId ≠ none) →
            ∀ exclusiveClientId, config.ExclusiveClientId = some exclusiveClientId →
              exclusiveClientId ≠ myClientId →
              ∃ what, (self.load env filename allowFilesystemUpgrade allowReplacedFilesystem
                access w).1 = Except.error
                  (Thrown.cryfs ⟨what, ErrorCode.SingleClientFileSystem⟩))))) := by
  obtain ⟨_, hkey, hcipherEq, _, _, hfs, hexcl⟩ := CryConfigLoader.refreshed_frame env config
  obtain ⟨hv1, hv2, hv3⟩ := CryConfigLoader._checkVersion_order env
    (CryConfigLoader._loadConfig_compatibility env config) allowFilesystemUpgrade
  refine ⟨?_, ?_, ?_, ?_⟩
  · intro h1
    obtain ⟨what, hcheck⟩ := hv1 h1
    exact ⟨what, congrArg Prod.fst (CryConfigLoader._loadConfig_checkVersion_error env self
      filename allowFilesystemUpgrade allowReplacedFilesystem access w bytes config encryptor _
      hfile hdecrypt hcheck)⟩
  · intro h1 h2
    obtain ⟨what, hcheck⟩ := hv2 h1 h2
    exact ⟨what, congrArg Prod.fst (CryConfigLoader._loadConfig_checkVersion_error env self
      filename allowFilesystemUpgrade allowReplacedFilesystem access w bytes config encryptor _
      hfile hdecrypt hcheck)⟩
  · intro h1 h2 h3 h4
    obtain ⟨what, hcheck⟩ := hv3 h1 h2 h3 h4
    exact ⟨what, congrArg Prod.fst (CryConfigLoader._loadConfig_checkVersion_error env self
      filename allowFilesystemUpgrade allowReplacedFilesystem access w bytes config encryptor _
      hfile hdecrypt hcheck)⟩
  · intro hcheck hsaves
    have hgates := CryConfigLoader._loadConfig_gates env self filename allowFilesystemUpgrade
      allowReplacedFilesystem access w bytes config encryptor hfile hdecrypt hcheck hsaves
    rw [hfs, hkey] at hgates
    refine ⟨?_, ?_⟩
    · intro cipher hc hne
      have hcipher : self._checkCipher (CryConfigLoader.refreshed env config)
          = Except.error ⟨"Filesystem uses " ++ config.Cipher ++ " cipher and not " ++ cipher ++ " as specified.", ErrorCode.WrongCipher⟩ := by
        simp [CryConfigLoader._checkCipher, hc, hcipherEq, hne]
      exact ⟨_, hgates.trans (by rw [hcipher])⟩
    · intro hc
      have hcipher : self._checkCipher (CryConfigLoader.refreshed env config)
          = Except.ok () := by
        rcases hc with hc | hc
        · simp [CryConfigLoader._checkCipher, hc]
        · simp [CryConfigLoader._checkCipher, hc, hcipherEq]
      rw [hcipher] at hgates
      simp only at hgates
      refine ⟨?_, ?_⟩
      · intro e he
        unfold CryConfigLoader.load
        rw [hgates, he]
      · intro myClientId hmy
        rw [hmy] at hgates
        simp only at hgates
        refine ⟨?_, ?_⟩
        · intro hsetup
          rcases hsetup with ⟨hreq, hex⟩ | ⟨hreq, hex⟩
          · have hgate : self._checkMissingBlocksAreIntegrityViolations
                ⟨filename, CryConfigLoader.refreshed env config, encryptor, access⟩ myClientId
                = Except.error ⟨"You specified on the command line to treat missing blocks as integrity violations, but the file system is not setup to do that.", ErrorCode.FilesystemHasDifferentIntegritySetup⟩ := by
              simp [CryConfigLoader._checkMissingBlocksAreIntegrityViolations, hreq, hexcl, hex]
            exact ⟨_, hgates.trans (by rw [hgate])⟩
          · have hgate : self._checkMissingBlocksAreIntegrityViolations
                ⟨filename, CryConfigLoader.refreshed env config, encryptor, access⟩ myClientId
                = Except.error ⟨"You specified on the command line to not treat missing blocks as integrity violations, but the file system is setup to do that.", ErrorCode.FilesystemHasDifferentIntegritySetup⟩ := by
              simp [CryConfigLoader._checkMissingBlocksAreIntegrityViolations, hreq, hexcl, hex]
            exact ⟨_, hgates.trans (by rw [hgate])⟩
        · intro hsetup x hx hne
          have hreq : self._missingBlockIsIntegrityViolationFromCommandLine ≠ some false :=
            fun h => hsetup (Or.inr ⟨h, by rw [hx]; simp⟩)
          have hgate : self._checkMissingBlocksAreIntegrityViolations
              ⟨filename, CryConfigLoader.refreshed env config, encryptor, access⟩ myClientId
              = Except.error ⟨"File system is in single-client mode and can only be used from the client that created it.", ErrorCode.SingleClientFileSystem⟩ := by
            simp [CryConfigLoader._checkMissingBlocksAreIntegrityViolations, hexcl, hx, hne,
              hreq]
          exact ⟨_, hgates.trans (by rw [hgate])⟩

/-- C25 at two sample loads: a descriptor of format 0.9.3 opened with a mismatching cipher
override is reported as too old, and a descriptor bound to client 7, opened from client 8
with missing blocks declared to be no integrity violation, is reported as a different
integrity setup. -/
theorem C25_gate_precedence_witness :
    (∃ what, (Sample.cipherLoader.load Sample.env "/t/cryfs.config" true false Access.ReadWrite
        (Sample.world [0])).1
      = Except.error (Thrown.cryfs ⟨what, ErrorCode.TooOldFilesystemFormat⟩))
    ∧ (∃ what, (Sample.noIntegrityLoader.load Sample.otherClientEnv "/t/cryfs.config" true false
        Access.ReadWrite (Sample.world [5])).1
      = Except.error (Thrown.cryfs ⟨what, ErrorCode.FilesystemHasDifferentIntegritySetup⟩)) :=
  ⟨(C25_gate_precedence Sample.env Sample.cipherLoader "/t/cryfs.config" true false
      Access.ReadWrite (Sample.world [0]) [0] (Sample.config "0.9.3" none) Sample.encryptor
      rfl rfl).1 (by decide),
    ((((C25_gate_precedence Sample.otherClientEnv Sample.noIntegrityLoader "/t/cryfs.config"
      true false Access.ReadWrite (Sample.world [5]) [5] (Sample.config "0.10" (some 7))
      Sample.encryptor rfl rfl).2.2.2 rfl (Or.inr rfl)).2 (Or.inl rfl)).2 8 rfl).1
        (Or.inr ⟨rfl, by decide⟩)⟩

/-- C26: `CryConfigLoader::load` with `Access::ReadOnly` saves nothing: the files are as
before and the trace gained no save.  When writing succeeds, the read-write load of the same
file returns the same result: the same exception, the same `LoadError`, or the same
`oldConfig`, descriptor and client id, the returned file handle differing in its access mode
only.  The descriptor a read-only load returns carries the current format version and the
running version as last-opened version. -/
theorem C26_read_only_load_never_writes (env : Env) (self : CryConfigLoader)
    (filename : String) (allowFilesystemUpgrade allowReplacedFilesystem : Bool) (w : World) :
    (self.load env filename allowFilesystemUpgrade allowReplacedFilesystem Access.ReadOnly
        w).2.files = w.files
    ∧ (∃ added : List Event,
        (self.load env filename allowFilesystemUpgrade allowReplacedFilesystem Access.ReadOnly
          w).2.trace = w.trace ++ added
        ∧ added.countP Event.isConfigFileSave = 0)
    ∧ (w.writeFails = false →
        (self.load env filename allowFilesystemUpgrade allowReplacedFilesystem
          Access.ReadWrite w).1
        = match (self.load env filename allowFilesystemUpgrade allowReplacedFilesystem
            Access.ReadOnly w).1 with
          | Except.error e => Except.error e
          | Except.ok (Sum.inl err) => Except.ok (Sum.inl err)
          | Except.ok (Sum.inr r) =>
            Except.ok (Sum.inr
              ⟨r.oldConfig, { r.configFile with access := Access.ReadWrite }, r.myClientId⟩))
    ∧ (∀ r : ConfigLoadResult,
        (self.load env filename allowFilesystemUpgrade allowReplacedFilesystem
          Access.ReadOnly w).1 = Except.ok (Sum.inr r) →
        r.configFile.config.Version = env.FilesystemFormatVersion
        ∧ r.configFile.config.LastOpenedWithVersion = env.VersionString
        ∧ r.configFile.access = Access.ReadOnly) := by
  obtain ⟨hfiles, _, htrace⟩ := CryConfigLoader._loadConfig_readOnly_world env self filename
    allowFilesystemUpgrade allowReplacedFilesystem w
  refine ⟨hfiles, htrace, ?_, ?_⟩
  · intro hwrite
    unfold CryConfigLoader.load
    cases hf : w.files filename with
    | none => simp [CryConfigLoader._loadConfig, CryConfigFile.load, hf]
    | some node =>
      cases node with
      | unreadable => simp [CryConfigLoader._loadConfig, CryConfigFile.load, hf]
      | regular bytes =>
        cases hd : env.decrypt bytes self._keyProvider with
        | none => simp [CryConfigLoader._loadConfig, CryConfigFile.load, hf, hd]
        | some p =>
          obtain ⟨config, encryptor⟩ := p
          cases hc : CryConfigLoader._checkVersion env
              (CryConfigLoader._loadConfig_compatibility env config) allowFilesystemUpgrade with
          | error e =>
            rw [CryConfigLoader._loadConfig_checkVersion_error env self filename
                allowFilesystemUpgrade allowReplacedFilesystem Access.ReadOnly w bytes config
                encryptor e hf hd hc,
              CryConfigLoader._loadConfig_checkVersion_error env self filename
                allowFilesystemUpgrade allowReplacedFilesystem Access.ReadWrite w bytes config
                encryptor e hf hd hc]
          | ok u =>
            rw [CryConfigLoader._loadConfig_gates env self filename allowFilesystemUpgrade
                allowReplacedFilesystem Access.ReadOnly w bytes config encryptor hf hd hc
                (Or.inl rfl),
              CryConfigLoader._loadConfig_gates env self filename allowFilesystemUpgrade
                allowReplacedFilesystem Access.ReadWrite w bytes config encryptor hf hd hc
                (Or.inr hwrite)]
            have hgate : ∀ myClientId,
                self._checkMissingBlocksAreIntegrityViolations
                  ⟨filename, CryConfigLoader.refreshed env config, encryptor, Access.ReadWrite⟩
                  myClientId
                = self._checkMissingBlocksAreIntegrityViolations
                  ⟨filename, CryConfigLoader.refreshed env config, encryptor, Access.ReadOnly⟩
                  myClientId := fun _ => rfl
            simp only [hgate]
            cases self._checkCipher (CryConfigLoader.refreshed env config) with
            | error e => rfl
            | ok u1 =>
              dsimp only
              cases (env.loadOrGenerate w.localState
                (CryConfigLoader.refreshed env config).FilesystemId
                (CryConfigLoader.refreshed env config).EncryptionKey
                allowReplacedFilesystem).1 with
              | error e => rfl
              | ok myClientId =>
                dsimp only
                cases self._checkMissingBlocksAreIntegrityViolations
                  ⟨filename, CryConfigLoader.refreshed env config, encryptor, Access.ReadOnly⟩
                  myClientId with
                | error e => rfl
                | ok u2 => rfl
  · intro r hr
    obtain ⟨_, _, _, _, hfileEq, _⟩ := CryConfigLoader._loadConfig_ok_inv env self filename
      allowFilesystemUpgrade allowReplacedFilesystem Access.ReadOnly w _ r (Prod.ext hr rfl)
    rw [hfileEq, CryConfigLoader.refreshed_eq]
    exact ⟨rfl, rfl, rfl⟩

/-- C26 at a sample descriptor of format 0.9.6, opened with upgrades allowed: the read-only
load leaves the stored bytes, and the read-write load returns the same descriptors and client
id. -/
theorem C26_read_only_load_never_writes_witness :
    (Sample.loader.load Sample.env "/t/cryfs.config" true false Access.ReadOnly
        (Sample.world [1])).2.files "/t/cryfs.config" = some (FileNode.regular [1])
    ∧ (Sample.loader.load Sample.env "/t/cryfs.config" true false Access.ReadWrite
        (Sample.world [1])).1
      = Except.ok (Sum.inr
          ⟨Sample.config "0.9.6" none,
            ⟨"/t/cryfs.config", Sample.refreshedConfig, Sample.encryptor, Access.ReadWrite⟩,
            7⟩) :=
  have h := C26_read_only_load_never_writes Sample.env Sample.loader "/t/cryfs.config" true
    false (Sample.world [1])
  ⟨(congrFun h.1 "/t/cryfs.config").trans rfl, (h.2.2.1 rfl).trans rfl⟩

/-! ## Key change -/

/-- C22: when `changeEncryptionKey` returns `none`, the file at the descriptor path holds,
as the last thing written, the loaded descriptor with its version fields refreshed, encoded
under the key and the KDF parameters that `requestKeyForNewFilesystem` of the new key provider
returned; its inner encryption key and its filesystem id are those of the descriptor that was
decrypted from the file.  When the envelope load fails with a `LoadError`, that error is
returned and the world is the one the envelope load left: no file has changed. -/
theorem C22_key_change_keeps_inner_key (env : Env) (self : CryConfigLoader)
    (filename : String) (allowFilesystemUpgrade allowReplacedFilesystem : Bool)
    (newKeyProvider : CryKeyProvider) (MaxTotalKeySize : Nat) (w : World)
    (hfactory : env.deriveNewKey newKeyProvider
      = CryConfigEncryptorFactory.deriveNewKey MaxTotalKeySize newKeyProvider) :
    ((self.changeEncryptionKey env filename allowFilesystemUpgrade allowReplacedFilesystem
        newKeyProvider w).1 = Except.ok none →
      ∃ bytes config encryptor keyResult,
        w.files filename = some (FileNode.regular bytes)
        ∧ env.decrypt bytes self._keyProvider = some (config, encryptor)
        ∧ (newKeyProvider.requestKeyForNewFilesystem MaxTotalKeySize).1 = Except.ok keyResult
        ∧ (self.changeEncryptionKey env filename allowFilesystemUpgrade
            allowReplacedFilesystem newKeyProvider w).2.files filename
          = some (FileNode.regular
              (env.encrypt ⟨keyResult.key, keyResult.kdfParameters⟩
                (CryConfigLoader.refreshed env config)))
        ∧ (self.changeEncryptionKey env filename allowFilesystemUpgrade
            allowReplacedFilesystem newKeyProvider w).2.trace.getLast?
          = some (Event.configFileSave filename
              (env.encrypt ⟨keyResult.key, keyResult.kdfParameters⟩
                (CryConfigLoader.refreshed env config)))
        ∧ (CryConfigLoader.refreshed env config).EncryptionKey = config.EncryptionKey
        ∧ (CryConfigLoader.refreshed env config).FilesystemId = config.FilesystemId)
    ∧ (∀ err, (CryConfigFile.load env filename self._keyProvider Access.ReadWrite w).1
          = Sum.inl err →
        self.changeEncryptionKey env filename allowFilesystemUpgrade allowReplacedFilesystem
            newKeyProvider w = (Except.ok (some err), w.afterLoad filename)
        ∧ (w.afterLoad filename).files = w.files) := by
  refine ⟨?_, ?_⟩
  · intro hs
    obtain ⟨bytes, config, encryptor, newEncryptor, hfile, hdecrypt, hnew, hworld⟩ :=
      CryConfigLoader.changeEncryptionKey_ok_inv env self filename allowFilesystemUpgrade
        allowReplacedFilesystem newKeyProvider w hs
    obtain ⟨_, hkey, _, _, _, hfs, _⟩ := CryConfigLoader.refreshed_frame env config
    rw [hfactory] at hnew
    unfold CryConfigEncryptorFactory.deriveNewKey at hnew
    cases hk : (newKeyProvider.requestKeyForNewFilesystem MaxTotalKeySize).1 with
    | error e => simp [hk] at hnew
    | ok keyResult =>
      simp only [hk] at hnew
      injection hnew with hnew
      subst hnew
      refine ⟨bytes, config, encryptor, keyResult, hfile, hdecrypt, rfl, ?_, ?_, hkey, hfs⟩
      · rw [hworld]
        simp [World.afterSave]
      · rw [hworld]
        simp [World.afterSave]
  · intro err herr
    have hload : CryConfigFile.load env filename self._keyProvider Access.ReadWrite w
        = (Sum.inl err, w.afterLoad filename) :=
      Prod.ext herr (CryConfigFile.load_snd env filename self._keyProvider Access.ReadWrite w)
    refine ⟨?_, rfl⟩
    simp [CryConfigLoader.changeEncryptionKey, CryConfigLoader._loadConfig, hload]

/-- C22 at the sample descriptor of format 0.9.6, re-keyed to the password `hunter2`: the
key change succeeds and the file holds the refreshed descriptor, byte 6, written under the
key derived from the new password. -/
theorem C22_key_change_keeps_inner_key_witness :
    (Sample.loader.changeEncryptionKey Sample.keyChangeEnv "/t/cryfs.config" true false
        Sample.newKeyProvider (Sample.world [1])).1 = Except.ok none
    ∧ (Sample.newKeyProvider.requestKeyForNewFilesystem 32).1
        = Except.ok ⟨[104, 117, 110, 116, 101, 114, 50], [9]⟩
    ∧ (Sample.loader.changeEncryptionKey Sample.keyChangeEnv "/t/cryfs.config" true false
        Sample.newKeyProvider (Sample.world [1])).2.files "/t/cryfs.config"
      = some (FileNode.regular [6])
    ∧ ∃ bytes config encryptor keyResult,
        (Sample.world [1]).files "/t/cryfs.config" = some (FileNode.regular bytes)
        ∧ Sample.keyChangeEnv.decrypt bytes Sample.loader._keyProvider
          = some (config, encryptor)
        ∧ (Sample.newKeyProvider.requestKeyForNewFilesystem 32).1 = Except.ok keyResult
        ∧ (Sample.loader.changeEncryptionKey Sample.keyChangeEnv "/t/cryfs.config" true false
            Sample.newKeyProvider (Sample.world [1])).2.files "/t/cryfs.config"
          = some (FileNode.regular
              (Sample.keyChangeEnv.encrypt ⟨keyResult.key, keyResult.kdfParameters⟩
                (CryConfigLoader.refreshed Sample.keyChangeEnv config)))
        ∧ (Sample.loader.changeEncryptionKey Sample.keyChangeEnv "/t/cryfs.config" true false
            Sample.newKeyProvider (Sample.world [1])).2.trace.getLast?
          = some (Event.configFileSave "/t/cryfs.config"
              (Sample.keyChangeEnv.encrypt ⟨keyResult.key, keyResult.kdfParameters⟩
                (CryConfigLoader.refreshed Sample.keyChangeEnv config)))
        ∧ (CryConfigLoader.refreshed Sample.keyChangeEnv config).EncryptionKey
          = config.EncryptionKey
        ∧ (CryConfigLoader.refreshed Sample.keyChangeEnv config).FilesystemId
          = config.FilesystemId :=
  ⟨rfl, rfl, rfl,
    (C22_key_change_keeps_inner_key Sample.keyChangeEnv Sample.loader "/t/cryfs.config" true
      false Sample.newKeyProvider 32 (Sample.world [1]) rfl).1 rfl⟩

/-- C23, as the code has it: `changeEncryptionKey` loads through `_loadConfig` with read-write
access, so the descriptor it writes under the new key is the refreshed one, whose format
version is the current format version; this is the format version stored in the file before
the call exactly when the stored one is the current format version. -/
theorem C23_key_change_writes_current_format_version (env : Env) (self : CryConfigLoader)
    (filename : String) (allowFilesystemUpgrade allowReplacedFilesystem : Bool)
    (newKeyProvider : CryKeyProvider) (w : World)
    (hsuccess : (self.changeEncryptionKey env filename allowFilesystemUpgrade
      allowReplacedFilesystem newKeyProvider w).1 = Except.ok none) :
    ∃ bytes config encryptor newEncryptor,
      w.files filename = some (FileNode.regular bytes)
      ∧ env.decrypt bytes self._keyProvider = some (config, encryptor)
      ∧ env.deriveNewKey newKeyProvider = Except.ok newEncryptor
      ∧ (self.changeEncryptionKey env filename allowFilesystemUpgrade allowReplacedFilesystem
          newKeyProvider w).2.files filename
        = some (FileNode.regular
            (env.encrypt newEncryptor (CryConfigLoader.refreshed env config)))
      ∧ (CryConfigLoader.refreshed env config).Version = env.FilesystemFormatVersion
      ∧ ((CryConfigLoader.refreshed env config).Version = config.Version
          ↔ config.Version = env.FilesystemFormatVersion) := by
  obtain ⟨bytes, config, encryptor, newEncryptor, hfile, hdecrypt, hnew, hworld⟩ :=
    CryConfigLoader.changeEncryptionKey_ok_inv env self filename allowFilesystemUpgrade
      allowReplacedFilesystem newKeyProvider w hsuccess
  have hv : (CryConfigLoader.refreshed env config).Version = env.FilesystemFormatVersion := by
    rw [CryConfigLoader.refreshed_eq]
  refine ⟨bytes, config, encryptor, newEncryptor, hfile, hdecrypt, hnew, ?_, hv, ?_⟩
  · rw [hworld]
    simp [World.afterSave]
  · rw [hv]
    exact ⟨fun h => h.symm, fun h => h.symm⟩

/-- C23 at the sample descriptor of format 0.9.6 under the current format 0.10: the key change
succeeds and writes a descriptor of format 0.10. -/
theorem C23_key_change_writes_current_format_version_witness :
    (Sample.loader.changeEncryptionKey Sample.keyChangeEnv "/t/cryfs.config" true false
        Sample.newKeyProvider (Sample.world [1])).1 = Except.ok none
    ∧ ∃ bytes config encryptor newEncryptor,
      (Sample.world [1]).files "/t/cryfs.config" = some (FileNode.regular bytes)
      ∧ Sample.keyChangeEnv.decrypt bytes Sample.loader._keyProvider = some (config, encryptor)
      ∧ Sample.keyChangeEnv.deriveNewKey Sample.newKeyProvider = Except.ok newEncryptor
      ∧ (Sample.loader.changeEncryptionKey Sample.keyChangeEnv "/t/cryfs.config" true false
          Sample.newKeyProvider (Sample.world [1])).2.files "/t/cryfs.config"
        = some (FileNode.regular
            (Sample.keyChangeEnv.encrypt newEncryptor
              (CryConfigLoader.refreshed Sample.keyChangeEnv config)))
      ∧ (CryConfigLoader.refreshed Sample.keyChangeEnv config).Version
        = Sample.keyChangeEnv.FilesystemFormatVersion
      ∧ ((CryConfigLoader.refreshed Sample.keyChangeEnv config).Version = config.Version
          ↔ config.Version = Sample.keyChangeEnv.FilesystemFormatVersion) :=
  ⟨rfl, C23_key_change_writes_current_format_version Sample.keyChangeEnv Sample.loader
    "/t/cryfs.config" true false Sample.newKeyProvider (Sample.world [1]) rfl⟩

/-- C23 as stated fails: the sample file stores a descriptor of format version 0.9.6; the
key change with upgrades allowed succeeds, and the file then holds byte 6, which decrypts
under the new password to a descriptor of format version 0.10. -/
theorem C23_no_version_advance_counterexample :
    Sample.keyChangeEnv.decrypt [1] Sample.loader._keyProvider
      = some (Sample.config "0.9.6" none, Sample.encryptor)
    ∧ (Sample.loader.changeEncryptionKey Sample.keyChangeEnv "/t/cryfs.config" true false
        Sample.newKeyProvider (Sample.world [1])).1 = Except.ok none
    ∧ (Sample.loader.changeEncryptionKey Sample.keyChangeEnv "/t/cryfs.config" true false
        Sample.newKeyProvider (Sample.world [1])).2.files "/t/cryfs.config"
      = some (FileNode.regular [6])
    ∧ Sample.keyChangeEnv.decrypt [6] Sample.newKeyProvider
      = some (Sample.refreshedConfig, Sample.encryptor)
    ∧ Sample.refreshedConfig.Version = "0.10"
    ∧ Sample.refreshedConfig.Version ≠ (Sample.config "0.9.6" none).Version :=
  ⟨rfl, rfl, rfl, rfl, rfl, by decide⟩

/-! ## The sink of a key provider -/

/-- C21, as the code has it: only the password-based key provider has a sink.  For the
provider `Cli::_createKeyProvider` builds from credentials with a password, a supplied sink
holds, after `requestKeyForExistingFilesystem`, exactly the bytes of the returned key with the
size equal to the length of the key, and without a sink nothing is stored.  The provider
built from credentials without a password is the direct one, which takes no sink: it stores
nothing, whether or not the credentials carry a sink. -/
theorem C21_only_password_provider_fills_the_sink (env : Env) (cli : Cli)
    (credentials : Credentials) (keySize : Nat) (kdfParameters : List Nat) :
    (∀ password address, credentials.password = some password →
      credentials.returnedHash = some address →
      ∃ key, (cli._createKeyProvider env credentials).requestKeyForExistingFilesystem keySize
          kdfParameters = (Except.ok key, some (address, ⟨key, key.length⟩)))
    ∧ (∀ password, credentials.password = some password → credentials.returnedHash = none →
      ((cli._createKeyProvider env credentials).requestKeyForExistingFilesystem keySize
        kdfParameters).2 = none)
    ∧ (credentials.password = none →
      ((cli._createKeyProvider env credentials).requestKeyForExistingFilesystem keySize
        kdfParameters).2 = none) := by
  refine ⟨?_, ?_, ?_⟩
  · intro password address hp hr
    exact ⟨(env.SCrypt cli._scryptSettings).deriveExistingKey keySize password kdfParameters,
      by simp [Cli._createKeyProvider, hp, hr, CryKeyProvider.requestKeyForExistingFilesystem,
        CryPresetPasswordBasedKeyProvider.requestKeyForExistingFilesystem]⟩
  · intro password hp hr
    simp [Cli._createKeyProvider, hp, hr, CryKeyProvider.requestKeyForExistingFilesystem,
      CryPresetPasswordBasedKeyProvider.requestKeyForExistingFilesystem]
  · intro hp
    simp [Cli._createKeyProvider, hp, CryKeyProvider.requestKeyForExistingFilesystem]

/-- C21 at the password `pw` with a sink at address 1: the sink holds the two key bytes. -/
theorem C21_only_password_provider_fills_the_sink_witness :
    ∃ key, (Cli._createKeyProvider Sample.env ⟨⟨[]⟩⟩
        ⟨some "pw", ⟨[], 0⟩, some 1⟩).requestKeyForExistingFilesystem 32 [9]
      = (Except.ok key, some (1, ⟨key, key.length⟩)) :=
  (C21_only_password_provider_fills_the_sink Sample.env ⟨⟨[]⟩⟩ ⟨some "pw", ⟨[], 0⟩, some 1⟩
    32 [9]).1 "pw" 1 rfl rfl

/-- C21 as stated fails for the direct variant: credentials without a password that carry a
sink at address 1 give a provider whose `requestKeyForExistingFilesystem` succeeds with the
raw key and stores nothing in the sink. -/
theorem C21_direct_provider_sink_counterexample :
    (⟨none, ⟨[1, 2, 3], 3⟩, some 1⟩ : Credentials).returnedHash = some 1
    ∧ Cli._createKeyProvider Sample.env ⟨⟨[]⟩⟩ ⟨none, ⟨[1, 2, 3], 3⟩, some 1⟩
      = CryKeyProvider.CryDirectKeyProvider ⟨[1, 2, 3], 3⟩
    ∧ (Cli._createKeyProvider Sample.env ⟨⟨[]⟩⟩
        ⟨none, ⟨[1, 2, 3], 3⟩, some 1⟩).requestKeyForExistingFilesystem 3 [9]
      = (Except.ok [1, 2, 3], none) :=
  ⟨rfl, rfl, rfl⟩

/-! ## Basedir binding on failure -/

/-- C28: when `Cli::_checkConfigIntegrity` throws `FilesystemIdChanged`, it has only read the
basedir record: the record is not updated and not saved, so it still maps the basedir to the
filesystem id stored before, which differs from the one of the descriptor; and a repeated
check with `allowReplacedFilesystem = false`, for a descriptor with the same filesystem id on
any world that holds this record, throws `FilesystemIdChanged` again and leaves the record. -/
theorem C28_basedir_binding_atomic_on_failure (basedir : String) (config : CryConfigFile)
    (allowReplacedFilesystem : Bool) (w : World) (what : String)
    (hfail : (Cli._checkConfigIntegrity basedir config allowReplacedFilesystem w).1
      = Except.error (Thrown.cryfs ⟨what, ErrorCode.FilesystemIdChanged⟩)) :
    (Cli._checkConfigIntegrity basedir config allowReplacedFilesystem w).2.basedirs
        = w.basedirs
    ∧ (Cli._checkConfigIntegrity basedir config allowReplacedFilesystem w).2.trace
        = w.trace ++ [Event.basedirMetadataLoad]
    ∧ (Cli._checkConfigIntegrity basedir config allowReplacedFilesystem w).2.files = w.files
    ∧ (∃ recorded,
        (BasedirMetadata.load w).1.basedir_fs_id basedir = some recorded
        ∧ recorded ≠ config.config.FilesystemId
        ∧ (BasedirMetadata.load
            (Cli._checkConfigIntegrity basedir config allowReplacedFilesystem w).2
          ).1.basedir_fs_id basedir = some recorded)
    ∧ (∀ (config2 : CryConfigFile) (w2 : World),
        config2.config.FilesystemId = config.config.FilesystemId →
        w2.basedirs
          = (Cli._checkConfigIntegrity basedir config allowReplacedFilesystem w).2.basedirs →
        (Cli._checkConfigIntegrity basedir config2 false w2).1
          = Except.error (Thrown.cryfs ⟨what, ErrorCode.FilesystemIdChanged⟩)
        ∧ (Cli._checkConfigIntegrity basedir config2 false w2).2.basedirs = w2.basedirs) := by
  by_cases hcond : (!allowReplacedFilesystem
      && !(BasedirMetadata.mk w.basedirs).filesystemIdForBasedirIsCorrect basedir
        config.config.FilesystemId) = true
  · have hres : Cli._checkConfigIntegrity basedir config allowReplacedFilesystem w
        = (Except.error (Thrown.cryfs ⟨"The filesystem id in the config file is different to the last time we loaded a filesystem from this basedir.", ErrorCode.FilesystemIdChanged⟩),
            { w with trace := w.trace ++ [Event.basedirMetadataLoad] }) := by
      simp only [Cli._checkConfigIntegrity, BasedirMetadata.load, hcond, if_true]
    rw [hres] at hfail ⊢
    injection hfail with hfail
    injection hfail with hfail
    injection hfail with hwhat
    simp only [Bool.and_eq_true, Bool.not_eq_true', BasedirMetadata.filesystemIdForBasedirIsCorrect]
      at hcond
    obtain ⟨_, hwrong⟩ := hcond
    cases hrec : (BasedirMetadata.mk w.basedirs).basedir_fs_id basedir with
    | none => simp [hrec] at hwrong
    | some recorded =>
      simp only [hrec, decide_eq_false_iff_not] at hwrong
      refine ⟨rfl, rfl, rfl, ⟨recorded, hrec, hwrong, hrec⟩, ?_⟩
      intro config2 w2 hid hdirs
      have hrec2 : (BasedirMetadata.mk w2.basedirs).basedir_fs_id basedir = some recorded := by
        rw [hdirs]
        exact hrec
      have hcond2 : (!false
          && !(BasedirMetadata.mk w2.basedirs).filesystemIdForBasedirIsCorrect basedir
            config2.config.FilesystemId) = true := by
        simp [BasedirMetadata.filesystemIdForBasedirIsCorrect, hrec2, hid, hwrong]
      have hres2 : Cli._checkConfigIntegrity basedir config2 false w2
          = (Except.error (Thrown.cryfs ⟨"The filesystem id in the config file is different to the last time we loaded a filesystem from this basedir.", ErrorCode.FilesystemIdChanged⟩),
              { w2 with trace := w2.trace ++ [Event.basedirMetadataLoad] }) := by
        simp only [Cli._checkConfigIntegrity, BasedirMetadata.load, hcond2, if_true]
      rw [hres2, ← hwhat]
      exact ⟨rfl, rfl⟩
  · exfalso
    have hres : (Cli._checkConfigIntegrity basedir config allowReplacedFilesystem w).1
        = Except.ok () := by
      simp only [Cli._checkConfigIntegrity, BasedirMetadata.load, hcond]
      rfl
    rw [hres] at hfail
    cases hfail

/-- C28 at a basedir `/t` recorded with filesystem id `[9, 9]` and a descriptor with
filesystem id `[1, 2, 3, 4]`: the check fails and the record is as before. -/
theorem C28_basedir_binding_atomic_on_failure_witness :
    (Cli._checkConfigIntegrity "/t"
        ⟨"/t/cryfs.config", Sample.config "0.10" none, Sample.encryptor, Access.ReadWrite⟩
        false { Sample.world [3] with basedirs := [("/t", [9, 9])] }).1
      = Except.error (Thrown.cryfs ⟨"The filesystem id in the config file is different to the last time we loaded a filesystem from this basedir.", ErrorCode.FilesystemIdChanged⟩)
    ∧ (Cli._checkConfigIntegrity "/t"
        ⟨"/t/cryfs.config", Sample.config "0.10" none, Sample.encryptor, Access.ReadWrite⟩
        false { Sample.world [3] with basedirs := [("/t", [9, 9])] }).2.basedirs
      = [("/t", [9, 9])] :=
  ⟨rfl,
    (C28_basedir_binding_atomic_on_failure "/t"
      ⟨"/t/cryfs.config", Sample.config "0.10" none, Sample.encryptor, Access.ReadWrite⟩
      false { Sample.world [3] with basedirs := [("/t", [9, 9])] } _ rfl).1⟩

/-! ## Error codes at the process boundary -/

/-- C24 at a wrong password: for the sample descriptor opened with the password `wrong`,
`Cli::_loadOrCreateConfig` throws a `CryfsException` with `ErrorCode::WrongPassword`, and
`cryfs_init` returns 0 without storing an error code.  `Cli::initFilesystem` catches every
exception itself and returns `nullptr`, so for no input does the handler of `cryfs_init`
store a code. -/
theorem C24_cryfs_init_reports_no_error_code :
    (Cli._loadOrCreateConfig Sample.env ⟨Sample.mountEnv.DefaultSettings⟩
        ⟨"/t", none, "/state", false, false, false, none, none, false, none⟩
        ⟨some "wrong", ⟨[], 0⟩, none⟩ (Sample.world [3])).1
      = Except.error (Thrown.cryfs ⟨"Failed to decrypt the config file. Did you enter the correct password?", ErrorCode.WrongPassword⟩)
    ∧ (cryfs_init Sample.env Sample.mountEnv "/t" "/state" (some "wrong") [] none false none
        (Sample.world [3])).1 = Except.ok (0, none)
    ∧ (cryfs_init Sample.env Sample.mountEnv "/t" "/state" (some "hunter2") [] none false none
        (Sample.world [3])).1 = Except.ok (4096, none)
    ∧ (∀ (env : Env) (menv : MountEnv) (jbaseDir jlocalStateDir : String)
        (jpassword : Option String) (jgivenHash : List Nat) (jreturnedHash : Option Nat)
        (createBaseDir : Bool) (jcipher : Option String) (w : World),
        ∃ fusePtr, (cryfs_init env menv jbaseDir jlocalStateDir jpassword jgivenHash
          jreturnedHash createBaseDir jcipher w).1 = Except.ok (fusePtr, none)) := by
  refine ⟨rfl, rfl, rfl, ?_⟩
  intro env menv jbaseDir jlocalStateDir jpassword jgivenHash jreturnedHash createBaseDir
    jcipher w
  obtain ⟨fuse, hfuse⟩ := Cli.initFilesystem_returns env menv ⟨menv.DefaultSettings⟩
    ⟨jbaseDir, none, jlocalStateDir, false, false, createBaseDir, jcipher, none, false, none⟩
    (match jpassword with
      | none => ⟨none, ⟨jgivenHash, jgivenHash.length⟩, none⟩
      | some password =>
        ⟨some password, ⟨[], 0⟩, match jreturnedHash with | none => none | some _ => some 0⟩)
    w
  refine ⟨fuse, ?_⟩
  unfold cryfs_init
  simp only
  split
  · rename_i fuse1 w1 heq
    rw [heq] at hfuse
    injection hfuse with hfuse
    rw [hfuse]
  · rename_i e w1 heq
    rw [heq] at hfuse
    cases hfuse
  · rename_i what w1 heq
    rw [heq] at hfuse
    cases hfuse

/-! ## FUSE adapter -/

/-- C29: each of the operations `getattr`, `readlink`, `unlink`, `rmdir`, `chmod`, `chown`,
`truncate`, `utimens`, `open`, `statfs`, `access` and `create` of `Fuse` maps its outcome the
same way.  For a path that is not a valid fspp path the result is `-EIO` and the state is
untouched: the file system is not invoked.  For a valid path the operation makes exactly one
call into the file system, the one that belongs to it, and the result is 0 when the call
returns, `-e` when it throws `FuseErrnoException` with errno `e`, and `-EIO` when it throws
anything else.  In every case the operation returns a result: no exception leaves it. -/
theorem C29_uniform_result_mapping {σ : Type} (fenv : FuseEnv) (self : Fuse σ)
    (request : FuseRequest) (s : FuseState σ) :
    (is_valid_fspp_path fenv request.path = false →
      self.handle fenv request s = (Except.ok (- fenv.EIO), s))
    ∧ (is_valid_fspp_path fenv request.path = true →
      (self.handle fenv request s).2.invoked = s.invoked ++ [self.callOf request]
      ∧ (self.handle fenv request s).2.fs = (self._fs (self.callOf request) s.fs).2
      ∧ (∀ value, (self._fs (self.callOf request) s.fs).1 = Except.ok value →
          (self.handle fenv request s).1 = Except.ok 0)
      ∧ (∀ errno, (self._fs (self.callOf request) s.fs).1
            = Except.error (FuseThrown.FuseErrnoException errno) →
          (self.handle fenv request s).1 = Except.ok (-errno))
      ∧ (∀ e, (self._fs (self.callOf request) s.fs).1 = Except.error e →
          (∀ errno, e ≠ FuseThrown.FuseErrnoException errno) →
          (self.handle fenv request s).1 = Except.ok (- fenv.EIO)))
    ∧ ∃ result, (self.handle fenv request s).1 = Except.ok result := by
  cases request with
  | getattr path => exact Fuse.catchClauses_tryCall fenv self path _ s
  | readlink path size => exact Fuse.catchClauses_tryCall fenv self path _ s
  | unlink path => exact Fuse.catchClauses_tryCall fenv self path _ s
  | rmdir path => exact Fuse.catchClauses_tryCall fenv self path _ s
  | chmod path mode => exact Fuse.catchClauses_tryCall fenv self path _ s
  | chown path uid gid => exact Fuse.catchClauses_tryCall fenv self path _ s
  | truncate path size => exact Fuse.catchClauses_tryCall fenv self path _ s
  | utimens path lastAccessTime lastModificationTime =>
    exact Fuse.catchClauses_tryCall fenv self path _ s
  | «open» path flags => exact Fuse.catchClauses_tryOpen fenv self path _ s
  | statfs path => exact Fuse.catchClauses_tryCall fenv self path _ s
  | access path mask => exact Fuse.catchClauses_tryCall fenv self path _ s
  | create path mode => exact Fuse.catchClauses_tryOpen fenv self path _ s

/-- C29 on the sample file system: `getattr` of the relative path `a` gives `-EIO` without a
call, `getattr` of `/a` gives 0, and `getattr` of the unknown `/b` gives `-ENOENT`. -/
theorem C29_uniform_result_mapping_witness :
    Sample.fuse.handle Sample.fuseEnv (FuseRequest.getattr "a") ⟨0, [], 0⟩
      = (Except.ok (-5), ⟨0, [], 0⟩)
    ∧ (Sample.fuse.handle Sample.fuseEnv (FuseRequest.getattr "/a") ⟨0, [], 0⟩).1
      = Except.ok 0
    ∧ (Sample.fuse.handle Sample.fuseEnv (FuseRequest.getattr "/b") ⟨0, [], 0⟩).1
      = Except.ok (-2) :=
  ⟨(C29_uniform_result_mapping Sample.fuseEnv Sample.fuse (FuseRequest.getattr "a")
      ⟨0, [], 0⟩).1 (by decide),
    ((C29_uniform_result_mapping Sample.fuseEnv Sample.fuse (FuseRequest.getattr "/a")
      ⟨0, [], 0⟩).2.1 (by decide)).2.2.1 0 rfl,
    ((C29_uniform_result_mapping Sample.fuseEnv Sample.fuse (FuseRequest.getattr "/b")
      ⟨0, [], 0⟩).2.1 (by decide)).2.2.2.1 2 rfl⟩

/-- C30 at `link("/a", "/b")` with the errno values of Linux: `Fuse::link` returns 38, the
positive `ENOSYS`, which is not negative, while its sibling `rename` reports a failure as
the negative `-EIO`.  For every pair of paths `link` returns `ENOSYS` itself and leaves the
state untouched. -/
theorem C30_link_returns_positive_ENOSYS :
    Fuse.link Sample.fuseEnv Sample.fuse "/a" "/b" ⟨0, [], 0⟩ = (Except.ok 38, ⟨0, [], 0⟩)
    ∧ ¬ ((38 : Int) < 0)
    ∧ (Fuse.link Sample.fuseEnv Sample.fuse "/a" "/b" ⟨0, [], 0⟩).1
      ≠ Except.ok (- Sample.fuseEnv.ENOSYS)
    ∧ (Fuse.rename Sample.fuseEnv Sample.fuse "a" "/b" ⟨0, [], 0⟩).1 = Except.ok (-5)
    ∧ (∀ (σ : Type) (fenv : FuseEnv) (self : Fuse σ) (src dst : String) (s : FuseState σ),
        Fuse.link fenv self src dst s = (Except.ok fenv.ENOSYS, s)) := by
  refine ⟨rfl, by decide, ?_, rfl, ?_⟩
  · intro h
    have h1 : (Except.ok (38 : Int) : Except FuseThrown Int) = Except.ok (-38) := h
    injection h1 with h1
    exact absurd h1 (by decide)
  · intro σ fenv self src dst s
    rfl

end cryfs
